import Mathlib

/-!
HWComposer: a shallow embedding of the display backend adapter

Source: `services/surfaceflinger/DisplayHardware/HWComposer.cpp`.

The composer HAL (`Hwc2::Composer`, `HWC2::Display`) is outside the embedded
source.  Every HAL call is answered by a `Backend` record of responses that is
passed to the operation making the call, and every operation reports the HAL
calls it issued as a list of `Call`s.  The members of `HWComposer` and of
`HWComposer::DisplayData` are explicit fields of the state.
-/

namespace HWC

/-! ## Associative containers (`std::unordered_map`) -/

/-- Embeds `std::unordered_map::find`: the value bound to `k`, if any. -/
def Map.find {K V : Type} [DecidableEq K] : List (K × V) → K → Option V
  | [], _ => none
  | (k', v) :: m, k => if k' = k then some v else Map.find m k

/-- Embeds `std::unordered_map::erase(key)`. -/
def Map.erase {K V : Type} [DecidableEq K] : List (K × V) → K → List (K × V)
  | [], _ => []
  | (k', v) :: m, k => if k' = k then Map.erase m k else (k', v) :: Map.erase m k

/-- Assignment through `operator[]`: binds `k` to `v`, replacing an older binding. -/
def Map.insert {K V : Type} [DecidableEq K] : List (K × V) → K → V → List (K × V)
  | [], k, v => [(k, v)]
  | (k', v') :: m, k, v => if k' = k then (k, v) :: m else (k', v') :: Map.insert m k v

/-- Embeds `std::unordered_map::count(key) > 0`. -/
def Map.contains {K V : Type} [DecidableEq K] (m : List (K × V)) (k : K) : Bool :=
  (Map.find m k).isSome

/-! ## HAL types -/

/-- Embeds `hal::Error`, with the value 5 (`ERROR_HAS_CHANGES`) that `hasChangesError` tests for. -/
inductive Error where
  | NONE
  | BAD_CONFIG
  | BAD_DISPLAY
  | BAD_LAYER
  | BAD_PARAMETER
  | HAS_CHANGES
  | NO_RESOURCES
  | NOT_VALIDATED
  | UNSUPPORTED
  | SEAMLESS_NOT_ALLOWED
  | SEAMLESS_NOT_POSSIBLE
  deriving DecidableEq, Repr

/-- Modelled from the spec: `hasChangesError` is declared outside the source file; it
recognises the "has-changes" sentinel error of the validate/present boundary. -/
def hasChangesError : Error → Bool
  | .HAS_CHANGES => true
  | _ => false

/-- Embeds `status_t` values returned by HWComposer. -/
inductive Status where
  | NO_ERROR
  | UNKNOWN_ERROR
  | BAD_INDEX
  | BAD_VALUE
  | INVALID_OPERATION
  deriving DecidableEq, Repr

/-- Embeds `hal::Connection`. -/
inductive Connection where
  | INVALID
  | CONNECTED
  | DISCONNECTED
  deriving DecidableEq, Repr

/-- Embeds `hal::Vsync`. -/
inductive Vsync where
  | INVALID
  | ENABLE
  | DISABLE
  deriving DecidableEq, Repr

/-- Embeds `hal::PowerMode`. -/
inductive PowerMode where
  | OFF
  | DOZE
  | ON
  | DOZE_SUSPEND
  | ON_SUSPEND
  deriving DecidableEq, Repr

/-- Embeds `hal::Attribute`, the attributes `loadModes` asks for. -/
inductive Attribute where
  | WIDTH
  | HEIGHT
  | VSYNC_PERIOD
  | DPI_X
  | DPI_Y
  | CONFIG_GROUP
  deriving DecidableEq, Repr

/-- Embeds `hal::DisplayType`. -/
inductive DisplayType where
  | PHYSICAL
  | VIRTUAL
  deriving DecidableEq, Repr

/-- Embeds `sp<Fence>`: a null pointer, the `Fence::NO_FENCE` sentinel, or a fence object. -/
inductive Fence where
  | null
  | NO_FENCE
  | fd (n : Nat)
  deriving DecidableEq, Repr

/-- Embeds `hal::HWDisplayId`, the backend handle of a display. -/
abbrev HWDisplayId := Nat

/-- Embeds `hal::HWConfigId`. -/
abbrev HWConfigId := Nat

/-- Embeds `HWC2::Layer*`, a layer handle. -/
abbrev LayerHandle := Nat

/-- Embeds `PhysicalDisplayId`. -/
structure PhysicalDisplayId where
  value : Nat
  deriving DecidableEq, Repr

/-- Embeds `HalVirtualDisplayId`. -/
structure HalVirtualDisplayId where
  value : Nat
  deriving DecidableEq, Repr

/-- Embeds `HalDisplayId`: a physical display or a HAL-backed virtual display. -/
inductive HalDisplayId where
  | physical (id : PhysicalDisplayId)
  | virtual (id : HalVirtualDisplayId)
  deriving DecidableEq, Repr

/-! ## Display records -/

/-- Embeds `DisplayMode` as assembled by `DisplayMode::Builder` in `loadModes`; every attribute
holds the `int32_t` handed to the builder. -/
structure DisplayMode where
  hwcId : HWConfigId
  id : Nat
  width : Int
  height : Int
  vsyncPeriod : Int
  dpiX : Int
  dpiY : Int
  configGroup : Int
  deriving DecidableEq, Repr

/-- Modelled from the spec: the class `HWC2::impl::Display` is declared outside the
source file.  This is the part of it that HWComposer reads and writes: the backend
handle (`getId`), the display type and the connected flag (`isConnected`, `setConnected`). -/
structure HwcDisplay where
  id : HWDisplayId
  type : DisplayType
  isConnected : Bool
  deriving DecidableEq, Repr

/-- Modelled from the spec: the struct `HWComposer::DisplayData` is declared outside the
source file; these are the members the embedded operations read and write (the spec's
DisplayRecord). -/
structure DisplayData where
  isVirtual : Bool
  hwcDisplay : HwcDisplay
  lastPresentFence : Fence
  releaseFences : List (LayerHandle × Fence)
  modes : List DisplayMode
  validateWasSkipped : Bool
  presentError : Error
  vsyncTraceToggle : Bool
  vsyncEnabled : Vsync
  lastHwVsync : Int
  deriving DecidableEq, Repr

/-- Modelled from the spec: the member initialisers of `DisplayData` are declared outside
the source file.  This is the value-initialised record that `mDisplayData[id]` creates
for a new key, with its `hwcDisplay` pointer assigned. -/
def DisplayData.fresh (hwcDisplay : HwcDisplay) : DisplayData :=
  { isVirtual := false
    hwcDisplay := hwcDisplay
    lastPresentFence := Fence.NO_FENCE
    releaseFences := []
    modes := []
    validateWasSkipped := false
    presentError := Error.NONE
    vsyncTraceToggle := false
    vsyncEnabled := Vsync.DISABLE
    lastHwVsync := 0 }

/-- Embeds `DisplayIdentificationInfo`; `deviceProductInfo` is kept as an uninterpreted value. -/
structure DisplayIdentificationInfo where
  id : PhysicalDisplayId
  name : String
  deviceProductInfo : Option Nat
  deriving DecidableEq, Repr

/-- Embeds `DeviceRequestedChanges`, with the backend's containers kept as plain values. -/
structure DeviceRequestedChanges where
  changedTypes : List (LayerHandle × Nat)
  displayRequests : Nat
  layerRequests : List (LayerHandle × Nat)
  clientTargetProperty : Nat × Nat
  deriving DecidableEq, Repr

/-! ## The virtual display identifier pool -/

/-- Modelled from the spec: the generator behind `mVirtualIdGenerator` (`nextId`,
`markUnused`) is declared outside the source file.  The spec describes a bounded pool
of reusable identifiers; the pool holds its bound and the identifiers in use. -/
structure VirtualIdGenerator where
  maxIdsCount : Nat
  usedIds : List Nat
  deriving DecidableEq, Repr

/-- Modelled from the spec: `nextId` of the missing generator.  It yields nothing when
the pool is exhausted, otherwise an identifier below the bound that is not in use (the
least one), and marks it as in use. -/
def VirtualIdGenerator.nextId (g : VirtualIdGenerator) :
    Option HalVirtualDisplayId × VirtualIdGenerator :=
  match (List.range g.maxIdsCount).find? (fun n => decide (n ∉ g.usedIds)) with
  | none => (none, g)
  | some n => (some ⟨n⟩, { g with usedIds := n :: g.usedIds })

/-- Modelled from the spec: `markUnused` of the missing generator returns the
identifier to the pool. -/
def VirtualIdGenerator.markUnused (g : VirtualIdGenerator) (id : HalVirtualDisplayId) :
    VirtualIdGenerator :=
  { g with usedIds := g.usedIds.filter (fun n => decide (n ≠ id.value)) }

/-! ## The composer HAL as seen from HWComposer -/

/-- Values left in the out-parameters of `Display::presentOrValidate`. -/
structure PresentOrValidateResult where
  error : Error
  numTypes : Nat
  numRequests : Nat
  outPresentFence : Fence
  state : Nat
  deriving DecidableEq, Repr

/-- Result of `Composer::getDisplayIdentificationData`. -/
structure IdentificationResult where
  error : Error
  port : Nat
  data : List Nat
  deriving DecidableEq, Repr

/-- Responses of the composer HAL.  Each field answers one HAL entry point; an error
is paired with the values the call leaves in its out-parameters. -/
structure Backend where
  getDisplayIdentificationData : HWDisplayId → IdentificationResult
  getDisplayConfigs : HWDisplayId → Error × List HWConfigId
  getDisplayAttribute : HWDisplayId → HWConfigId → Attribute → Error × Int
  createVirtualDisplay : Nat → Nat → Error × HWDisplayId
  presentOrValidate : HWDisplayId → PresentOrValidateResult
  validate : HWDisplayId → Error × Nat × Nat
  getChangedCompositionTypes : HWDisplayId → Error × List (LayerHandle × Nat)
  getRequests : HWDisplayId → Error × Nat × List (LayerHandle × Nat)
  getClientTargetProperty : HWDisplayId → Error × (Nat × Nat)
  acceptChanges : HWDisplayId → Error
  present : HWDisplayId → Fence → Error × Fence
  getReleaseFences : HWDisplayId → Error × List (LayerHandle × Fence)
  executeCommands : Error
  setVsyncEnabled : HWDisplayId → Vsync → Error
  supportsDoze : HWDisplayId → Error × Bool
  setPowerMode : HWDisplayId → PowerMode → Error
  getActiveConfig : HWDisplayId → Error × HWConfigId
  isVsyncPeriodSwitchSupported : HWDisplayId → Bool
  getDisplayVsyncPeriod : HWDisplayId → Error × Nat
  setActiveConfigWithConstraints : HWDisplayId → HWConfigId → Error
  setAutoLowLatencyMode : HWDisplayId → Bool → Error
  setContentType : HWDisplayId → Nat → Error
  setDisplayContentSamplingEnabled : HWDisplayId → Bool → Nat → Nat → Error

/-- A HAL call issued by HWComposer. -/
inductive Call where
  | getDisplayIdentificationData (d : HWDisplayId)
  | getDisplayConfigs (d : HWDisplayId)
  | getDisplayAttribute (d : HWDisplayId) (c : HWConfigId) (a : Attribute)
  | createVirtualDisplay (width height : Nat)
  | presentOrValidate (d : HWDisplayId)
  | validate (d : HWDisplayId)
  | getChangedCompositionTypes (d : HWDisplayId)
  | getRequests (d : HWDisplayId)
  | getClientTargetProperty (d : HWDisplayId)
  | acceptChanges (d : HWDisplayId)
  | present (d : HWDisplayId)
  | getReleaseFences (d : HWDisplayId)
  | executeCommands
  | setVsyncEnabled (d : HWDisplayId) (v : Vsync)
  | supportsDoze (d : HWDisplayId)
  | setPowerMode (d : HWDisplayId) (m : PowerMode)
  | getActiveConfig (d : HWDisplayId)
  | getDisplayVsyncPeriod (d : HWDisplayId)
  | setActiveConfigWithConstraints (d : HWDisplayId) (c : HWConfigId)
  | setAutoLowLatencyMode (d : HWDisplayId) (enable : Bool)
  | setContentType (d : HWDisplayId) (contentType : Nat)
  | setDisplayContentSamplingEnabled (d : HWDisplayId) (enabled : Bool)
      (componentMask maxFrames : Nat)
  deriving DecidableEq, Repr

/-- Declarations that HWComposer.cpp uses and that live outside it. -/
structure Env where
  parseDisplayIdentificationData : Nat → List Nat → Option DisplayIdentificationInfo
  fromPort : Nat → PhysicalDisplayId
  LEGACY_DISPLAY_TYPE_PRIMARY : Nat
  LEGACY_DISPLAY_TYPE_EXTERNAL : Nat
  maxVirtualDisplaySize : Nat

/-! ## HWComposer state -/

/-- Modelled from the spec: the class `impl::HWComposer` is declared outside the source
file; these are the data members the embedded operations use. -/
structure HWComposer where
  mDisplayData : List (HalDisplayId × DisplayData)
  mPhysicalDisplayIdMap : List (HWDisplayId × PhysicalDisplayId)
  mInternalHwcDisplayId : Option HWDisplayId
  mExternalHwcDisplayId : Option HWDisplayId
  mHasMultiDisplaySupport : Bool
  mVirtualIdGenerator : VirtualIdGenerator
  mUpdateDeviceProductInfoOnHotplugReconnect : Bool

/-- Modelled from the spec: the state of a newly constructed HWComposer (no display
registered, no backend handle mapped, both legacy slots empty, an empty pool). -/
def HWComposer.initial (maxVirtualDisplays : Nat) (updateProductInfo : Bool) : HWComposer :=
  { mDisplayData := []
    mPhysicalDisplayIdMap := []
    mInternalHwcDisplayId := none
    mExternalHwcDisplayId := none
    mHasMultiDisplaySupport := false
    mVirtualIdGenerator := { maxIdsCount := maxVirtualDisplays, usedIds := [] }
    mUpdateDeviceProductInfoOnHotplugReconnect := updateProductInfo }

/-- What an operation leaves behind: the new state, its return value and the HAL calls
it issued, in order. -/
structure Outcome (α : Type) where
  state : HWComposer
  result : α
  calls : List Call

/-! ## Lookups -/

/-- Embeds `HWComposer::toPhysicalDisplayId`. -/
def toPhysicalDisplayId (s : HWComposer) (hwcDisplayId : HWDisplayId) :
    Option PhysicalDisplayId :=
  Map.find s.mPhysicalDisplayIdMap hwcDisplayId

/-- Embeds `HWComposer::fromPhysicalDisplayId`. -/
def fromPhysicalDisplayId (s : HWComposer) (displayId : PhysicalDisplayId) :
    Option HWDisplayId :=
  match Map.find s.mDisplayData (.physical displayId) with
  | some d => if d.isVirtual then none else some d.hwcDisplay.id
  | none => none

/-- Embeds `HWComposer::isConnected`; an unregistered display is reported as not connected
(`RETURN_IF_INVALID_DISPLAY(displayId, false)`). -/
def isConnected (s : HWComposer) (displayId : PhysicalDisplayId) : Bool :=
  match Map.find s.mDisplayData (.physical displayId) with
  | none => false
  | some d => d.hwcDisplay.isConnected

/-- Embeds `HWComposer::getModes`. -/
def getModes (s : HWComposer) (displayId : PhysicalDisplayId) : List DisplayMode :=
  match Map.find s.mDisplayData (.physical displayId) with
  | none => []
  | some d => d.modes

/-- A diagnostic written to the log by `LOG_DISPLAY_ERROR` or `LOG_HWC_ERROR`. -/
inductive Diagnostic where
  | invalidDisplay
  | noActiveMode
  | unknownMode
  | hwcError (error : Error)
  deriving DecidableEq, Repr

/-- What `getActiveMode` hands back: the returned mode pointer (`none` is `nullptr`), the
diagnostic it logged, and the HAL calls issued. -/
structure ActiveModeOutcome where
  mode : Option DisplayMode
  log : Option Diagnostic
  calls : List Call
  deriving DecidableEq, Repr

/-- Embeds `HWComposer::getActiveMode`.  For a record flagged virtual the source
dereferences the empty result of `fromPhysicalDisplayId`; that case yields no result
here. -/
def getActiveMode (hw : Backend) (s : HWComposer) (displayId : PhysicalDisplayId) :
    ActiveModeOutcome :=
  match Map.find s.mDisplayData (.physical displayId) with
  | none => { mode := none, log := some Diagnostic.invalidDisplay, calls := [] }
  | some d =>
      match fromPhysicalDisplayId s displayId with
      | none => { mode := none, log := none, calls := [] }
      | some hwcId =>
          let r := hw.getActiveConfig hwcId
          if r.1 = Error.BAD_CONFIG then
            { mode := none, log := some Diagnostic.noActiveMode
              calls := [Call.getActiveConfig hwcId] }
          else if r.1 ≠ Error.NONE then
            { mode := none, log := some (Diagnostic.hwcError r.1)
              calls := [Call.getActiveConfig hwcId] }
          else
            match d.modes.find? (fun m => decide (m.hwcId = r.2)) with
            | none =>
                { mode := none, log := some Diagnostic.unknownMode
                  calls := [Call.getActiveConfig hwcId] }
            | some m => { mode := some m, log := none, calls := [Call.getActiveConfig hwcId] }

/-- Embeds `HWComposer::getDisplayVsyncPeriod`; `0` is what the source returns for an
unregistered display, for a backend error and for a missing active mode.  Whether the
display supports vsync period switching is answered by the backend display. -/
def getDisplayVsyncPeriod (hw : Backend) (s : HWComposer) (displayId : PhysicalDisplayId) :
    Int :=
  match Map.find s.mDisplayData (.physical displayId) with
  | none => 0
  | some d =>
      if hw.isVsyncPeriodSwitchSupported d.hwcDisplay.id then
        match fromPhysicalDisplayId s displayId with
        | none => 0
        | some hwcId =>
            let r := hw.getDisplayVsyncPeriod hwcId
            if r.1 ≠ Error.NONE then 0 else (r.2 : Int)
      else
        match (getActiveMode hw s displayId).mode with
        | none => 0
        | some mode => mode.vsyncPeriod

/-- Embeds `HWComposer::getRefreshTimestamp`, with `now` the reading of the monotonic
clock.  The result is `none` when the source takes the remainder by a zero vsync
period, which is undefined. -/
def getRefreshTimestamp (hw : Backend) (s : HWComposer) (displayId : PhysicalDisplayId)
    (now : Int) : Option Int :=
  match Map.find s.mDisplayData (.physical displayId) with
  | none => some 0
  | some d =>
      let vsyncPeriodNanos := getDisplayVsyncPeriod hw s displayId
      if vsyncPeriodNanos = 0 then none
      else some (now - (now - d.lastHwVsync).tmod vsyncPeriodNanos)

/-- Embeds `HWComposer::setActiveModeWithConstraints`; the constraints and the timeline
handed through to the backend are not represented.  The bounds check
`modeId.value() >= displayData.modes.size()` is the `none` case of the indexed lookup. -/
def setActiveModeWithConstraints (hw : Backend) (s : HWComposer)
    (displayId : PhysicalDisplayId) (modeId : Nat) : Status × List Call :=
  match Map.find s.mDisplayData (.physical displayId) with
  | none => (Status.BAD_INDEX, [])
  | some displayData =>
      match displayData.modes[modeId]? with
      | none => (Status.BAD_INDEX, [])
      | some mode =>
          let error := hw.setActiveConfigWithConstraints displayData.hwcDisplay.id mode.hwcId
          if error ≠ Error.NONE then
            (Status.UNKNOWN_ERROR,
              [Call.setActiveConfigWithConstraints displayData.hwcDisplay.id mode.hwcId])
          else
            (Status.NO_ERROR,
              [Call.setActiveConfigWithConstraints displayData.hwcDisplay.id mode.hwcId])

/-- Embeds `HWComposer::setDisplayContentSamplingEnabled`. -/
def setDisplayContentSamplingEnabled (hw : Backend) (s : HWComposer) (displayId : HalDisplayId)
    (enabled : Bool) (componentMask maxFrames : Nat) : Status × List Call :=
  match Map.find s.mDisplayData displayId with
  | none => (Status.BAD_INDEX, [])
  | some d =>
      let error :=
        hw.setDisplayContentSamplingEnabled d.hwcDisplay.id enabled componentMask maxFrames
      let calls :=
        [Call.setDisplayContentSamplingEnabled d.hwcDisplay.id enabled componentMask maxFrames]
      if error = Error.UNSUPPORTED then (Status.INVALID_OPERATION, calls)
      else if error = Error.BAD_PARAMETER then (Status.BAD_VALUE, calls)
      else if error ≠ Error.NONE then (Status.UNKNOWN_ERROR, calls)
      else (Status.NO_ERROR, calls)

/-- Embeds `HWComposer::setAutoLowLatencyMode`. -/
def setAutoLowLatencyMode (hw : Backend) (s : HWComposer) (displayId : PhysicalDisplayId)
    (enable : Bool) : Status × List Call :=
  match Map.find s.mDisplayData (.physical displayId) with
  | none => (Status.BAD_INDEX, [])
  | some d =>
      let error := hw.setAutoLowLatencyMode d.hwcDisplay.id enable
      let calls := [Call.setAutoLowLatencyMode d.hwcDisplay.id enable]
      if error = Error.UNSUPPORTED then (Status.INVALID_OPERATION, calls)
      else if error = Error.BAD_PARAMETER then (Status.BAD_VALUE, calls)
      else if error ≠ Error.NONE then (Status.UNKNOWN_ERROR, calls)
      else (Status.NO_ERROR, calls)

/-- Embeds `HWComposer::setContentType`. -/
def setContentType (hw : Backend) (s : HWComposer) (displayId : PhysicalDisplayId)
    (contentType : Nat) : Status × List Call :=
  match Map.find s.mDisplayData (.physical displayId) with
  | none => (Status.BAD_INDEX, [])
  | some d =>
      let error := hw.setContentType d.hwcDisplay.id contentType
      let calls := [Call.setContentType d.hwcDisplay.id contentType]
      if error = Error.UNSUPPORTED then (Status.INVALID_OPERATION, calls)
      else if error = Error.BAD_PARAMETER then (Status.BAD_VALUE, calls)
      else if error ≠ Error.NONE then (Status.UNKNOWN_ERROR, calls)
      else (Status.NO_ERROR, calls)

/-- The status that the three setters above return for a backend error. -/
def setterStatus : Error → Status
  | Error.NONE => Status.NO_ERROR
  | Error.UNSUPPORTED => Status.INVALID_OPERATION
  | Error.BAD_PARAMETER => Status.BAD_VALUE
  | _ => Status.UNKNOWN_ERROR

/-- Whether a HAL call is one of the two validation calls. -/
def Call.isValidation : Call → Bool
  | .presentOrValidate _ => true
  | .validate _ => true
  | _ => false

/-! ## Mode loading -/

/-- Embeds `HWComposer::getAttribute`: the attribute value, or `-1` when the HAL reports an
error (`RETURN_IF_HWC_ERROR_FOR(..., -1)`). -/
def getAttribute (hw : Backend) (hwcDisplayId : HWDisplayId) (configId : HWConfigId)
    (attr : Attribute) : Int :=
  let r := hw.getDisplayAttribute hwcDisplayId configId attr
  if r.1 ≠ Error.NONE then -1 else r.2

/-- The `DisplayMode::Builder` chain in the body of the loop of `loadModes`. -/
def buildMode (hw : Backend) (hwcDisplayId : HWDisplayId) (configId : HWConfigId)
    (index : Nat) : DisplayMode :=
  { hwcId := configId
    id := index
    width := getAttribute hw hwcDisplayId configId Attribute.WIDTH
    height := getAttribute hw hwcDisplayId configId Attribute.HEIGHT
    vsyncPeriod := getAttribute hw hwcDisplayId configId Attribute.VSYNC_PERIOD
    dpiX := getAttribute hw hwcDisplayId configId Attribute.DPI_X
    dpiY := getAttribute hw hwcDisplayId configId Attribute.DPI_Y
    configGroup := getAttribute hw hwcDisplayId configId Attribute.CONFIG_GROUP }

/-- The HAL calls made while building the mode of one configuration. -/
def attributeCalls (hwcDisplayId : HWDisplayId) (configId : HWConfigId) : List Call :=
  [Attribute.WIDTH, Attribute.HEIGHT, Attribute.VSYNC_PERIOD, Attribute.DPI_X, Attribute.DPI_Y,
    Attribute.CONFIG_GROUP].map (Call.getDisplayAttribute hwcDisplayId configId)

/-- The loop of `loadModes`: one mode is pushed per configuration id, and its logical
index is the size of the vector at that moment. -/
def loadModesLoop (hw : Backend) (hwcDisplayId : HWDisplayId) :
    List HWConfigId → List DisplayMode → List DisplayMode
  | [], modes => modes
  | configId :: rest, modes =>
      loadModesLoop hw hwcDisplayId rest
        (modes ++ [buildMode hw hwcDisplayId configId modes.length])

/-- Embeds `HWComposer::loadModes` on one display record. -/
def loadModes (hw : Backend) (displayData : DisplayData) (hwcDisplayId : HWDisplayId) :
    DisplayData × List Call :=
  let r := hw.getDisplayConfigs hwcDisplayId
  if r.1 ≠ Error.NONE then
    (displayData, [Call.getDisplayConfigs hwcDisplayId])
  else
    ({ displayData with modes := loadModesLoop hw hwcDisplayId r.2 [] },
      Call.getDisplayConfigs hwcDisplayId :: r.2.flatMap (attributeCalls hwcDisplayId))

/-! ## Physical displays and hotplug -/

/-- Embeds `HWComposer::allocatePhysicalDisplay`. -/
def allocatePhysicalDisplay (hw : Backend) (s : HWComposer) (hwcDisplayId : HWDisplayId)
    (displayId : PhysicalDisplayId) : HWComposer × List Call :=
  let internal : Option HWDisplayId :=
    match s.mInternalHwcDisplayId with
    | none => some hwcDisplayId
    | some i => some i
  let external : Option HWDisplayId :=
    match s.mInternalHwcDisplayId with
    | none => s.mExternalHwcDisplayId
    | some i =>
        if i ≠ hwcDisplayId ∧ s.mExternalHwcDisplayId = none then some hwcDisplayId
        else s.mExternalHwcDisplayId
  let newDisplay : HwcDisplay :=
    { id := hwcDisplayId, type := DisplayType.PHYSICAL, isConnected := true }
  let displayData : DisplayData :=
    match Map.find s.mDisplayData (.physical displayId) with
    | some d => { d with hwcDisplay := newDisplay }
    | none => DisplayData.fresh newDisplay
  let loaded := loadModes hw displayData hwcDisplayId
  ({ s with
      mPhysicalDisplayIdMap := Map.insert s.mPhysicalDisplayIdMap hwcDisplayId displayId
      mInternalHwcDisplayId := internal
      mExternalHwcDisplayId := external
      mDisplayData := Map.insert s.mDisplayData (.physical displayId) loaded.1 },
    loaded.2)

/-- Embeds `HWComposer::getDisplayIdentificationData`: whether the HAL delivered the data. -/
def hasIdentificationData (hw : Backend) (hwcDisplayId : HWDisplayId) : Bool :=
  decide ((hw.getDisplayIdentificationData hwcDisplayId).error = Error.NONE)

/-- Embeds `HWComposer::shouldIgnoreHotplugConnect`. -/
def shouldIgnoreHotplugConnect (s : HWComposer) (hasDisplayIdentificationData : Bool) : Bool :=
  if s.mHasMultiDisplaySupport && !hasDisplayIdentificationData then true
  else if !s.mHasMultiDisplaySupport && s.mInternalHwcDisplayId.isSome
      && s.mExternalHwcDisplayId.isSome then true
  else false

/-- The tail of `onHotplugConnect`: allocate the display unless it is connected, and
return the identification info. -/
def finishHotplugConnect (hw : Backend) (s : HWComposer) (hwcDisplayId : HWDisplayId)
    (info : DisplayIdentificationInfo) (calls : List Call) :
    Outcome (Option DisplayIdentificationInfo) :=
  if !isConnected s info.id then
    let a := allocatePhysicalDisplay hw s hwcDisplayId info.id
    { state := a.1, result := some info, calls := calls ++ a.2 }
  else
    { state := s, result := some info, calls := calls }

/-- The identification info chosen by the lambda in `onHotplugConnect` for a handle that
has no identity yet. -/
def newDisplayInfo (env : Env) (s : HWComposer) (r : IdentificationResult) :
    DisplayIdentificationInfo :=
  let isPrimary : Bool := s.mInternalHwcDisplayId.isNone
  let fallbackName : String := if isPrimary then "Internal display" else "External display"
  if s.mHasMultiDisplaySupport then
    match env.parseDisplayIdentificationData r.port r.data with
    | some info => info
    | none => { id := env.fromPort r.port, name := fallbackName, deviceProductInfo := none }
  else
    { id := env.fromPort
        (if isPrimary then env.LEGACY_DISPLAY_TYPE_PRIMARY else env.LEGACY_DISPLAY_TYPE_EXTERNAL)
      name := fallbackName
      deviceProductInfo := none }

/-- The mode selection in `onHotplugConnect`: while no backend handle is mapped, the
presence of identification data decides between generalized and legacy mode. -/
def selectMultiDisplayMode (s : HWComposer) (hasDisplayIdentificationData : Bool) : HWComposer :=
  if s.mPhysicalDisplayIdMap.isEmpty then
    { s with mHasMultiDisplaySupport := hasDisplayIdentificationData }
  else s

/-- Embeds `HWComposer::onHotplugConnect`. -/
def onHotplugConnect (env : Env) (hw : Backend) (s : HWComposer) (hwcDisplayId : HWDisplayId) :
    Outcome (Option DisplayIdentificationInfo) :=
  match toPhysicalDisplayId s hwcDisplayId with
  | some displayId =>
      let info : DisplayIdentificationInfo :=
        { id := displayId, name := "", deviceProductInfo := none }
      if s.mUpdateDeviceProductInfoOnHotplugReconnect then
        let r := hw.getDisplayIdentificationData hwcDisplayId
        let info' : DisplayIdentificationInfo :=
          match env.parseDisplayIdentificationData r.port r.data with
          | some newInfo => { info with deviceProductInfo := newInfo.deviceProductInfo }
          | none => info
        finishHotplugConnect hw s hwcDisplayId info'
          [Call.getDisplayIdentificationData hwcDisplayId]
      else
        finishHotplugConnect hw s hwcDisplayId info []
  | none =>
      let r := hw.getDisplayIdentificationData hwcDisplayId
      let hasDisplayIdentificationData := hasIdentificationData hw hwcDisplayId
      let s1 : HWComposer := selectMultiDisplayMode s hasDisplayIdentificationData
      if shouldIgnoreHotplugConnect s1 hasDisplayIdentificationData then
        { state := s1, result := none, calls := [Call.getDisplayIdentificationData hwcDisplayId] }
      else
        finishHotplugConnect hw s1 hwcDisplayId (newDisplayInfo env s1 r)
          [Call.getDisplayIdentificationData hwcDisplayId]

/-- Embeds `HWComposer::onHotplugDisconnect`. -/
def onHotplugDisconnect (s : HWComposer) (hwcDisplayId : HWDisplayId) :
    Outcome (Option DisplayIdentificationInfo) :=
  match toPhysicalDisplayId s hwcDisplayId with
  | none => { state := s, result := none, calls := [] }
  | some displayId =>
      let info : DisplayIdentificationInfo :=
        { id := displayId, name := "", deviceProductInfo := none }
      match Map.find s.mDisplayData (.physical displayId) with
      | some d =>
          if d.hwcDisplay.isConnected then
            { state :=
                { s with
                  mDisplayData := Map.insert s.mDisplayData (.physical displayId)
                    { d with hwcDisplay := { d.hwcDisplay with isConnected := false } } }
              result := some info
              calls := [] }
          else { state := s, result := some info, calls := [] }
      | none => { state := s, result := some info, calls := [] }

/-- Embeds `HWComposer::onHotplug`. -/
def onHotplug (env : Env) (hw : Backend) (s : HWComposer) (hwcDisplayId : HWDisplayId)
    (connection : Connection) : Outcome (Option DisplayIdentificationInfo) :=
  match connection with
  | .CONNECTED => onHotplugConnect env hw s hwcDisplayId
  | .DISCONNECTED => onHotplugDisconnect s hwcDisplayId
  | .INVALID => { state := s, result := none, calls := [] }

/-- Embeds `HWComposer::disconnectDisplay`.  A record flagged virtual is always stored under a
virtual identifier, so the `tryCast` in the source succeeds. -/
def disconnectDisplay (s : HWComposer) (displayId : HalDisplayId) : HWComposer :=
  match Map.find s.mDisplayData displayId with
  | none => s
  | some displayData =>
      let generator : VirtualIdGenerator :=
        if displayData.isVirtual then
          match displayId with
          | .virtual v => s.mVirtualIdGenerator.markUnused v
          | .physical _ => s.mVirtualIdGenerator
        else s.mVirtualIdGenerator
      let hwcDisplayId := displayData.hwcDisplay.id
      let internal : Option HWDisplayId :=
        if some hwcDisplayId = s.mInternalHwcDisplayId then none else s.mInternalHwcDisplayId
      let external : Option HWDisplayId :=
        if some hwcDisplayId = s.mInternalHwcDisplayId then s.mExternalHwcDisplayId
        else if some hwcDisplayId = s.mExternalHwcDisplayId then none
        else s.mExternalHwcDisplayId
      { s with
        mVirtualIdGenerator := generator
        mInternalHwcDisplayId := internal
        mExternalHwcDisplayId := external
        mPhysicalDisplayIdMap := Map.erase s.mPhysicalDisplayIdMap hwcDisplayId
        mDisplayData := Map.erase s.mDisplayData displayId }

/-! ## Vsync and power -/

/-- Embeds `HWComposer::onVsync`: the new state and whether the signal was accepted. -/
def onVsync (s : HWComposer) (hwcDisplayId : HWDisplayId) (timestamp : Int) :
    HWComposer × Bool :=
  match toPhysicalDisplayId s hwcDisplayId with
  | none => (s, false)
  | some displayId =>
      match Map.find s.mDisplayData (.physical displayId) with
      | none => (s, false)
      | some displayData =>
          if timestamp = displayData.lastHwVsync then (s, false)
          else
            ({ s with
                mDisplayData := Map.insert s.mDisplayData (.physical displayId)
                  { displayData with
                    lastHwVsync := timestamp
                    vsyncTraceToggle := !displayData.vsyncTraceToggle } },
              true)

/-- Embeds `HWComposer::setVsyncEnabled`: the new state and the HAL calls issued. -/
def setVsyncEnabled (hw : Backend) (s : HWComposer) (displayId : PhysicalDisplayId)
    (enabled : Vsync) : HWComposer × List Call :=
  match Map.find s.mDisplayData (.physical displayId) with
  | none => (s, [])
  | some displayData =>
      if enabled = displayData.vsyncEnabled then (s, [])
      else
        let error := hw.setVsyncEnabled displayData.hwcDisplay.id enabled
        if error ≠ Error.NONE then
          (s, [Call.setVsyncEnabled displayData.hwcDisplay.id enabled])
        else
          ({ s with
              mDisplayData := Map.insert s.mDisplayData (.physical displayId)
                { displayData with vsyncEnabled := enabled } },
            [Call.setVsyncEnabled displayData.hwcDisplay.id enabled])

/-- Embeds `HWComposer::setPowerMode`. -/
def setPowerMode (hw : Backend) (s : HWComposer) (displayId : PhysicalDisplayId)
    (mode : PowerMode) : Outcome Status :=
  match Map.find s.mDisplayData (.physical displayId) with
  | none => { state := s, result := Status.BAD_INDEX, calls := [] }
  | some displayData =>
      let off : HWComposer × List Call :=
        if mode = PowerMode.OFF then setVsyncEnabled hw s displayId Vsync.DISABLE else (s, [])
      let hwcId := displayData.hwcDisplay.id
      match mode with
      | .OFF | .ON =>
          { state := off.1, result := Status.NO_ERROR
            calls := off.2 ++ [Call.setPowerMode hwcId mode] }
      | .DOZE | .DOZE_SUSPEND =>
          let supportsDoze : Bool := (hw.supportsDoze hwcId).2
          let mode' : PowerMode := if !supportsDoze then PowerMode.ON else mode
          { state := off.1, result := Status.NO_ERROR
            calls := off.2 ++ [Call.supportsDoze hwcId, Call.setPowerMode hwcId mode'] }
      | .ON_SUSPEND => { state := off.1, result := Status.NO_ERROR, calls := off.2 }

/-! ## Virtual displays -/

/-- Embeds `HWComposer::allocateVirtualDisplay`; the pixel format handed through to the HAL is
not represented. -/
def allocateVirtualDisplay (env : Env) (hw : Backend) (s : HWComposer) (width height : Nat) :
    Outcome (Option HalDisplayId) :=
  if env.maxVirtualDisplaySize ≠ 0 ∧
      (width > env.maxVirtualDisplaySize ∨ height > env.maxVirtualDisplaySize) then
    { state := s, result := none, calls := [] }
  else
    match s.mVirtualIdGenerator.nextId with
    | (none, _) => { state := s, result := none, calls := [] }
    | (some displayId, generator) =>
        let r := hw.createVirtualDisplay width height
        if r.1 ≠ Error.NONE then
          { state := { s with mVirtualIdGenerator := generator.markUnused displayId }
            result := none
            calls := [Call.createVirtualDisplay width height] }
        else
          let display : HwcDisplay :=
            { id := r.2, type := DisplayType.VIRTUAL, isConnected := true }
          let displayData : DisplayData :=
            match Map.find s.mDisplayData (.virtual displayId) with
            | some d => { d with hwcDisplay := display, isVirtual := true }
            | none => { DisplayData.fresh display with isVirtual := true }
          { state :=
              { s with
                mVirtualIdGenerator := generator
                mDisplayData := Map.insert s.mDisplayData (.virtual displayId) displayData }
            result := some (.virtual displayId)
            calls := [Call.createVirtualDisplay width height] }

/-! ## Presentation -/

/-- What `getDeviceCompositionChanges` leaves behind: state, returned status, the
content of `*outChanges` and the HAL calls issued. -/
structure CompositionOutcome where
  state : HWComposer
  status : Status
  outChanges : Option DeviceRequestedChanges
  calls : List Call

/-- Store a display record back under its identifier. -/
def putDisplayData (s : HWComposer) (displayId : HalDisplayId) (d : DisplayData) : HWComposer :=
  { s with mDisplayData := Map.insert s.mDisplayData displayId d }

/-- The slow path of `getDeviceCompositionChanges`, from the check of the validation
error onwards.  `s` already holds `validateWasSkipped = false`. -/
def retrieveAndAcceptChanges (hw : Backend) (s : HWComposer) (hwcId : HWDisplayId)
    (error : Error) (outChanges : Option DeviceRequestedChanges) (calls : List Call) :
    CompositionOutcome :=
  if !hasChangesError error && decide (error ≠ Error.NONE) then
    { state := s, status := Status.BAD_INDEX, outChanges := outChanges, calls := calls }
  else
    let types := hw.getChangedCompositionTypes hwcId
    let calls1 := calls ++ [Call.getChangedCompositionTypes hwcId]
    if types.1 ≠ Error.NONE then
      { state := s, status := Status.BAD_INDEX, outChanges := outChanges, calls := calls1 }
    else
      let requests := hw.getRequests hwcId
      let calls2 := calls1 ++ [Call.getRequests hwcId]
      if requests.1 ≠ Error.NONE then
        { state := s, status := Status.BAD_INDEX, outChanges := outChanges, calls := calls2 }
      else
        let property := hw.getClientTargetProperty hwcId
        let changes : DeviceRequestedChanges :=
          { changedTypes := types.2
            displayRequests := requests.2.1
            layerRequests := requests.2.2
            clientTargetProperty := property.2 }
        let calls3 := calls2 ++ [Call.getClientTargetProperty hwcId, Call.acceptChanges hwcId]
        if hw.acceptChanges hwcId ≠ Error.NONE then
          { state := s, status := Status.BAD_INDEX, outChanges := some changes, calls := calls3 }
        else
          { state := s, status := Status.NO_ERROR, outChanges := some changes, calls := calls3 }

/-- Embeds `HWComposer::getDeviceCompositionChanges`; `outChanges` is the content of the
caller's optional before the call. -/
def getDeviceCompositionChanges (hw : Backend) (s : HWComposer) (displayId : HalDisplayId)
    (frameUsesClientComposition : Bool) (outChanges : Option DeviceRequestedChanges) :
    CompositionOutcome :=
  match Map.find s.mDisplayData displayId with
  | none => { state := s, status := Status.BAD_INDEX, outChanges := outChanges, calls := [] }
  | some displayData =>
      if !displayData.hwcDisplay.isConnected then
        { state := s, status := Status.NO_ERROR, outChanges := outChanges, calls := [] }
      else
        let hwcId := displayData.hwcDisplay.id
        let cleared : DisplayData := { displayData with validateWasSkipped := false }
        let s1 := putDisplayData s displayId cleared
        if !frameUsesClientComposition then
          let r := hw.presentOrValidate hwcId
          if !hasChangesError r.error && decide (r.error ≠ Error.NONE) then
            { state := s1, status := Status.UNKNOWN_ERROR, outChanges := outChanges
              calls := [Call.presentOrValidate hwcId] }
          else if r.state = 1 then
            let fences := hw.getReleaseFences hwcId
            { state := putDisplayData s displayId
                { cleared with
                  releaseFences := fences.2
                  lastPresentFence := r.outPresentFence
                  validateWasSkipped := true
                  presentError := fences.1 }
              status := Status.NO_ERROR
              outChanges := outChanges
              calls := [Call.presentOrValidate hwcId, Call.getReleaseFences hwcId] }
          else
            retrieveAndAcceptChanges hw s1 hwcId r.error outChanges
              [Call.presentOrValidate hwcId]
        else
          retrieveAndAcceptChanges hw s1 hwcId (hw.validate hwcId).1 outChanges
            [Call.validate hwcId]

/-- Embeds `HWComposer::presentAndGetReleaseFences`. -/
def presentAndGetReleaseFences (hw : Backend) (s : HWComposer) (displayId : HalDisplayId) :
    Outcome Status :=
  match Map.find s.mDisplayData displayId with
  | none => { state := s, result := Status.BAD_INDEX, calls := [] }
  | some displayData =>
      let hwcId := displayData.hwcDisplay.id
      if displayData.validateWasSkipped then
        if hw.executeCommands ≠ Error.NONE then
          { state := s, result := Status.UNKNOWN_ERROR, calls := [Call.executeCommands] }
        else if displayData.presentError ≠ Error.NONE then
          { state := s, result := Status.UNKNOWN_ERROR, calls := [Call.executeCommands] }
        else
          { state := s, result := Status.NO_ERROR, calls := [Call.executeCommands] }
      else
        let p := hw.present hwcId displayData.lastPresentFence
        let presented : DisplayData := { displayData with lastPresentFence := p.2 }
        let s1 := putDisplayData s displayId presented
        if p.1 ≠ Error.NONE then
          { state := s1, result := Status.UNKNOWN_ERROR, calls := [Call.present hwcId] }
        else
          let fences := hw.getReleaseFences hwcId
          if fences.1 ≠ Error.NONE then
            { state := s1, result := Status.UNKNOWN_ERROR
              calls := [Call.present hwcId, Call.getReleaseFences hwcId] }
          else
            { state := putDisplayData s displayId { presented with releaseFences := fences.2 }
              result := Status.NO_ERROR
              calls := [Call.present hwcId, Call.getReleaseFences hwcId] }

/-- The value of the local `error` of `getDeviceCompositionChanges` when the validation
call has returned: the answer of `presentOrValidate` for a frame without client
composition, the answer of `validate` for a frame with client composition. -/
def validationError (hw : Backend) (hwcId : HWDisplayId) (frameUsesClientComposition : Bool) :
    Error :=
  if frameUsesClientComposition then (hw.validate hwcId).1
  else (hw.presentOrValidate hwcId).error

/-! ## Concrete fixtures used by the worked examples -/

/-- A backend that answers every call with success and empty results. -/
def quietBackend : Backend :=
  { getDisplayIdentificationData := fun _ => { error := Error.UNSUPPORTED, port := 0, data := [] }
    getDisplayConfigs := fun _ => (Error.NONE, [])
    getDisplayAttribute := fun _ _ _ => (Error.NONE, 0)
    createVirtualDisplay := fun _ _ => (Error.NONE, 100)
    presentOrValidate := fun _ =>
      { error := Error.NONE, numTypes := 0, numRequests := 0, outPresentFence := Fence.fd 5
        state := 1 }
    validate := fun _ => (Error.NONE, 0, 0)
    getChangedCompositionTypes := fun _ => (Error.NONE, [])
    getRequests := fun _ => (Error.NONE, 0, [])
    getClientTargetProperty := fun _ => (Error.NONE, (0, 0))
    acceptChanges := fun _ => Error.NONE
    present := fun _ _ => (Error.NONE, Fence.fd 6)
    getReleaseFences := fun _ => (Error.NONE, [])
    executeCommands := Error.NONE
    setVsyncEnabled := fun _ _ => Error.NONE
    supportsDoze := fun _ => (Error.NONE, false)
    setPowerMode := fun _ _ => Error.NONE
    getActiveConfig := fun _ => (Error.NONE, 0)
    isVsyncPeriodSwitchSupported := fun _ => false
    getDisplayVsyncPeriod := fun _ => (Error.NONE, 16666666)
    setActiveConfigWithConstraints := fun _ _ => Error.NONE
    setAutoLowLatencyMode := fun _ _ => Error.NONE
    setContentType := fun _ _ => Error.NONE
    setDisplayContentSamplingEnabled := fun _ _ _ _ => Error.NONE }

/-- An environment with port-derived identifiers and the legacy slots 0 and 1. -/
def sampleEnv : Env :=
  { parseDisplayIdentificationData := fun port _ =>
      some { id := ⟨port⟩, name := "panel", deviceProductInfo := none }
    fromPort := fun port => ⟨port⟩
    LEGACY_DISPLAY_TYPE_PRIMARY := 0
    LEGACY_DISPLAY_TYPE_EXTERNAL := 1
    maxVirtualDisplaySize := 0 }

/-- A connected physical display record with backend handle 1. -/
def sampleDisplayData : DisplayData :=
  DisplayData.fresh { id := 1, type := DisplayType.PHYSICAL, isConnected := true }

/-- A state with one registered, connected physical display (id 0, backend handle 1). -/
def sampleState : HWComposer :=
  { mDisplayData := [(HalDisplayId.physical ⟨0⟩, sampleDisplayData)]
    mPhysicalDisplayIdMap := [(1, ⟨0⟩)]
    mInternalHwcDisplayId := some 1
    mExternalHwcDisplayId := none
    mHasMultiDisplaySupport := false
    mVirtualIdGenerator := { maxIdsCount := 4, usedIds := [] }
    mUpdateDeviceProductInfoOnHotplugReconnect := false }

/-- The present error stored in the record of a display, if the display is registered. -/
def storedPresentError (s : HWComposer) (displayId : HalDisplayId) : Option Error :=
  (Map.find s.mDisplayData displayId).map (fun d => d.presentError)

/-- A backend whose release-fence retrieval fails with `e` (the combined call presents). -/
def fenceErrorBackend (e : Error) : Backend :=
  { quietBackend with getReleaseFences := fun _ => (e, []) }

/-- A backend whose command flush fails. -/
def flushErrorBackend : Backend :=
  { quietBackend with executeCommands := Error.NO_RESOURCES }

/-- A backend whose combined call reports state 1 together with a hard error. -/
def hardErrorBackend : Backend :=
  { quietBackend with
    presentOrValidate := fun _ =>
      { error := Error.BAD_DISPLAY, numTypes := 0, numRequests := 0
        outPresentFence := Fence.null, state := 1 } }

/-- A backend with three configurations whose HEIGHT fetch fails for the second one. -/
def attributeErrorBackend : Backend :=
  { quietBackend with
    getDisplayConfigs := fun _ => (Error.NONE, [10, 11, 12])
    getDisplayAttribute := fun _ c a =>
      if c = 11 ∧ a = Attribute.HEIGHT then (Error.BAD_CONFIG, 0) else (Error.NONE, 100) }

/-- A display record that already holds one loaded mode. -/
def loadedDisplayData : DisplayData :=
  { sampleDisplayData with
    modes := [{ hwcId := 7, id := 0, width := 640, height := 480, vsyncPeriod := 16666666
                dpiX := 160, dpiY := 160, configGroup := 0 }] }

/-! ## Runs of hotplug notifications and teardown calls -/

/-- An operation on the physical display registry: a hotplug notification (with the
backend answering during that notification) or a teardown call. -/
inductive HotplugOp where
  | hotplug (hw : Backend) (hwcDisplayId : HWDisplayId) (connection : Connection)
  | disconnectDisplay (displayId : HalDisplayId)

/-- Whether the operation is a CONNECTED notification. -/
def HotplugOp.isConnect : HotplugOp → Bool
  | .hotplug _ _ Connection.CONNECTED => true
  | _ => false

/-- The state after one operation. -/
def applyHotplugOp (env : Env) (s : HWComposer) : HotplugOp → HWComposer
  | .hotplug hw hwcDisplayId connection => (onHotplug env hw s hwcDisplayId connection).state
  | .disconnectDisplay displayId => disconnectDisplay s displayId

/-- The state after a sequence of operations. -/
def runHotplugOps (env : Env) (s : HWComposer) (ops : List HotplugOp) : HWComposer :=
  ops.foldl (applyHotplugOp env) s

/-- Whether every CONNECTED notification of the run arrives while at least one backend
handle is mapped. -/
def mappedAtEveryConnect (env : Env) : HWComposer → List HotplugOp → Bool
  | _, [] => true
  | s, op :: rest =>
      (!op.isConnect || !s.mPhysicalDisplayIdMap.isEmpty)
        && mappedAtEveryConnect env (applyHotplugOp env s op) rest

/-- The state after a sequence of CONNECTED notifications, each with its backend. -/
def connectAll (env : Env) (s : HWComposer) (cs : List (Backend × HWDisplayId)) : HWComposer :=
  cs.foldl (fun st c => (onHotplug env c.1 st c.2 Connection.CONNECTED).state) s

/-- A backend that delivers identification data (port 7) for every display. -/
def identifyingBackend : Backend :=
  { quietBackend with
    getDisplayIdentificationData := fun _ => { error := Error.NONE, port := 7, data := [1, 2, 3] } }

/-- A display connects under handle 1, disconnects, and reconnects under handle 2. -/
def reconnectOps : List HotplugOp :=
  [HotplugOp.hotplug identifyingBackend 1 Connection.CONNECTED,
   HotplugOp.hotplug identifyingBackend 1 Connection.DISCONNECTED,
   HotplugOp.hotplug identifyingBackend 2 Connection.CONNECTED]

/-- A first connect without identification data, a teardown of that display, and a
connect with identification data. -/
def teardownOps : List HotplugOp :=
  [HotplugOp.hotplug quietBackend 1 Connection.CONNECTED,
   HotplugOp.disconnectDisplay (HalDisplayId.physical ⟨0⟩),
   HotplugOp.hotplug identifyingBackend 2 Connection.CONNECTED]

/-- The sample state with vsync already enabled on its display. -/
def vsyncOnState : HWComposer :=
  { sampleState with
    mDisplayData :=
      [(HalDisplayId.physical ⟨0⟩, { sampleDisplayData with vsyncEnabled := Vsync.ENABLE })] }

/-- A backend that rejects every vsync request. -/
def vsyncErrorBackend : Backend :=
  { quietBackend with setVsyncEnabled := fun _ _ => Error.BAD_DISPLAY }

/-! ## Runs of virtual display allocations and releases -/

/-- An operation on the virtual displays: an allocation (with the backend answering it)
or a `disconnectDisplay` call. -/
inductive VirtualOp where
  | allocate (hw : Backend) (width height : Nat)
  | disconnect (displayId : HalDisplayId)

/-- One operation on a state paired with the identifiers handed out by
`allocateVirtualDisplay` and not yet released: an allocation adds the identifier it
returns, a `disconnectDisplay` removes one occurrence of the identifier it is given. -/
def applyVirtualOp (env : Env) (c : HWComposer × List HalDisplayId) :
    VirtualOp → HWComposer × List HalDisplayId
  | .allocate hw width height =>
      let o := allocateVirtualDisplay env hw c.1 width height
      match o.result with
      | some displayId => (o.state, displayId :: c.2)
      | none => (o.state, c.2)
  | .disconnect displayId => (disconnectDisplay c.1 displayId, c.2.erase displayId)

/-- The state and the live identifiers after a sequence of operations. -/
def runVirtualOps (env : Env) (s : HWComposer) (ops : List VirtualOp) :
    HWComposer × List HalDisplayId :=
  ops.foldl (applyVirtualOp env) (s, [])

/-- Every registered display is physical and its stored backend handle is mapped to its
own identifier. -/
def HandlesRoundTrip (s : HWComposer) : Prop :=
  ∀ (displayId : HalDisplayId) (d : DisplayData),
    Map.find s.mDisplayData displayId = some d →
      ∃ p, displayId = HalDisplayId.physical p ∧ toPhysicalDisplayId s d.hwcDisplay.id = some p

/-- The bookkeeping invariant of the virtual displays: the live identifiers are
pairwise distinct, they are exactly the registered identifiers, every registered record
is flagged virtual, and the live identifiers are exactly those in use in the pool. -/
def VirtualInvariant (c : HWComposer × List HalDisplayId) : Prop :=
  c.2.Nodup
  ∧ (∀ id, id ∈ c.2 ↔ ∃ d, Map.find c.1.mDisplayData id = some d)
  ∧ (∀ id, id ∈ c.2 → ∃ v, id = HalDisplayId.virtual v)
  ∧ (∀ id d, Map.find c.1.mDisplayData id = some d → d.isVirtual = true)
  ∧ (∀ v : HalVirtualDisplayId,
      HalDisplayId.virtual v ∈ c.2 ↔ v.value ∈ c.1.mVirtualIdGenerator.usedIds)

/-- An environment whose identification-data parser rejects every descriptor. -/
def unparsableEnv : Env :=
  { sampleEnv with parseDisplayIdentificationData := fun _ _ => none }

/-- The sample state with one mode (backend config id 7) loaded on its display. -/
def loadedState : HWComposer :=
  { sampleState with mDisplayData := [(HalDisplayId.physical ⟨0⟩, loadedDisplayData)] }

/-- A backend that reports the active configuration 99, which no loaded mode carries. -/
def unknownModeBackend : Backend :=
  { quietBackend with getActiveConfig := fun _ => (Error.NONE, 99) }

/-- A backend that reports that no configuration is active. -/
def noActiveModeBackend : Backend :=
  { quietBackend with getActiveConfig := fun _ => (Error.BAD_CONFIG, 0) }

/-- A backend that reports the active configuration 7. -/
def activeModeBackend : Backend :=
  { quietBackend with getActiveConfig := fun _ => (Error.NONE, 7) }

/-- A backend whose present call fails. -/
def presentErrorBackend : Backend :=
  { quietBackend with present := fun _ f => (Error.BAD_DISPLAY, f) }

/-- A backend display that supports vsync period switching and whose vsync period query
fails. -/
def periodErrorBackend : Backend :=
  { quietBackend with
    isVsyncPeriodSwitchSupported := fun _ => true
    getDisplayVsyncPeriod := fun _ => (Error.BAD_DISPLAY, 0) }

/-- A backend whose combined call validates only (state 0) and reports changes: one
layer changes its composition type, one layer has a request. -/
def validatedOnlyBackend : Backend :=
  { quietBackend with
    presentOrValidate := fun _ =>
      { error := Error.HAS_CHANGES, numTypes := 1, numRequests := 1
        outPresentFence := Fence.null, state := 0 }
    getChangedCompositionTypes := fun _ => (Error.NONE, [(3, 1)])
    getRequests := fun _ => (Error.NONE, 1, [(3, 2)])
    getClientTargetProperty := fun _ => (Error.NONE, (1, 2)) }

/-- A backend that delivers identification data for every display, with the handle as
the port. -/
def portPerHandleBackend : Backend :=
  { quietBackend with
    getDisplayIdentificationData := fun d => { error := Error.NONE, port := d, data := [] } }

end HWC

namespace CursorMapper

/-! ## CursorInputMapper: configuration of the input source

Source: `services/inputflinger/reader/mapper/CursorInputMapper.cpp`.  Only the members
that decide the reported source are state; precision, scale, velocity control and the
pointer controller are not represented. -/

/-- Embeds `CursorInputMapper::Parameters::Mode`. -/
inductive Mode where
  | MODE_POINTER
  | MODE_POINTER_RELATIVE
  | MODE_NAVIGATION
  deriving DecidableEq, Repr

/-- Embeds `AINPUT_SOURCE_MOUSE` (android/input.h). -/
def AINPUT_SOURCE_MOUSE : Nat := 0x00002002

/-- Embeds `AINPUT_SOURCE_TOUCHSCREEN` (android/input.h). -/
def AINPUT_SOURCE_TOUCHSCREEN : Nat := 0x00001002

/-- Embeds `AINPUT_SOURCE_TRACKBALL` (android/input.h). -/
def AINPUT_SOURCE_TRACKBALL : Nat := 0x00010004

/-- Embeds `AINPUT_SOURCE_MOUSE_RELATIVE` (android/input.h). -/
def AINPUT_SOURCE_MOUSE_RELATIVE : Nat := 0x00020004

/-- Embeds `CursorInputMapper::Parameters`. -/
structure Parameters where
  mode : Mode
  orientationAware : Bool
  hasAssociatedDisplay : Bool
  hasAbsAxis : Bool
  deriving DecidableEq, Repr

/-- What `configureParameters` reads from the device: the `cursor.mode` and
`cursor.orientationAware` properties (absent when `tryGetProperty` fails) and whether the
device has the absolute axes `ABS_X` and `ABS_Y`. -/
structure DeviceContext where
  cursorMode : Option String
  cursorOrientationAware : Option Bool
  hasAbsoluteAxisX : Bool
  hasAbsoluteAxisY : Bool
  deriving DecidableEq, Repr

/-- The fields of `InputReaderConfiguration` that decide the source. -/
structure InputReaderConfiguration where
  forceMouseAsTouch : Bool
  pointerCapture : Bool
  deriving DecidableEq, Repr

/-- The change flags of `InputReaderConfiguration` tested by `configure`; their values
are declared outside the source file. -/
structure ChangeFlags where
  CHANGE_POINTER_CAPTURE : Nat
  CHANGE_POINTER_SPEED : Nat
  CHANGE_FORCE_MOUSE_AS_TOUCH : Nat
  CHANGE_DISPLAY_INFO : Nat
  deriving DecidableEq, Repr

/-- The members of `CursorInputMapper` written by `configure` that decide the source. -/
structure CursorInputMapper where
  mParameters : Parameters
  mSource : Nat
  deriving DecidableEq, Repr

/-- Embeds `CursorInputMapper::getSources`. -/
def getSources (m : CursorInputMapper) : Nat :=
  m.mSource

/-- Embeds `CursorInputMapper::configureParameters`. -/
def configureParameters (dev : DeviceContext) : Parameters :=
  let mode : Mode :=
    match dev.cursorMode with
    | some cursorModeString =>
        if cursorModeString = "navigation" then Mode.MODE_NAVIGATION else Mode.MODE_POINTER
    | none => Mode.MODE_POINTER
  let orientationAware : Bool :=
    match dev.cursorOrientationAware with
    | some b => b
    | none => false
  { mode := mode
    orientationAware := orientationAware
    hasAssociatedDisplay := decide (mode = Mode.MODE_POINTER) || orientationAware
    hasAbsAxis :=
      if mode = Mode.MODE_POINTER then dev.hasAbsoluteAxisX && dev.hasAbsoluteAxisY
      else false }

/-- The first-time block of `configure` (`if (!changes)`): basic parameters and the
device mode switch. -/
def configureFirstTime (dev : DeviceContext) (config : InputReaderConfiguration) :
    CursorInputMapper :=
  let params := configureParameters dev
  match params.mode with
  | Mode.MODE_POINTER_RELATIVE =>
      { mParameters := { params with mode := Mode.MODE_POINTER }
        mSource :=
          if config.forceMouseAsTouch then AINPUT_SOURCE_TOUCHSCREEN else AINPUT_SOURCE_MOUSE }
  | Mode.MODE_POINTER =>
      { mParameters := params
        mSource :=
          if config.forceMouseAsTouch then AINPUT_SOURCE_TOUCHSCREEN else AINPUT_SOURCE_MOUSE }
  | Mode.MODE_NAVIGATION =>
      { mParameters := params, mSource := AINPUT_SOURCE_TRACKBALL }

/-- The pointer-capture block of `configure`. -/
def configurePointerCapture (config : InputReaderConfiguration) (m : CursorInputMapper) :
    CursorInputMapper :=
  if config.pointerCapture then
    if m.mParameters.mode = Mode.MODE_POINTER then
      { mParameters := { m.mParameters with mode := Mode.MODE_POINTER_RELATIVE }
        mSource := AINPUT_SOURCE_MOUSE_RELATIVE }
    else m
  else
    if m.mParameters.mode = Mode.MODE_POINTER_RELATIVE then
      { mParameters := { m.mParameters with mode := Mode.MODE_POINTER }
        mSource := AINPUT_SOURCE_MOUSE }
    else m

/-- The force-mouse-as-touch block of `configure`. -/
def configureForceMouseAsTouch (config : InputReaderConfiguration) (m : CursorInputMapper) :
    CursorInputMapper :=
  if m.mParameters.mode = Mode.MODE_POINTER_RELATIVE then
    { m with mSource := AINPUT_SOURCE_MOUSE_RELATIVE }
  else if config.forceMouseAsTouch then
    { m with mSource := AINPUT_SOURCE_TOUCHSCREEN }
  else
    { m with mSource := AINPUT_SOURCE_MOUSE }

/-- Embeds `CursorInputMapper::configure`, restricted to the mode and the source.  The
pointer-speed and display-info blocks write neither of them. -/
def configure (flags : ChangeFlags) (dev : DeviceContext) (config : InputReaderConfiguration)
    (changes : Nat) (m : CursorInputMapper) : CursorInputMapper :=
  let m1 := if changes = 0 then configureFirstTime dev config else m
  let m2 :=
    if (changes = 0 ∧ config.pointerCapture = true)
        ∨ changes &&& flags.CHANGE_POINTER_CAPTURE ≠ 0 then
      configurePointerCapture config m1
    else m1
  if changes = 0 ∨ changes &&& flags.CHANGE_FORCE_MOUSE_AS_TOUCH ≠ 0 then
    configureForceMouseAsTouch config m2
  else m2

/-- A trackball-like device: `cursor.mode` is `navigation`, no other property. -/
def navigationDevice : DeviceContext :=
  { cursorMode := some "navigation"
    cursorOrientationAware := none
    hasAbsoluteAxisX := false
    hasAbsoluteAxisY := false }

/-! ## CursorInputMapper: button state in `sync` -/

/-- Bitwise complement `~x` on `int32_t`.  A button state is represented by its 32-bit
pattern, a natural number below `2 ^ 32`; two `int32_t` values are equal exactly when
their patterns are. -/
def not32 (x : Nat) : Nat :=
  0xFFFFFFFF ^^^ x

/-- Modelled from the spec: `BitSet32` (`utils/BitSet.h`) is declared outside the source
files.  Bit `n` of a `BitSet32` is the bit of value `0x80000000 >> n`
(`BitSet32::valueForBit`). -/
def valueForBit (n : Nat) : Nat :=
  0x80000000 >>> n

/-- Scan of the bit indices `n`, `n + 1`, ... for the first marked one, at most `count`
of them. -/
def firstMarkedFrom (value : Nat) : Nat → Nat → Nat
  | 0, n => n
  | count + 1, n =>
      if value.testBit (31 - n) then n else firstMarkedFrom value count (n + 1)

/-- Modelled from the spec: `BitSet32::firstMarkedBit` (`utils/BitSet.h`, outside the
source files), the index of the first marked bit counted from the most significant bit
(the number of leading zeros).  `clearFirstMarkedBit` returns this index and clears the
bit `valueForBit` of it. -/
def firstMarkedBit (value : Nat) : Nat :=
  firstMarkedFrom value 32 0

/-- The release loop of `sync`: while `released` is not empty, `clearFirstMarkedBit`
takes its first marked bit out, and `buttonState &= ~actionButton` clears that button.
`none` means the loop did not finish within `fuel` rounds. -/
def releaseLoop : Nat → Nat → Nat → Option Nat
  | 0, released, buttonState => if released = 0 then some buttonState else none
  | fuel + 1, released, buttonState =>
      if released = 0 then some buttonState
      else
        let actionButton := valueForBit (firstMarkedBit released)
        releaseLoop fuel (released &&& not32 actionButton) (buttonState &&& not32 actionButton)

/-- The press loop of `sync`: while `pressed` is not empty, `clearFirstMarkedBit` takes
its first marked bit out, and `buttonState |= actionButton` sets that button.  `none`
means the loop did not finish within `fuel` rounds. -/
def pressLoop : Nat → Nat → Nat → Option Nat
  | 0, pressed, buttonState => if pressed = 0 then some buttonState else none
  | fuel + 1, pressed, buttonState =>
      if pressed = 0 then some buttonState
      else
        let actionButton := valueForBit (firstMarkedBit pressed)
        pressLoop fuel (pressed &&& not32 actionButton) (buttonState ||| actionButton)

/-- Embeds `buttonsPressed` of `CursorInputMapper::sync`. -/
def buttonsPressed (lastButtonState currentButtonState : Nat) : Nat :=
  currentButtonState &&& not32 lastButtonState

/-- Embeds `buttonsReleased` of `CursorInputMapper::sync`. -/
def buttonsReleased (lastButtonState currentButtonState : Nat) : Nat :=
  lastButtonState &&& not32 currentButtonState

/-- The value of the local `buttonState` of `sync` when
`ALOG_ASSERT(buttonState == currentButtonState)` is reached: it starts at
`lastButtonState`, runs through the release loop and then through the press loop, each
with room for 32 rounds. -/
def buttonStateAtAssert (lastButtonState currentButtonState : Nat) : Option Nat :=
  let afterRelease : Option Nat :=
    if buttonsReleased lastButtonState currentButtonState ≠ 0 then
      releaseLoop 32 (buttonsReleased lastButtonState currentButtonState) lastButtonState
    else some lastButtonState
  match afterRelease with
  | none => none
  | some buttonState =>
      if buttonsPressed lastButtonState currentButtonState ≠ 0 then
        pressLoop 32 (buttonsPressed lastButtonState currentButtonState) buttonState
      else some buttonState

end CursorMapper

namespace HWC

/-! ## Facts about the associative containers -/

theorem Map.find_insert_self {K V : Type} [DecidableEq K] (m : List (K × V)) (k : K) (v : V) :
    Map.find (Map.insert m k v) k = some v := by
  induction m with
  | nil => simp [Map.insert, Map.find]
  | cons e m ih =>
    obtain ⟨k', v'⟩ := e
    by_cases h : k' = k
    · simp [Map.insert, Map.find, h]
    · simp [Map.insert, Map.find, h, ih]

theorem Map.find_insert_ne {K V : Type} [DecidableEq K] (m : List (K × V)) (k k' : K) (v : V)
    (hne : k ≠ k') : Map.find (Map.insert m k v) k' = Map.find m k' := by
  induction m with
  | nil => simp [Map.insert, Map.find, hne]
  | cons e m ih =>
    obtain ⟨k0, v0⟩ := e
    by_cases h : k0 = k
    · subst h
      simp [Map.insert, Map.find, hne]
    · by_cases h' : k0 = k'
      · subst h'
        simp [Map.insert, Map.find, h]
      · simp [Map.insert, Map.find, h, h', ih]

theorem Map.find_erase_self {K V : Type} [DecidableEq K] (m : List (K × V)) (k : K) :
    Map.find (Map.erase m k) k = none := by
  induction m with
  | nil => simp [Map.erase, Map.find]
  | cons e m ih =>
    obtain ⟨k0, v0⟩ := e
    by_cases h : k0 = k
    · simpa [Map.erase, h] using ih
    · simp [Map.erase, h, Map.find, ih]

theorem Map.find_erase_ne {K V : Type} [DecidableEq K] (m : List (K × V)) (k k' : K)
    (hne : k ≠ k') : Map.find (Map.erase m k) k' = Map.find m k' := by
  induction m with
  | nil => simp [Map.erase, Map.find]
  | cons e m ih =>
    obtain ⟨k0, v0⟩ := e
    by_cases h : k0 = k
    · subst h
      simp [Map.erase, Map.find, hne, ih]
    · simp [Map.erase, h, Map.find, ih]

theorem Map.insert_ne_nil {K V : Type} [DecidableEq K] (m : List (K × V)) (k : K) (v : V) :
    Map.insert m k v ≠ [] := by
  cases m with
  | nil => simp [Map.insert]
  | cons e m =>
    obtain ⟨k0, v0⟩ := e
    by_cases h : k0 = k <;> simp [Map.insert, h]

/-! ## Fast-path presentation (C1) -/

/-- On the fast path `getDeviceCompositionChanges` stores a record that is flagged
`validateWasSkipped` and carries the release-fence error as `presentError`. -/
theorem getDeviceCompositionChanges_presented (hw : Backend) (s : HWComposer)
    (displayId : HalDisplayId) (d : DisplayData) (oc : Option DeviceRequestedChanges)
    (hreg : Map.find s.mDisplayData displayId = some d)
    (hconn : d.hwcDisplay.isConnected = true)
    (hsoft : hasChangesError (hw.presentOrValidate d.hwcDisplay.id).error = true ∨
      (hw.presentOrValidate d.hwcDisplay.id).error = Error.NONE)
    (hstate : (hw.presentOrValidate d.hwcDisplay.id).state = 1) :
    getDeviceCompositionChanges hw s displayId false oc =
      { state := putDisplayData s displayId
          { d with
            releaseFences := (hw.getReleaseFences d.hwcDisplay.id).2
            lastPresentFence := (hw.presentOrValidate d.hwcDisplay.id).outPresentFence
            validateWasSkipped := true
            presentError := (hw.getReleaseFences d.hwcDisplay.id).1 }
        status := Status.NO_ERROR
        outChanges := oc
        calls := [Call.presentOrValidate d.hwcDisplay.id, Call.getReleaseFences d.hwcDisplay.id] } := by
  rcases hsoft with h | h
  · simp [getDeviceCompositionChanges, hreg, hconn, hstate, h]
  · simp [getDeviceCompositionChanges, hreg, hconn, hstate, h, hasChangesError]

/-- C1 (amended): after `getDeviceCompositionChanges` ran without client composition on a
connected display and `presentOrValidate` reported state 1 without a hard error, the
following `presentAndGetReleaseFences` issues only `executeCommands` (no present call);
the stored present error is the error of the release-fence retrieval; and the call
returns `NO_ERROR` when the flush succeeds and the stored error is `NONE`, and
`UNKNOWN_ERROR` otherwise. -/
theorem C1_fast_path_present_status (hw1 hw2 : Backend) (s : HWComposer)
    (displayId : HalDisplayId) (d : DisplayData) (oc : Option DeviceRequestedChanges)
    (hreg : Map.find s.mDisplayData displayId = some d)
    (hconn : d.hwcDisplay.isConnected = true)
    (hsoft : hasChangesError (hw1.presentOrValidate d.hwcDisplay.id).error = true ∨
      (hw1.presentOrValidate d.hwcDisplay.id).error = Error.NONE)
    (hstate : (hw1.presentOrValidate d.hwcDisplay.id).state = 1) :
    (presentAndGetReleaseFences hw2
        (getDeviceCompositionChanges hw1 s displayId false oc).state displayId).calls
      = [Call.executeCommands]
    ∧ (∀ h, Call.present h ∉ (presentAndGetReleaseFences hw2
        (getDeviceCompositionChanges hw1 s displayId false oc).state displayId).calls)
    ∧ storedPresentError (getDeviceCompositionChanges hw1 s displayId false oc).state displayId
      = some (hw1.getReleaseFences d.hwcDisplay.id).1
    ∧ (presentAndGetReleaseFences hw2
        (getDeviceCompositionChanges hw1 s displayId false oc).state displayId).result
      = (if hw2.executeCommands = Error.NONE ∧
            (hw1.getReleaseFences d.hwcDisplay.id).1 = Error.NONE
          then Status.NO_ERROR else Status.UNKNOWN_ERROR) := by
  rw [getDeviceCompositionChanges_presented hw1 s displayId d oc hreg hconn hsoft hstate]
  by_cases he : hw2.executeCommands = Error.NONE <;>
    by_cases hp : (hw1.getReleaseFences d.hwcDisplay.id).1 = Error.NONE <;>
    simp [presentAndGetReleaseFences, putDisplayData, Map.find_insert_self, storedPresentError,
      he, hp]

/-- Witness for C1: the sample display, a backend that presents during the combined call. -/
theorem C1_fast_path_present_status_witness :
    (presentAndGetReleaseFences quietBackend
        (getDeviceCompositionChanges quietBackend sampleState (HalDisplayId.physical ⟨0⟩)
          false none).state (HalDisplayId.physical ⟨0⟩)).calls
      = [Call.executeCommands]
    ∧ (presentAndGetReleaseFences quietBackend
        (getDeviceCompositionChanges quietBackend sampleState (HalDisplayId.physical ⟨0⟩)
          false none).state (HalDisplayId.physical ⟨0⟩)).result = Status.NO_ERROR := by
  have h := C1_fast_path_present_status quietBackend quietBackend sampleState
    (HalDisplayId.physical ⟨0⟩) sampleDisplayData none rfl rfl (Or.inr rfl) rfl
  exact ⟨h.1, h.2.2.2⟩

/-- C1 (counterexample): on the sample display the stored present errors `BAD_DISPLAY`
and `NO_RESOURCES` are both answered with the one status `UNKNOWN_ERROR`, so the
returned value is not the stored error; with `NONE` stored and a failing command flush
the call does not return success; and when the combined call reports state 1 together
with a hard error, the fast path is not taken and a present call follows. -/
theorem C1_counterexample :
    storedPresentError (getDeviceCompositionChanges (fenceErrorBackend Error.BAD_DISPLAY)
        sampleState (HalDisplayId.physical ⟨0⟩) false none).state (HalDisplayId.physical ⟨0⟩)
      = some Error.BAD_DISPLAY
    ∧ (presentAndGetReleaseFences quietBackend
        (getDeviceCompositionChanges (fenceErrorBackend Error.BAD_DISPLAY) sampleState
          (HalDisplayId.physical ⟨0⟩) false none).state (HalDisplayId.physical ⟨0⟩)).result
      = Status.UNKNOWN_ERROR
    ∧ storedPresentError (getDeviceCompositionChanges (fenceErrorBackend Error.NO_RESOURCES)
        sampleState (HalDisplayId.physical ⟨0⟩) false none).state (HalDisplayId.physical ⟨0⟩)
      = some Error.NO_RESOURCES
    ∧ (presentAndGetReleaseFences quietBackend
        (getDeviceCompositionChanges (fenceErrorBackend Error.NO_RESOURCES) sampleState
          (HalDisplayId.physical ⟨0⟩) false none).state (HalDisplayId.physical ⟨0⟩)).result
      = Status.UNKNOWN_ERROR
    ∧ storedPresentError (getDeviceCompositionChanges quietBackend
        sampleState (HalDisplayId.physical ⟨0⟩) false none).state (HalDisplayId.physical ⟨0⟩)
      = some Error.NONE
    ∧ (presentAndGetReleaseFences flushErrorBackend
        (getDeviceCompositionChanges quietBackend sampleState
          (HalDisplayId.physical ⟨0⟩) false none).state (HalDisplayId.physical ⟨0⟩)).result
      = Status.UNKNOWN_ERROR
    ∧ (getDeviceCompositionChanges hardErrorBackend sampleState (HalDisplayId.physical ⟨0⟩)
        false none).status = Status.UNKNOWN_ERROR
    ∧ Call.present 1 ∈ (presentAndGetReleaseFences quietBackend
        (getDeviceCompositionChanges hardErrorBackend sampleState
          (HalDisplayId.physical ⟨0⟩) false none).state (HalDisplayId.physical ⟨0⟩)).calls := by
  decide

/-! ## Mode loading (C2) -/

/-- The loop of `loadModes` appends one mode per configuration id, indexed from the
current length of the vector. -/
theorem loadModesLoop_eq (hw : Backend) (h : HWDisplayId) (cs : List HWConfigId)
    (acc : List DisplayMode) :
    loadModesLoop hw h cs acc
      = acc ++ (cs.enumFrom acc.length).map (fun p => buildMode hw h p.2 p.1) := by
  induction cs generalizing acc with
  | nil => simp [loadModesLoop]
  | cons c rest ih =>
    simp [loadModesLoop, ih, List.enumFrom_cons]

/-- C2 (amended): `loadModes` keeps the previous mode sequence exactly when the fetch of
the configuration-id list fails.  When that fetch succeeds the previous sequence is
discarded and replaced by one mode per returned id, in order, the mode at position `i`
carrying logical index `i`, whatever the attribute fetches return: a failed attribute
fetch does not abort the reload, it stores `-1` for that attribute.  No other field of
the record changes. -/
theorem C2_loadModes_replaces_wholesale (hw : Backend) (d : DisplayData) (h : HWDisplayId) :
    (loadModes hw d h).1.modes
      = (if (hw.getDisplayConfigs h).1 = Error.NONE
          then (hw.getDisplayConfigs h).2.enum.map (fun p => buildMode hw h p.2 p.1)
          else d.modes)
    ∧ (∀ (c : HWConfigId) (a : Attribute),
        getAttribute hw h c a
          = (if (hw.getDisplayAttribute h c a).1 = Error.NONE
              then (hw.getDisplayAttribute h c a).2 else -1))
    ∧ (loadModes hw d h).1 = { d with modes := (loadModes hw d h).1.modes } := by
  refine ⟨?_, ?_, ?_⟩
  · by_cases hc : (hw.getDisplayConfigs h).1 = Error.NONE
    · simp [loadModes, hc, loadModesLoop_eq, List.enum]
    · simp [loadModes, hc]
  · intro c a
    by_cases ha : (hw.getDisplayAttribute h c a).1 = Error.NONE <;> simp [getAttribute, ha]
  · by_cases hc : (hw.getDisplayConfigs h).1 = Error.NONE <;> simp [loadModes, hc]

/-- C2 (counterexample): with one mode loaded before, and a backend whose HEIGHT fetch
fails for mode 2 of 3, `loadModes` replaces the sequence by three new modes, the second
with height `-1`. -/
theorem C2_counterexample :
    (loadModes attributeErrorBackend loadedDisplayData 1).1.modes ≠ loadedDisplayData.modes
    ∧ (loadModes attributeErrorBackend loadedDisplayData 1).1.modes.map (fun m => m.hwcId)
      = [10, 11, 12]
    ∧ (loadModes attributeErrorBackend loadedDisplayData 1).1.modes.map (fun m => m.height)
      = [100, -1, 100] := by
  decide

/-! ## Handle mapping (C3) -/

theorem loadModes_hwcDisplay (hw : Backend) (d : DisplayData) (h : HWDisplayId) :
    (loadModes hw d h).1.hwcDisplay = d.hwcDisplay := by
  by_cases hc : (hw.getDisplayConfigs h).1 = Error.NONE <;> simp [loadModes, hc]

theorem allocatePhysicalDisplay_roundTrip (hw : Backend) (s : HWComposer) (h : HWDisplayId)
    (p : PhysicalDisplayId) (hinv : HandlesRoundTrip s)
    (hmap : toPhysicalDisplayId s h = none ∨ toPhysicalDisplayId s h = some p) :
    HandlesRoundTrip (allocatePhysicalDisplay hw s h p).1 := by
  intro displayId d hfind
  simp only [allocatePhysicalDisplay] at hfind
  simp only [allocatePhysicalDisplay, toPhysicalDisplayId]
  by_cases hd : HalDisplayId.physical p = displayId
  · subst hd
    rw [Map.find_insert_self] at hfind
    injection hfind with hfind
    refine ⟨p, rfl, ?_⟩
    rw [← hfind, loadModes_hwcDisplay]
    cases hf : Map.find s.mDisplayData (HalDisplayId.physical p) <;>
      simp [DisplayData.fresh, Map.find_insert_self]
  · rw [Map.find_insert_ne _ _ _ _ hd] at hfind
    obtain ⟨p', hp', hmap'⟩ := hinv displayId d hfind
    refine ⟨p', hp', ?_⟩
    by_cases hh : h = d.hwcDisplay.id
    · exfalso
      subst hh
      rcases hmap with hm | hm
      · rw [hm] at hmap'
        cases hmap'
      · rw [hm] at hmap'
        injection hmap' with hpp
        exact hd (by rw [hp', hpp])
    · rw [Map.find_insert_ne _ _ _ _ hh]
      exact hmap'

theorem finishHotplugConnect_roundTrip (hw : Backend) (s : HWComposer) (h : HWDisplayId)
    (info : DisplayIdentificationInfo) (calls : List Call) (hinv : HandlesRoundTrip s)
    (hmap : toPhysicalDisplayId s h = none ∨ toPhysicalDisplayId s h = some info.id) :
    HandlesRoundTrip (finishHotplugConnect hw s h info calls).state := by
  unfold finishHotplugConnect
  split
  · exact allocatePhysicalDisplay_roundTrip hw s h info.id hinv hmap
  · exact hinv

theorem selectMultiDisplayMode_fields (s : HWComposer) (b : Bool) :
    (selectMultiDisplayMode s b).mDisplayData = s.mDisplayData
    ∧ (selectMultiDisplayMode s b).mPhysicalDisplayIdMap = s.mPhysicalDisplayIdMap
    ∧ (selectMultiDisplayMode s b).mInternalHwcDisplayId = s.mInternalHwcDisplayId
    ∧ (selectMultiDisplayMode s b).mExternalHwcDisplayId = s.mExternalHwcDisplayId
    ∧ (selectMultiDisplayMode s b).mVirtualIdGenerator = s.mVirtualIdGenerator := by
  unfold selectMultiDisplayMode
  split <;> simp

theorem selectMultiDisplayMode_roundTrip (s : HWComposer) (b : Bool)
    (hinv : HandlesRoundTrip s) : HandlesRoundTrip (selectMultiDisplayMode s b) := by
  unfold selectMultiDisplayMode
  split
  · exact hinv
  · exact hinv

theorem selectMultiDisplayMode_toPhysical (s : HWComposer) (b : Bool) (h : HWDisplayId) :
    toPhysicalDisplayId (selectMultiDisplayMode s b) h = toPhysicalDisplayId s h := by
  simp [toPhysicalDisplayId, (selectMultiDisplayMode_fields s b).2.1]

theorem onHotplugConnect_roundTrip (env : Env) (hw : Backend) (s : HWComposer)
    (h : HWDisplayId) (hinv : HandlesRoundTrip s) :
    HandlesRoundTrip (onHotplugConnect env hw s h).state := by
  unfold onHotplugConnect
  cases hm : toPhysicalDisplayId s h with
  | some displayId =>
    simp only
    split
    · apply finishHotplugConnect_roundTrip _ _ _ _ _ hinv
      right
      rw [hm]
      cases env.parseDisplayIdentificationData (hw.getDisplayIdentificationData h).port
        (hw.getDisplayIdentificationData h).data <;> rfl
    · exact finishHotplugConnect_roundTrip _ _ _ _ _ hinv (Or.inr hm)
  | none =>
    simp only
    split
    · exact selectMultiDisplayMode_roundTrip s _ hinv
    · apply finishHotplugConnect_roundTrip _ _ _ _ _ (selectMultiDisplayMode_roundTrip s _ hinv)
      left
      rw [selectMultiDisplayMode_toPhysical]
      exact hm

theorem onHotplugDisconnect_roundTrip (s : HWComposer) (h : HWDisplayId)
    (hinv : HandlesRoundTrip s) : HandlesRoundTrip (onHotplugDisconnect s h).state := by
  unfold onHotplugDisconnect
  cases hm : toPhysicalDisplayId s h with
  | none => exact hinv
  | some displayId =>
    simp only
    cases hf : Map.find s.mDisplayData (HalDisplayId.physical displayId) with
    | none => exact hinv
    | some d0 =>
      simp only
      split
      · intro displayId' d hfind
        simp only at hfind
        simp only [toPhysicalDisplayId]
        by_cases hd : HalDisplayId.physical displayId = displayId'
        · subst hd
          rw [Map.find_insert_self] at hfind
          injection hfind with hfind
          obtain ⟨p', hp', hmap'⟩ := hinv _ d0 hf
          refine ⟨p', hp', ?_⟩
          rw [← hfind]
          exact hmap'
        · rw [Map.find_insert_ne _ _ _ _ hd] at hfind
          exact hinv displayId' d hfind
      · exact hinv

theorem disconnectDisplay_roundTrip (s : HWComposer) (displayId : HalDisplayId)
    (hinv : HandlesRoundTrip s) : HandlesRoundTrip (disconnectDisplay s displayId) := by
  unfold disconnectDisplay
  cases hf : Map.find s.mDisplayData displayId with
  | none => exact hinv
  | some d0 =>
    intro displayId' d hfind
    simp only at hfind
    simp only [toPhysicalDisplayId]
    by_cases hd : displayId = displayId'
    · subst hd
      rw [Map.find_erase_self] at hfind
      cases hfind
    · rw [Map.find_erase_ne _ _ _ hd] at hfind
      obtain ⟨p', hp', hmap'⟩ := hinv displayId' d hfind
      refine ⟨p', hp', ?_⟩
      obtain ⟨p0, hp0, hmap0⟩ := hinv displayId d0 hf
      by_cases hh : d0.hwcDisplay.id = d.hwcDisplay.id
      · exfalso
        rw [hh] at hmap0
        have hpp : toPhysicalDisplayId s d.hwcDisplay.id = some p' := hmap'
        rw [hmap0] at hpp
        injection hpp with hpp
        exact hd (by rw [hp0, hp', hpp])
      · rw [Map.find_erase_ne _ _ _ hh]
        exact hmap'

theorem applyHotplugOp_roundTrip (env : Env) (s : HWComposer) (op : HotplugOp)
    (hinv : HandlesRoundTrip s) : HandlesRoundTrip (applyHotplugOp env s op) := by
  cases op with
  | hotplug hw h c =>
    cases c with
    | INVALID => exact hinv
    | CONNECTED => exact onHotplugConnect_roundTrip env hw s h hinv
    | DISCONNECTED => exact onHotplugDisconnect_roundTrip s h hinv
  | disconnectDisplay displayId => exact disconnectDisplay_roundTrip s displayId hinv

theorem runHotplugOps_roundTrip (env : Env) (ops : List HotplugOp) (s : HWComposer)
    (hinv : HandlesRoundTrip s) : HandlesRoundTrip (runHotplugOps env s ops) := by
  induction ops generalizing s with
  | nil => exact hinv
  | cons op rest ih =>
    exact ih (applyHotplugOp env s op) (applyHotplugOp_roundTrip env s op hinv)

theorem initial_roundTrip (maxVirtualDisplays : Nat) (updateProductInfo : Bool) :
    HandlesRoundTrip (HWComposer.initial maxVirtualDisplays updateProductInfo) := by
  intro displayId d hfind
  simp [HWComposer.initial, Map.find] at hfind

/-- C3 (amended): in every state reachable from the initial state by hotplug
notifications and `disconnectDisplay` calls, every registered display is physical and
its stored backend handle is mapped by `mPhysicalDisplayIdMap` to the display's own
identifier (`toPhysicalDisplayId` inverts `fromPhysicalDisplayId`), so two registered
displays never share a backend handle.  Nothing is said about mapped handles that no
record holds. -/
theorem C3_registered_handles_round_trip (env : Env) (maxVirtualDisplays : Nat)
    (updateProductInfo : Bool) (ops : List HotplugOp) :
    (∀ (displayId : HalDisplayId) (d : DisplayData),
      Map.find (runHotplugOps env (HWComposer.initial maxVirtualDisplays updateProductInfo)
          ops).mDisplayData displayId = some d →
        ∃ p, displayId = HalDisplayId.physical p ∧
          toPhysicalDisplayId
            (runHotplugOps env (HWComposer.initial maxVirtualDisplays updateProductInfo) ops)
            d.hwcDisplay.id = some p)
    ∧ (∀ (p : PhysicalDisplayId) (h : HWDisplayId),
      fromPhysicalDisplayId
          (runHotplugOps env (HWComposer.initial maxVirtualDisplays updateProductInfo) ops) p
        = some h →
      toPhysicalDisplayId
          (runHotplugOps env (HWComposer.initial maxVirtualDisplays updateProductInfo) ops) h
        = some p)
    ∧ (∀ (id1 id2 : HalDisplayId) (d1 d2 : DisplayData),
      Map.find (runHotplugOps env (HWComposer.initial maxVirtualDisplays updateProductInfo)
          ops).mDisplayData id1 = some d1 →
      Map.find (runHotplugOps env (HWComposer.initial maxVirtualDisplays updateProductInfo)
          ops).mDisplayData id2 = some d2 →
      d1.hwcDisplay.id = d2.hwcDisplay.id → id1 = id2) := by
  have hinv := runHotplugOps_roundTrip env ops _
    (initial_roundTrip maxVirtualDisplays updateProductInfo)
  refine ⟨hinv, ?_, ?_⟩
  · intro p h hfrom
    unfold fromPhysicalDisplayId at hfrom
    cases hf : Map.find (runHotplugOps env
        (HWComposer.initial maxVirtualDisplays updateProductInfo) ops).mDisplayData
        (HalDisplayId.physical p) with
    | none => simp [hf] at hfrom
    | some d =>
      rw [hf] at hfrom
      obtain ⟨p', hp', hmap⟩ := hinv _ d hf
      injection hp' with hp'
      by_cases hv : d.isVirtual = true
      · simp [hv] at hfrom
      · simp [hv] at hfrom
        rw [← hfrom, hmap, hp']
  · intro id1 id2 d1 d2 h1 h2 heq
    obtain ⟨p1, hp1, hm1⟩ := hinv id1 d1 h1
    obtain ⟨p2, hp2, hm2⟩ := hinv id2 d2 h2
    rw [heq, hm2] at hm1
    injection hm1 with hm1
    rw [hp1, hp2, hm1]

/-- C3 (counterexample): a display connects under backend handle 1, is reported
disconnected, and reconnects under handle 2 with the same identification data.  Both
handles are then mapped to the one display id 7, and the stale handle 1 is not the
handle stored in the record of that display. -/
theorem C3_counterexample :
    toPhysicalDisplayId (runHotplugOps sampleEnv (HWComposer.initial 4 false) reconnectOps) 1
      = some ⟨7⟩
    ∧ toPhysicalDisplayId (runHotplugOps sampleEnv (HWComposer.initial 4 false) reconnectOps) 2
      = some ⟨7⟩
    ∧ fromPhysicalDisplayId (runHotplugOps sampleEnv (HWComposer.initial 4 false) reconnectOps)
        ⟨7⟩ = some 2 := by
  decide

/-! ## Legacy and generalized mode (C4, C5) -/

theorem finishHotplugConnect_mode (hw : Backend) (s : HWComposer) (h : HWDisplayId)
    (info : DisplayIdentificationInfo) (calls : List Call) :
    (finishHotplugConnect hw s h info calls).state.mHasMultiDisplaySupport
      = s.mHasMultiDisplaySupport := by
  unfold finishHotplugConnect
  split <;> simp [allocatePhysicalDisplay]

theorem finishHotplugConnect_map (hw : Backend) (s : HWComposer) (h : HWDisplayId)
    (info : DisplayIdentificationInfo) (calls : List Call) :
    (finishHotplugConnect hw s h info calls).state.mPhysicalDisplayIdMap
        = s.mPhysicalDisplayIdMap
      ∨ (finishHotplugConnect hw s h info calls).state.mPhysicalDisplayIdMap
        = Map.insert s.mPhysicalDisplayIdMap h info.id := by
  unfold finishHotplugConnect
  split
  · right
    simp [allocatePhysicalDisplay]
  · left
    rfl

theorem finishHotplugConnect_map_ne_nil (hw : Backend) (s : HWComposer) (h : HWDisplayId)
    (info : DisplayIdentificationInfo) (calls : List Call)
    (hne : s.mPhysicalDisplayIdMap ≠ []) :
    (finishHotplugConnect hw s h info calls).state.mPhysicalDisplayIdMap ≠ [] := by
  rcases finishHotplugConnect_map hw s h info calls with hm | hm
  · rw [hm]
    exact hne
  · rw [hm]
    exact Map.insert_ne_nil _ _ _

theorem selectMultiDisplayMode_of_mapped (s : HWComposer) (b : Bool)
    (hne : s.mPhysicalDisplayIdMap ≠ []) : selectMultiDisplayMode s b = s := by
  unfold selectMultiDisplayMode
  cases hm : s.mPhysicalDisplayIdMap with
  | nil => exact absurd hm hne
  | cons e m => simp

theorem onHotplugConnect_mode_of_mapped (env : Env) (hw : Backend) (s : HWComposer)
    (h : HWDisplayId) (hne : s.mPhysicalDisplayIdMap ≠ []) :
    (onHotplugConnect env hw s h).state.mHasMultiDisplaySupport = s.mHasMultiDisplaySupport := by
  unfold onHotplugConnect
  cases hm : toPhysicalDisplayId s h with
  | some displayId =>
    simp only
    split <;> exact finishHotplugConnect_mode _ _ _ _ _
  | none =>
    simp only
    rw [selectMultiDisplayMode_of_mapped s _ hne]
    split
    · rfl
    · exact finishHotplugConnect_mode _ _ _ _ _

theorem onHotplugConnect_map_ne_nil (env : Env) (hw : Backend) (s : HWComposer)
    (h : HWDisplayId) (hne : s.mPhysicalDisplayIdMap ≠ []) :
    (onHotplugConnect env hw s h).state.mPhysicalDisplayIdMap ≠ [] := by
  unfold onHotplugConnect
  cases hm : toPhysicalDisplayId s h with
  | some displayId =>
    simp only
    split <;> exact finishHotplugConnect_map_ne_nil _ _ _ _ _ hne
  | none =>
    simp only
    rw [selectMultiDisplayMode_of_mapped s _ hne]
    split
    · exact hne
    · exact finishHotplugConnect_map_ne_nil _ _ _ _ _ hne

theorem onHotplugDisconnect_mode (s : HWComposer) (h : HWDisplayId) :
    (onHotplugDisconnect s h).state.mHasMultiDisplaySupport = s.mHasMultiDisplaySupport := by
  unfold onHotplugDisconnect
  cases toPhysicalDisplayId s h with
  | none => rfl
  | some displayId =>
    simp only
    cases Map.find s.mDisplayData (HalDisplayId.physical displayId) with
    | none => rfl
    | some d =>
      simp only
      split <;> rfl

theorem disconnectDisplay_mode (s : HWComposer) (displayId : HalDisplayId) :
    (disconnectDisplay s displayId).mHasMultiDisplaySupport = s.mHasMultiDisplaySupport := by
  unfold disconnectDisplay
  cases Map.find s.mDisplayData displayId <;> rfl

theorem applyHotplugOp_mode (env : Env) (s : HWComposer) (op : HotplugOp)
    (h : (!op.isConnect || !s.mPhysicalDisplayIdMap.isEmpty) = true) :
    (applyHotplugOp env s op).mHasMultiDisplaySupport = s.mHasMultiDisplaySupport := by
  cases op with
  | hotplug hw hd c =>
    cases c with
    | INVALID => rfl
    | CONNECTED =>
      have hne : s.mPhysicalDisplayIdMap ≠ [] := by
        intro hnil
        simp [HotplugOp.isConnect, hnil] at h
      exact onHotplugConnect_mode_of_mapped env hw s hd hne
    | DISCONNECTED => exact onHotplugDisconnect_mode s hd
  | disconnectDisplay displayId => exact disconnectDisplay_mode s displayId

/-- C4 (amended): the mode is kept by every hotplug disconnect, every `disconnectDisplay`
teardown and every connect that arrives while `mPhysicalDisplayIdMap` is not empty:
along every sequence of operations in which each connect finds at least one mapped
handle, `mHasMultiDisplaySupport` keeps its value. -/
theorem C4_mode_kept_while_mapped (env : Env) (s : HWComposer) (ops : List HotplugOp)
    (hmapped : mappedAtEveryConnect env s ops = true) :
    (runHotplugOps env s ops).mHasMultiDisplaySupport = s.mHasMultiDisplaySupport := by
  induction ops generalizing s with
  | nil => rfl
  | cons op rest ih =>
    simp only [mappedAtEveryConnect, Bool.and_eq_true] at hmapped
    have hstep := applyHotplugOp_mode env s op hmapped.1
    have hrest := ih (applyHotplugOp env s op) hmapped.2
    simp only [runHotplugOps, List.foldl_cons] at hrest ⊢
    rw [hrest, hstep]

/-- Witness for C4: from the sample state (one mapped handle, legacy mode) a second
display connects with identification data, is reported disconnected and torn down. -/
theorem C4_mode_kept_while_mapped_witness :
    (runHotplugOps sampleEnv sampleState
        [HotplugOp.hotplug identifyingBackend 2 Connection.CONNECTED,
         HotplugOp.hotplug identifyingBackend 2 Connection.DISCONNECTED,
         HotplugOp.disconnectDisplay (HalDisplayId.physical ⟨1⟩),
         HotplugOp.hotplug identifyingBackend 3 Connection.CONNECTED]).mHasMultiDisplaySupport
      = false :=
  C4_mode_kept_while_mapped sampleEnv sampleState _ (by decide)

/-- C4 (counterexample): the first connect (no identification data) selects legacy
mode; after the display is torn down, a connect with identification data switches the
process to generalized mode. -/
theorem C4_counterexample :
    (runHotplugOps sampleEnv (HWComposer.initial 4 false)
        (teardownOps.take 1)).mHasMultiDisplaySupport = false
    ∧ (runHotplugOps sampleEnv (HWComposer.initial 4 false)
        teardownOps).mHasMultiDisplaySupport = true := by
  decide

theorem first_connect_from_initial (env : Env) (hw : Backend) (h : HWDisplayId)
    (maxVirtualDisplays : Nat) (updateProductInfo : Bool) :
    (onHotplugConnect env hw (HWComposer.initial maxVirtualDisplays updateProductInfo)
        h).state.mHasMultiDisplaySupport = hasIdentificationData hw h
    ∧ (onHotplugConnect env hw (HWComposer.initial maxVirtualDisplays updateProductInfo)
        h).state.mPhysicalDisplayIdMap ≠ [] := by
  cases hid : hasIdentificationData hw h <;>
    simp [onHotplugConnect, HWComposer.initial, toPhysicalDisplayId, Map.find,
      selectMultiDisplayMode, shouldIgnoreHotplugConnect, finishHotplugConnect, isConnected,
      allocatePhysicalDisplay, hid, Map.insert]

theorem connectAll_mode_of_mapped (env : Env) (cs : List (Backend × HWDisplayId))
    (s : HWComposer) (hne : s.mPhysicalDisplayIdMap ≠ []) :
    (connectAll env s cs).mHasMultiDisplaySupport = s.mHasMultiDisplaySupport := by
  induction cs generalizing s with
  | nil => rfl
  | cons c rest ih =>
    have hstep := onHotplugConnect_mode_of_mapped env c.1 s c.2 hne
    have hmap := onHotplugConnect_map_ne_nil env c.1 s c.2 hne
    have hrest := ih (onHotplugConnect env c.1 s c.2).state hmap
    simp only [connectAll, List.foldl_cons, onHotplug] at hrest ⊢
    rw [hrest, hstep]

/-- C5: for every sequence of CONNECTED notifications applied from the initial state,
after the first connect and after every later connect of the sequence the mode is the
one selected by the first connect: generalized when that connect had identification
data, legacy when it had none. -/
theorem C5_first_connect_fixes_mode (env : Env) (maxVirtualDisplays : Nat)
    (updateProductInfo : Bool) (hw : Backend) (h : HWDisplayId)
    (rest : List (Backend × HWDisplayId)) (k : Nat) :
    (connectAll env (HWComposer.initial maxVirtualDisplays updateProductInfo)
        ((hw, h) :: rest.take k)).mHasMultiDisplaySupport = hasIdentificationData hw h := by
  have hfirst := first_connect_from_initial env hw h maxVirtualDisplays updateProductInfo
  have hrest := connectAll_mode_of_mapped env (rest.take k) _ hfirst.2
  simp only [connectAll, List.foldl_cons, onHotplug] at hrest ⊢
  rw [hrest, hfirst.1]

/-! ## Ignored connects (C6) -/

theorem finishHotplugConnect_result (hw : Backend) (s : HWComposer) (h : HWDisplayId)
    (info : DisplayIdentificationInfo) (calls : List Call) :
    (finishHotplugConnect hw s h info calls).result = some info := by
  unfold finishHotplugConnect
  split <;> rfl

theorem shouldIgnoreHotplugConnect_iff (s : HWComposer) (b : Bool) :
    shouldIgnoreHotplugConnect s b = true ↔
      (s.mHasMultiDisplaySupport = true ∧ b = false)
      ∨ (s.mHasMultiDisplaySupport = false ∧ s.mInternalHwcDisplayId.isSome = true
          ∧ s.mExternalHwcDisplayId.isSome = true) := by
  unfold shouldIgnoreHotplugConnect
  cases s.mHasMultiDisplaySupport <;> cases b <;>
    cases s.mInternalHwcDisplayId.isSome <;> cases s.mExternalHwcDisplayId.isSome <;> simp

theorem selectMultiDisplayMode_mode (s : HWComposer) (b : Bool) :
    (selectMultiDisplayMode s b).mHasMultiDisplaySupport
      = (if s.mPhysicalDisplayIdMap = [] then b else s.mHasMultiDisplaySupport) := by
  unfold selectMultiDisplayMode
  by_cases hm : s.mPhysicalDisplayIdMap = []
  · simp [hm]
  · have he : s.mPhysicalDisplayIdMap.isEmpty = false := by
      cases hmap : s.mPhysicalDisplayIdMap with
      | nil => exact absurd hmap hm
      | cons _ _ => rfl
    simp [hm, he]

/-- The test of `shouldIgnoreHotplugConnect` after the mode selection, on the state in
which the notification arrives. -/
theorem shouldIgnore_after_select_iff (s : HWComposer) (b : Bool) :
    shouldIgnoreHotplugConnect (selectMultiDisplayMode s b) b = true ↔
      (s.mPhysicalDisplayIdMap ≠ [] ∧ s.mHasMultiDisplaySupport = true ∧ b = false)
      ∨ (s.mPhysicalDisplayIdMap ≠ [] ∧ s.mHasMultiDisplaySupport = false
          ∧ s.mInternalHwcDisplayId.isSome = true ∧ s.mExternalHwcDisplayId.isSome = true)
      ∨ (s.mPhysicalDisplayIdMap = [] ∧ b = false
          ∧ s.mInternalHwcDisplayId.isSome = true ∧ s.mExternalHwcDisplayId.isSome = true) := by
  have hf := selectMultiDisplayMode_fields s b
  rw [shouldIgnoreHotplugConnect_iff, selectMultiDisplayMode_mode, hf.2.2.1, hf.2.2.2.1]
  by_cases hm : s.mPhysicalDisplayIdMap = [] <;> cases b <;>
    cases s.mHasMultiDisplaySupport <;> simp [hm]

/-- C7 (amended): on a registered physical display, `setVsyncEnabled(d, ENABLE)` followed
immediately by `setVsyncEnabled(d, ENABLE)` issues exactly one backend call when vsync
was not enabled before and the backend accepts the first request; it issues none when
vsync was already enabled, and two when the backend rejects the first request (the
state is updated only on success). -/
theorem C7_repeated_enable_calls (hw1 hw2 : Backend) (s : HWComposer) (p : PhysicalDisplayId)
    (d : DisplayData) (hreg : Map.find s.mDisplayData (HalDisplayId.physical p) = some d) :
    (setVsyncEnabled hw1 s p Vsync.ENABLE).2
        ++ (setVsyncEnabled hw2 (setVsyncEnabled hw1 s p Vsync.ENABLE).1 p Vsync.ENABLE).2
      = (if d.vsyncEnabled = Vsync.ENABLE then []
         else if hw1.setVsyncEnabled d.hwcDisplay.id Vsync.ENABLE = Error.NONE then
           [Call.setVsyncEnabled d.hwcDisplay.id Vsync.ENABLE]
         else
           [Call.setVsyncEnabled d.hwcDisplay.id Vsync.ENABLE,
            Call.setVsyncEnabled d.hwcDisplay.id Vsync.ENABLE]) := by
  by_cases hen : Vsync.ENABLE = d.vsyncEnabled
  · simp [setVsyncEnabled, hreg, hen.symm]
  · have hen' : ¬ d.vsyncEnabled = Vsync.ENABLE := fun h => hen h.symm
    by_cases h1 : hw1.setVsyncEnabled d.hwcDisplay.id Vsync.ENABLE = Error.NONE
    · simp [setVsyncEnabled, hreg, hen, hen', h1, Map.find_insert_self]
    · by_cases h2 : hw2.setVsyncEnabled d.hwcDisplay.id Vsync.ENABLE = Error.NONE <;>
        simp [setVsyncEnabled, hreg, hen, hen', h1, h2]

/-- Witness for C7: vsync is disabled on the sample display and the backend accepts. -/
theorem C7_repeated_enable_calls_witness :
    (setVsyncEnabled quietBackend sampleState ⟨0⟩ Vsync.ENABLE).2
        ++ (setVsyncEnabled quietBackend
            (setVsyncEnabled quietBackend sampleState ⟨0⟩ Vsync.ENABLE).1 ⟨0⟩ Vsync.ENABLE).2
      = [Call.setVsyncEnabled 1 Vsync.ENABLE] :=
  C7_repeated_enable_calls quietBackend quietBackend sampleState ⟨0⟩ sampleDisplayData rfl

/-- C7 (counterexample): with vsync already enabled the two calls issue no backend call;
with vsync disabled and a backend that rejects the request they issue two. -/
theorem C7_counterexample :
    ((setVsyncEnabled quietBackend vsyncOnState ⟨0⟩ Vsync.ENABLE).2
        ++ (setVsyncEnabled quietBackend
            (setVsyncEnabled quietBackend vsyncOnState ⟨0⟩ Vsync.ENABLE).1 ⟨0⟩
            Vsync.ENABLE).2).length = 0
    ∧ ((setVsyncEnabled vsyncErrorBackend sampleState ⟨0⟩ Vsync.ENABLE).2
        ++ (setVsyncEnabled vsyncErrorBackend
            (setVsyncEnabled vsyncErrorBackend sampleState ⟨0⟩ Vsync.ENABLE).1 ⟨0⟩
            Vsync.ENABLE).2).length = 2 := by
  decide

/-- C8: on a registered display whose backend reports doze as unsupported,
`setPowerMode` with DOZE or DOZE_SUSPEND queries the doze capability and then requests ON
from the backend: the only power-mode request issued is ON, whatever errors the backend
returns, and the caller receives `NO_ERROR` with the state unchanged. -/
theorem C8_doze_unsupported_requests_on (hw : Backend) (s : HWComposer)
    (p : PhysicalDisplayId) (d : DisplayData) (mode : PowerMode)
    (hreg : Map.find s.mDisplayData (HalDisplayId.physical p) = some d)
    (hmode : mode = PowerMode.DOZE ∨ mode = PowerMode.DOZE_SUSPEND)
    (hdoze : (hw.supportsDoze d.hwcDisplay.id).2 = false) :
    (setPowerMode hw s p mode).calls
      = [Call.supportsDoze d.hwcDisplay.id, Call.setPowerMode d.hwcDisplay.id PowerMode.ON]
    ∧ (∀ (h : HWDisplayId) (m : PowerMode),
        Call.setPowerMode h m ∈ (setPowerMode hw s p mode).calls → m = PowerMode.ON)
    ∧ (setPowerMode hw s p mode).result = Status.NO_ERROR
    ∧ (setPowerMode hw s p mode).state = s := by
  rcases hmode with hm | hm <;> subst hm <;> simp [setPowerMode, hreg, hdoze]

/-- Witness for C8: DOZE requested on the sample display, whose backend lacks doze. -/
theorem C8_doze_unsupported_requests_on_witness :
    (setPowerMode quietBackend sampleState ⟨0⟩ PowerMode.DOZE).calls
      = [Call.supportsDoze 1, Call.setPowerMode 1 PowerMode.ON]
    ∧ (setPowerMode quietBackend sampleState ⟨0⟩ PowerMode.DOZE).result = Status.NO_ERROR :=
  ⟨(C8_doze_unsupported_requests_on quietBackend sampleState ⟨0⟩ sampleDisplayData
      PowerMode.DOZE rfl (Or.inl rfl) rfl).1,
   (C8_doze_unsupported_requests_on quietBackend sampleState ⟨0⟩ sampleDisplayData
      PowerMode.DOZE rfl (Or.inl rfl) rfl).2.2.1⟩

/-- C9: on a registered physical display, when `onVsync` is called twice in a row with
the same backend handle and the same timestamp `t`, the second call returns false and
leaves the whole state as the first call left it: the record still holds `t` as last
vsync timestamp and the trace toggle the first call left (flipped by the first call
when it accepted `t`, untouched when `t` was already stored). -/
theorem C9_duplicate_vsync_rejected (s : HWComposer) (h : HWDisplayId) (t : Int)
    (p : PhysicalDisplayId) (d : DisplayData)
    (hmap : toPhysicalDisplayId s h = some p)
    (hreg : Map.find s.mDisplayData (HalDisplayId.physical p) = some d) :
    (onVsync (onVsync s h t).1 h t).2 = false
    ∧ (onVsync (onVsync s h t).1 h t).1 = (onVsync s h t).1
    ∧ (∃ d1, Map.find (onVsync s h t).1.mDisplayData (HalDisplayId.physical p) = some d1
        ∧ d1.lastHwVsync = t
        ∧ d1.vsyncTraceToggle
          = (if t = d.lastHwVsync then d.vsyncTraceToggle else !d.vsyncTraceToggle)
        ∧ Map.find (onVsync (onVsync s h t).1 h t).1.mDisplayData (HalDisplayId.physical p)
          = some d1) := by
  have hmap' : Map.find s.mPhysicalDisplayIdMap h = some p := hmap
  by_cases ht : t = d.lastHwVsync
  · simp [onVsync, hmap, hreg, ht]
  · simp [onVsync, hmap, hreg, ht, toPhysicalDisplayId, hmap', Map.find_insert_self]

/-- Witness for C9: two vsync signals with timestamp 1000 for handle 1 of the sample
state; the second one is rejected. -/
theorem C9_duplicate_vsync_rejected_witness :
    (onVsync sampleState 1 1000).2 = true
    ∧ (onVsync (onVsync sampleState 1 1000).1 1 1000).2 = false :=
  ⟨by decide,
   (C9_duplicate_vsync_rejected sampleState 1 1000 ⟨0⟩ sampleDisplayData rfl rfl).1⟩

/-! ## Virtual display identifiers (C10) -/

theorem VirtualIdGenerator.nextId_some (g g' : VirtualIdGenerator) (v : HalVirtualDisplayId)
    (h : g.nextId = (some v, g')) :
    v.value ∉ g.usedIds ∧ g'.usedIds = v.value :: g.usedIds ∧ g'.maxIdsCount = g.maxIdsCount := by
  unfold VirtualIdGenerator.nextId at h
  cases hf : (List.range g.maxIdsCount).find? (fun n => decide (n ∉ g.usedIds)) with
  | none =>
    rw [hf] at h
    simp only [Prod.mk.injEq] at h
    exact absurd h.1 (by simp)
  | some n =>
    have hp := List.find?_some hf
    rw [hf] at h
    simp only [Prod.mk.injEq, Option.some.injEq] at h
    obtain ⟨hv, hg⟩ := h
    subst hv
    subst hg
    exact ⟨by simpa using hp, rfl, rfl⟩

theorem VirtualIdGenerator.markUnused_fresh (g g' : VirtualIdGenerator)
    (v : HalVirtualDisplayId) (h : g.nextId = (some v, g')) :
    (g'.markUnused v).usedIds = g.usedIds := by
  obtain ⟨hfresh, hused, _⟩ := VirtualIdGenerator.nextId_some g g' v h
  simp only [VirtualIdGenerator.markUnused, hused]
  rw [List.filter_cons_of_neg (by simp)]
  rw [List.filter_eq_self]
  intro a ha
  have hne : a ≠ v.value := fun hav => hfresh (hav ▸ ha)
  simp [hne]

/-- The two ways `allocateVirtualDisplay` can end: nothing is returned and neither the
display records nor the identifiers in use change, or a fresh identifier is returned,
marked as in use and bound to a record flagged virtual. -/
theorem allocateVirtualDisplay_cases (env : Env) (hw : Backend) (s : HWComposer)
    (width height : Nat) :
    ((allocateVirtualDisplay env hw s width height).result = none
      ∧ (allocateVirtualDisplay env hw s width height).state.mDisplayData = s.mDisplayData
      ∧ (allocateVirtualDisplay env hw s width height).state.mVirtualIdGenerator.usedIds
        = s.mVirtualIdGenerator.usedIds)
    ∨ (∃ (v : HalVirtualDisplayId) (dd : DisplayData),
        v.value ∉ s.mVirtualIdGenerator.usedIds
        ∧ dd.isVirtual = true
        ∧ (allocateVirtualDisplay env hw s width height).result = some (HalDisplayId.virtual v)
        ∧ (allocateVirtualDisplay env hw s width height).state.mDisplayData
          = Map.insert s.mDisplayData (HalDisplayId.virtual v) dd
        ∧ (allocateVirtualDisplay env hw s width height).state.mVirtualIdGenerator.usedIds
          = v.value :: s.mVirtualIdGenerator.usedIds) := by
  unfold allocateVirtualDisplay
  split
  · left
    exact ⟨rfl, rfl, rfl⟩
  · rcases hn : s.mVirtualIdGenerator.nextId with ⟨_ | v, g'⟩
    · left
      exact ⟨rfl, rfl, rfl⟩
    · simp only
      split
      · left
        exact ⟨rfl, rfl, VirtualIdGenerator.markUnused_fresh _ _ _ hn⟩
      · right
        obtain ⟨hfresh, hused, _⟩ := VirtualIdGenerator.nextId_some _ _ _ hn
        refine ⟨v, _, hfresh, ?_, rfl, rfl, hused⟩
        cases Map.find s.mDisplayData (HalDisplayId.virtual v) <;> rfl

theorem allocate_invariant (env : Env) (hw : Backend) (width height : Nat)
    (c : HWComposer × List HalDisplayId) (hinv : VirtualInvariant c) :
    VirtualInvariant (applyVirtualOp env c (VirtualOp.allocate hw width height)) := by
  obtain ⟨hnd, hreg, hvirt, hflag, hused⟩ := hinv
  simp only [applyVirtualOp]
  rcases allocateVirtualDisplay_cases env hw c.1 width height with
    ⟨hres, hdata, hu⟩ | ⟨v, dd, hfresh, hdd, hres, hdata, hu⟩
  · rw [hres]
    refine ⟨hnd, ?_, hvirt, ?_, ?_⟩
    · intro id
      simp only [hdata]
      exact hreg id
    · intro id d
      simp only [hdata]
      exact hflag id d
    · intro w
      simp only [hu]
      exact hused w
  · rw [hres]
    have hnot : HalDisplayId.virtual v ∉ c.2 := fun hmem => hfresh ((hused v).mp hmem)
    refine ⟨List.nodup_cons.mpr ⟨hnot, hnd⟩, ?_, ?_, ?_, ?_⟩
    · intro id
      simp only [hdata, List.mem_cons]
      by_cases hid : HalDisplayId.virtual v = id
      · subst hid
        simp [Map.find_insert_self]
      · rw [Map.find_insert_ne _ _ _ _ hid]
        constructor
        · rintro (h | h)
          · exact absurd h.symm hid
          · exact (hreg id).mp h
        · intro h
          exact Or.inr ((hreg id).mpr h)
    · intro id hmem
      rcases List.mem_cons.mp hmem with h | h
      · exact ⟨v, h⟩
      · exact hvirt id h
    · intro id d
      simp only [hdata]
      by_cases hid : HalDisplayId.virtual v = id
      · subst hid
        rw [Map.find_insert_self]
        intro h
        injection h with h
        rw [← h]
        exact hdd
      · rw [Map.find_insert_ne _ _ _ _ hid]
        exact hflag id d
    · intro w
      simp only [hu, List.mem_cons]
      constructor
      · rintro (h | h)
        · injection h with h
          left
          rw [h]
        · exact Or.inr ((hused w).mp h)
      · rintro (h | h)
        · left
          have : w = v := by
            cases w
            cases v
            simp_all
          rw [this]
        · exact Or.inr ((hused w).mpr h)

theorem disconnect_invariant (env : Env) (displayId : HalDisplayId)
    (c : HWComposer × List HalDisplayId) (hinv : VirtualInvariant c) :
    VirtualInvariant (applyVirtualOp env c (VirtualOp.disconnect displayId)) := by
  obtain ⟨hnd, hreg, hvirt, hflag, hused⟩ := hinv
  simp only [applyVirtualOp]
  cases hf : Map.find c.1.mDisplayData displayId with
  | none =>
    have hnot : displayId ∉ c.2 := by
      intro hmem
      obtain ⟨d, hd⟩ := (hreg displayId).mp hmem
      rw [hf] at hd
      cases hd
    have hs : disconnectDisplay c.1 displayId = c.1 := by
      simp [disconnectDisplay, hf]
    rw [hs, List.erase_of_not_mem hnot]
    exact ⟨hnd, hreg, hvirt, hflag, hused⟩
  | some d0 =>
    have hmem : displayId ∈ c.2 := (hreg displayId).mpr ⟨d0, hf⟩
    obtain ⟨v, hv⟩ := hvirt displayId hmem
    subst hv
    have hd0 : d0.isVirtual = true := hflag _ d0 hf
    have hdata : (disconnectDisplay c.1 (HalDisplayId.virtual v)).mDisplayData
        = Map.erase c.1.mDisplayData (HalDisplayId.virtual v) := by
      simp [disconnectDisplay, hf]
    have hgen : (disconnectDisplay c.1 (HalDisplayId.virtual v)).mVirtualIdGenerator.usedIds
        = c.1.mVirtualIdGenerator.usedIds.filter (fun n => decide (n ≠ v.value)) := by
      simp [disconnectDisplay, hf, hd0, VirtualIdGenerator.markUnused]
    refine ⟨hnd.erase _, ?_, ?_, ?_, ?_⟩
    · intro id
      simp only [hdata]
      rw [hnd.mem_erase_iff]
      by_cases hid : HalDisplayId.virtual v = id
      · subst hid
        simp [Map.find_erase_self]
      · rw [Map.find_erase_ne _ _ _ hid]
        constructor
        · intro h
          exact (hreg id).mp h.2
        · intro h
          exact ⟨fun he => hid he.symm, (hreg id).mpr h⟩
    · intro id hm
      exact hvirt id (List.mem_of_mem_erase hm)
    · intro id d
      simp only [hdata]
      by_cases hid : HalDisplayId.virtual v = id
      · subst hid
        rw [Map.find_erase_self]
        intro h
        cases h
      · rw [Map.find_erase_ne _ _ _ hid]
        exact hflag id d
    · intro w
      simp only [hgen]
      rw [hnd.mem_erase_iff, List.mem_filter]
      constructor
      · intro h
        refine ⟨(hused w).mp h.2, ?_⟩
        have hne : w.value ≠ v.value := by
          intro heq
          apply h.1
          cases w
          cases v
          simp_all
        simp [hne]
      · intro h
        refine ⟨?_, (hused w).mpr h.1⟩
        intro heq
        injection heq with heq
        subst heq
        simp at h

theorem runVirtualOps_invariant (env : Env) (ops : List VirtualOp)
    (c : HWComposer × List HalDisplayId) (hinv : VirtualInvariant c) :
    VirtualInvariant (ops.foldl (applyVirtualOp env) c) := by
  induction ops generalizing c with
  | nil => exact hinv
  | cons op rest ih =>
    simp only [List.foldl_cons]
    apply ih
    cases op with
    | allocate hw width height => exact allocate_invariant env hw width height c hinv
    | disconnect displayId => exact disconnect_invariant env displayId c hinv

theorem initial_virtualInvariant (maxVirtualDisplays : Nat) (updateProductInfo : Bool) :
    VirtualInvariant (HWComposer.initial maxVirtualDisplays updateProductInfo, []) := by
  refine ⟨List.nodup_nil, ?_, ?_, ?_, ?_⟩ <;> simp [HWComposer.initial, Map.find]

/-- C10: in every state reachable from the initial state by `allocateVirtualDisplay` and
`disconnectDisplay` calls, the identifiers handed out and not yet released by
`disconnectDisplay` are pairwise distinct; they are exactly the registered display
identifiers and exactly the identifiers marked as in use in the pool, so none of them is
available for reuse; and whatever the backend answers, a further
`allocateVirtualDisplay` never returns an identifier that is live. -/
theorem C10_live_virtual_ids_distinct (env : Env) (maxVirtualDisplays : Nat)
    (updateProductInfo : Bool) (ops : List VirtualOp) :
    (runVirtualOps env (HWComposer.initial maxVirtualDisplays updateProductInfo) ops).2.Nodup
    ∧ (∀ id, id ∈ (runVirtualOps env (HWComposer.initial maxVirtualDisplays updateProductInfo)
          ops).2 ↔
        ∃ d, Map.find (runVirtualOps env
          (HWComposer.initial maxVirtualDisplays updateProductInfo) ops).1.mDisplayData id
          = some d)
    ∧ (∀ v : HalVirtualDisplayId,
        HalDisplayId.virtual v ∈ (runVirtualOps env
          (HWComposer.initial maxVirtualDisplays updateProductInfo) ops).2 ↔
        v.value ∈ (runVirtualOps env (HWComposer.initial maxVirtualDisplays updateProductInfo)
          ops).1.mVirtualIdGenerator.usedIds)
    ∧ (∀ (hw : Backend) (width height : Nat) (id : HalDisplayId),
        (allocateVirtualDisplay env hw
          (runVirtualOps env (HWComposer.initial maxVirtualDisplays updateProductInfo) ops).1
          width height).result = some id →
        id ∉ (runVirtualOps env (HWComposer.initial maxVirtualDisplays updateProductInfo)
          ops).2) := by
  have hinv := runVirtualOps_invariant env ops _
    (initial_virtualInvariant maxVirtualDisplays updateProductInfo)
  obtain ⟨hnd, hreg, _, _, hused⟩ := hinv
  refine ⟨hnd, hreg, hused, ?_⟩
  intro hw width height id hres
  rcases allocateVirtualDisplay_cases env hw
      (runVirtualOps env (HWComposer.initial maxVirtualDisplays updateProductInfo) ops).1
      width height with ⟨hnone, _, _⟩ | ⟨v, dd, hfresh, _, hsome, _, _⟩
  · rw [hnone] at hres
    cases hres
  · rw [hsome] at hres
    injection hres with hres
    subst hres
    intro hmem
    exact hfresh ((hused v).mp hmem)

/-! ## Failed virtual display allocation (C11) -/

theorem VirtualIdGenerator.nextId_none_iff (g : VirtualIdGenerator) :
    g.nextId.1 = none ↔ ∀ n, n < g.maxIdsCount → n ∈ g.usedIds := by
  unfold VirtualIdGenerator.nextId
  cases hf : (List.range g.maxIdsCount).find? (fun n => decide (n ∉ g.usedIds)) with
  | none =>
    simp only [true_iff]
    intro n hn
    have h := List.find?_eq_none.mp hf n (List.mem_range.mpr hn)
    simpa using h
  | some n =>
    have hp := List.find?_some hf
    have hm := List.mem_of_find?_eq_some hf
    constructor
    · intro h
      cases h
    · intro hall
      have hin := hall n (List.mem_range.mp hm)
      simp [hin] at hp

theorem VirtualIdGenerator.nextId_none_state (g : VirtualIdGenerator)
    (h : g.nextId.1 = none) : g.nextId.2 = g := by
  unfold VirtualIdGenerator.nextId at h ⊢
  cases hf : (List.range g.maxIdsCount).find? (fun n => decide (n ∉ g.usedIds)) with
  | none => rfl
  | some n =>
    rw [hf] at h
    cases h

theorem VirtualIdGenerator.markUnused_nextId (g g' : VirtualIdGenerator)
    (v : HalVirtualDisplayId) (h : g.nextId = (some v, g')) : g'.markUnused v = g := by
  have hu := VirtualIdGenerator.markUnused_fresh g g' v h
  obtain ⟨_, _, hmax⟩ := VirtualIdGenerator.nextId_some g g' v h
  cases g with
  | mk gmax gused =>
    have hm : (g'.markUnused v).maxIdsCount = gmax := hmax
    cases hr : g'.markUnused v with
    | mk rmax rused =>
      rw [hr] at hu hm
      simp only at hu hm
      rw [hu, hm]

/-- C11: `allocateVirtualDisplay(width, height)` returns nothing exactly when the
configured maximum is non-zero and width or height exceeds it, or the identifier pool is
exhausted (`nextId` yields nothing: every identifier below the bound is in use), or the
backend rejects `createVirtualDisplay`.  In each of these cases the whole state, hence
the identifiers in use in the pool and the display registry, is the same after the call
as before: on backend rejection the identifier drawn is returned to the pool.  The
backend is called only when the size check passed and an identifier was drawn. -/
theorem C11_allocate_fails_iff (env : Env) (hw : Backend) (s : HWComposer)
    (width height : Nat) :
    ((allocateVirtualDisplay env hw s width height).result = none ↔
      (env.maxVirtualDisplaySize ≠ 0 ∧
          (width > env.maxVirtualDisplaySize ∨ height > env.maxVirtualDisplaySize))
        ∨ s.mVirtualIdGenerator.nextId.1 = none
        ∨ (hw.createVirtualDisplay width height).1 ≠ Error.NONE)
    ∧ (s.mVirtualIdGenerator.nextId.1 = none ↔
        ∀ n, n < s.mVirtualIdGenerator.maxIdsCount → n ∈ s.mVirtualIdGenerator.usedIds)
    ∧ ((allocateVirtualDisplay env hw s width height).result = none →
        (allocateVirtualDisplay env hw s width height).state = s)
    ∧ ((allocateVirtualDisplay env hw s width height).result = none →
        (allocateVirtualDisplay env hw s width height).calls
          = (if (env.maxVirtualDisplaySize ≠ 0 ∧
                  (width > env.maxVirtualDisplaySize ∨ height > env.maxVirtualDisplaySize))
                ∨ s.mVirtualIdGenerator.nextId.1 = none
              then [] else [Call.createVirtualDisplay width height])) := by
  refine ⟨?_, VirtualIdGenerator.nextId_none_iff _, ?_⟩
  · unfold allocateVirtualDisplay
    by_cases hsize : env.maxVirtualDisplaySize ≠ 0 ∧
        (width > env.maxVirtualDisplaySize ∨ height > env.maxVirtualDisplaySize)
    · simp [hsize]
    · rw [if_neg hsize]
      rcases hn : s.mVirtualIdGenerator.nextId with ⟨_ | v, g'⟩
      · simp
      · by_cases hc : (hw.createVirtualDisplay width height).1 = Error.NONE
        · simp [hc, hsize]
        · simp [hc]
  · unfold allocateVirtualDisplay
    by_cases hsize : env.maxVirtualDisplaySize ≠ 0 ∧
        (width > env.maxVirtualDisplaySize ∨ height > env.maxVirtualDisplaySize)
    · simp [hsize]
    · rw [if_neg hsize]
      rcases hn : s.mVirtualIdGenerator.nextId with ⟨_ | v, g'⟩
      · simp [hsize]
      · by_cases hc : (hw.createVirtualDisplay width height).1 = Error.NONE
        · simp [hc]
        · have hg := VirtualIdGenerator.markUnused_nextId _ _ _ hn
          simp [hc, hsize, hg]

/-! ## Validation failures and disconnected displays (C12, C13) -/

/-- C12: on a connected display, when the validation call (`presentOrValidate` for a
frame without client composition, `validate` otherwise) returns an error that is neither
`NONE` nor the has-changes sentinel, `getDeviceCompositionChanges` returns a status other
than `NO_ERROR` (`UNKNOWN_ERROR` on the combined call, `BAD_INDEX` on plain validate),
leaves `outChanges` as the caller passed it, and issues no call besides the validation
call, in particular no `acceptChanges`. -/
theorem C12_validation_error_is_surfaced (hw : Backend) (s : HWComposer)
    (displayId : HalDisplayId) (d : DisplayData) (client : Bool)
    (oc : Option DeviceRequestedChanges)
    (hreg : Map.find s.mDisplayData displayId = some d)
    (hconn : d.hwcDisplay.isConnected = true)
    (herr : (if client then (hw.validate d.hwcDisplay.id).1
              else (hw.presentOrValidate d.hwcDisplay.id).error) ≠ Error.NONE)
    (hhard : hasChangesError (if client then (hw.validate d.hwcDisplay.id).1
              else (hw.presentOrValidate d.hwcDisplay.id).error) = false) :
    (getDeviceCompositionChanges hw s displayId client oc).status
        = (if client then Status.BAD_INDEX else Status.UNKNOWN_ERROR)
    ∧ (getDeviceCompositionChanges hw s displayId client oc).status ≠ Status.NO_ERROR
    ∧ (getDeviceCompositionChanges hw s displayId client oc).outChanges = oc
    ∧ (getDeviceCompositionChanges hw s displayId client oc).calls
        = [if client then Call.validate d.hwcDisplay.id
            else Call.presentOrValidate d.hwcDisplay.id]
    ∧ Call.acceptChanges d.hwcDisplay.id
        ∉ (getDeviceCompositionChanges hw s displayId client oc).calls := by
  cases client with
  | false =>
    simp only [Bool.false_eq_true, if_false] at herr hhard
    simp [getDeviceCompositionChanges, hreg, hconn, herr, hhard]
  | true =>
    simp only [if_true] at herr hhard
    simp [getDeviceCompositionChanges, retrieveAndAcceptChanges, hreg, hconn, herr, hhard]

/-- Witness for C12: the sample display, a frame without client composition and a
combined call that fails with `BAD_DISPLAY`. -/
theorem C12_validation_error_is_surfaced_witness :
    (getDeviceCompositionChanges hardErrorBackend sampleState (HalDisplayId.physical ⟨0⟩)
        false none).status = Status.UNKNOWN_ERROR
    ∧ (getDeviceCompositionChanges hardErrorBackend sampleState (HalDisplayId.physical ⟨0⟩)
        false none).outChanges = none :=
  ⟨(C12_validation_error_is_surfaced hardErrorBackend sampleState (HalDisplayId.physical ⟨0⟩)
      sampleDisplayData false none rfl rfl (by decide) (by decide)).1,
   (C12_validation_error_is_surfaced hardErrorBackend sampleState (HalDisplayId.physical ⟨0⟩)
      sampleDisplayData false none rfl rfl (by decide) (by decide)).2.2.1⟩

/-- C13: on a registered display whose backend display is not connected,
`getDeviceCompositionChanges` returns `NO_ERROR`, issues no backend call at all, leaves
`outChanges` as the caller passed it (empty when it was empty) and leaves the whole
state, in particular the display record, unchanged. -/
theorem C13_disconnected_is_noop (hw : Backend) (s : HWComposer) (displayId : HalDisplayId)
    (d : DisplayData) (client : Bool) (oc : Option DeviceRequestedChanges)
    (hreg : Map.find s.mDisplayData displayId = some d)
    (hdisc : d.hwcDisplay.isConnected = false) :
    (getDeviceCompositionChanges hw s displayId client oc).status = Status.NO_ERROR
    ∧ (getDeviceCompositionChanges hw s displayId client oc).calls = []
    ∧ (getDeviceCompositionChanges hw s displayId client oc).outChanges = oc
    ∧ (getDeviceCompositionChanges hw s displayId client oc).state = s
    ∧ Map.find (getDeviceCompositionChanges hw s displayId client oc).state.mDisplayData
        displayId = some d := by
  simp [getDeviceCompositionChanges, hreg, hdisc]

/-- Witness for C13: the sample display after a DISCONNECTED notification for its
handle; the call is a no-op success. -/
theorem C13_disconnected_is_noop_witness :
    (getDeviceCompositionChanges quietBackend
        (onHotplug sampleEnv quietBackend sampleState 1 Connection.DISCONNECTED).state
        (HalDisplayId.physical ⟨0⟩) false none).status = Status.NO_ERROR
    ∧ (getDeviceCompositionChanges quietBackend
        (onHotplug sampleEnv quietBackend sampleState 1 Connection.DISCONNECTED).state
        (HalDisplayId.physical ⟨0⟩) false none).calls = [] :=
  ⟨(C13_disconnected_is_noop quietBackend
      (onHotplug sampleEnv quietBackend sampleState 1 Connection.DISCONNECTED).state
      (HalDisplayId.physical ⟨0⟩)
      { sampleDisplayData with
        hwcDisplay := { sampleDisplayData.hwcDisplay with isConnected := false } }
      false none (by decide) rfl).1,
   (C13_disconnected_is_noop quietBackend
      (onHotplug sampleEnv quietBackend sampleState 1 Connection.DISCONNECTED).state
      (HalDisplayId.physical ⟨0⟩)
      { sampleDisplayData with
        hwcDisplay := { sampleDisplayData.hwcDisplay with isConnected := false } }
      false none (by decide) rfl).2.1⟩

/-! ## Identity of connected displays (C14, C15, C16) -/

/-- A CONNECTED notification for a handle without identity either is ignored or ends in
`finishHotplugConnect` with the info chosen by `newDisplayInfo`. -/
theorem onHotplug_connect_new (env : Env) (hw : Backend) (s : HWComposer) (h : HWDisplayId)
    (hnew : toPhysicalDisplayId s h = none) :
    onHotplug env hw s h Connection.CONNECTED
      = (if shouldIgnoreHotplugConnect
            (selectMultiDisplayMode s (hasIdentificationData hw h))
            (hasIdentificationData hw h) = true
          then { state := selectMultiDisplayMode s (hasIdentificationData hw h), result := none
                 calls := [Call.getDisplayIdentificationData h] }
          else finishHotplugConnect hw (selectMultiDisplayMode s (hasIdentificationData hw h)) h
            (newDisplayInfo env (selectMultiDisplayMode s (hasIdentificationData hw h))
              (hw.getDisplayIdentificationData h))
            [Call.getDisplayIdentificationData h]) := by
  simp [onHotplug, onHotplugConnect, hnew]

/-- The info and the resulting mode of a resolved connect of a handle without identity. -/
theorem onHotplug_connect_new_resolved (env : Env) (hw : Backend) (s : HWComposer)
    (h : HWDisplayId) (info : DisplayIdentificationInfo)
    (hnew : toPhysicalDisplayId s h = none)
    (hres : (onHotplug env hw s h Connection.CONNECTED).result = some info) :
    info = newDisplayInfo env (selectMultiDisplayMode s (hasIdentificationData hw h))
        (hw.getDisplayIdentificationData h)
    ∧ (onHotplug env hw s h Connection.CONNECTED).state.mHasMultiDisplaySupport
      = (selectMultiDisplayMode s (hasIdentificationData hw h)).mHasMultiDisplaySupport := by
  rw [onHotplug_connect_new env hw s h hnew] at hres ⊢
  split at hres
  · cases hres
  · rename_i hig
    rw [if_neg hig]
    rw [finishHotplugConnect_result] at hres
    injection hres with hres
    exact ⟨hres.symm, finishHotplugConnect_mode _ _ _ _ _⟩

/-- C14: when a CONNECTED notification for a handle without identity is resolved in
legacy mode (the mode in force for the notification), the returned identifier is
`fromPort(LEGACY_DISPLAY_TYPE_PRIMARY)` if the primary slot is empty, as at the first
physical connect, and `fromPort(LEGACY_DISPLAY_TYPE_EXTERNAL)` if the primary slot is
occupied, whatever identification data the backend supplies. -/
theorem C14_legacy_slot_identifiers (env : Env) (hw : Backend) (s : HWComposer)
    (h : HWDisplayId) (info : DisplayIdentificationInfo)
    (hnew : toPhysicalDisplayId s h = none)
    (hlegacy : (onHotplug env hw s h Connection.CONNECTED).state.mHasMultiDisplaySupport
      = false)
    (hres : (onHotplug env hw s h Connection.CONNECTED).result = some info) :
    (s.mInternalHwcDisplayId = none →
        info.id = env.fromPort env.LEGACY_DISPLAY_TYPE_PRIMARY)
    ∧ (∀ i, s.mInternalHwcDisplayId = some i →
        info.id = env.fromPort env.LEGACY_DISPLAY_TYPE_EXTERNAL) := by
  obtain ⟨hinfo, hmode⟩ := onHotplug_connect_new_resolved env hw s h info hnew hres
  rw [hmode] at hlegacy
  have hint := (selectMultiDisplayMode_fields s (hasIdentificationData hw h)).2.2.1
  constructor
  · intro hnone
    rw [hinfo]
    simp [newDisplayInfo, hlegacy, hint, hnone]
  · intro i hsome
    rw [hinfo]
    simp [newDisplayInfo, hlegacy, hint, hsome]

/-- Witness for C14: the first connect from the initial state (no identification data)
is resolved with the primary-slot identifier; a second handle connecting to the sample
state with identification data is resolved with the external-slot identifier. -/
theorem C14_legacy_slot_identifiers_witness :
    (onHotplug sampleEnv quietBackend (HWComposer.initial 4 false) 1
        Connection.CONNECTED).result
      = some { id := ⟨0⟩, name := "Internal display", deviceProductInfo := none }
    ∧ (⟨0⟩ : PhysicalDisplayId) = sampleEnv.fromPort sampleEnv.LEGACY_DISPLAY_TYPE_PRIMARY
    ∧ (onHotplug sampleEnv identifyingBackend sampleState 2 Connection.CONNECTED).result
      = some { id := ⟨1⟩, name := "External display", deviceProductInfo := none }
    ∧ (⟨1⟩ : PhysicalDisplayId) = sampleEnv.fromPort sampleEnv.LEGACY_DISPLAY_TYPE_EXTERNAL :=
  ⟨by decide,
   (C14_legacy_slot_identifiers sampleEnv quietBackend (HWComposer.initial 4 false) 1
      { id := ⟨0⟩, name := "Internal display", deviceProductInfo := none }
      (by decide) (by decide) (by decide)).1 (by decide),
   by decide,
   (C14_legacy_slot_identifiers sampleEnv identifyingBackend sampleState 2
      { id := ⟨1⟩, name := "External display", deviceProductInfo := none }
      (by decide) (by decide) (by decide)).2 1 (by decide)⟩

/-- C15 (amended): a CONNECTED notification for a handle without identity whose display
delivers identification data, arriving while the process is in generalized mode or while
no backend handle is mapped, is handled in generalized mode and always resolved: it
returns the info obtained by parsing the identification data when the parse succeeds,
and the port-derived identifier `fromPort(port)` with a fallback name when the parse
fails.  When the display delivers no identification data, the notification is ignored
if it arrives in generalized mode while a handle is mapped, and switches the process to
legacy mode if no handle is mapped. -/
theorem C15_generalized_identifier (env : Env) (hw : Backend) (s : HWComposer)
    (h : HWDisplayId) (hnew : toPhysicalDisplayId s h = none) :
    (hasIdentificationData hw h = true →
      (s.mHasMultiDisplaySupport = true ∨ s.mPhysicalDisplayIdMap = []) →
        (onHotplug env hw s h Connection.CONNECTED).state.mHasMultiDisplaySupport = true
        ∧ (∀ parsed,
            env.parseDisplayIdentificationData (hw.getDisplayIdentificationData h).port
              (hw.getDisplayIdentificationData h).data = some parsed →
            (onHotplug env hw s h Connection.CONNECTED).result = some parsed)
        ∧ (env.parseDisplayIdentificationData (hw.getDisplayIdentificationData h).port
              (hw.getDisplayIdentificationData h).data = none →
            (onHotplug env hw s h Connection.CONNECTED).result
              = some { id := env.fromPort (hw.getDisplayIdentificationData h).port
                       name := if s.mInternalHwcDisplayId.isNone then "Internal display"
                         else "External display"
                       deviceProductInfo := none }))
    ∧ (hasIdentificationData hw h = false → s.mHasMultiDisplaySupport = true →
        s.mPhysicalDisplayIdMap ≠ [] →
        (onHotplug env hw s h Connection.CONNECTED).result = none
        ∧ (onHotplug env hw s h Connection.CONNECTED).state = s)
    ∧ (hasIdentificationData hw h = false → s.mPhysicalDisplayIdMap = [] →
        (onHotplug env hw s h Connection.CONNECTED).state.mHasMultiDisplaySupport = false) := by
  have hiff := shouldIgnore_after_select_iff s (hasIdentificationData hw h)
  have hmode := selectMultiDisplayMode_mode s (hasIdentificationData hw h)
  have hint := (selectMultiDisplayMode_fields s (hasIdentificationData hw h)).2.2.1
  rw [onHotplug_connect_new env hw s h hnew]
  refine ⟨?_, ?_, ?_⟩
  · intro hd hg
    have hig : ¬ shouldIgnoreHotplugConnect
        (selectMultiDisplayMode s (hasIdentificationData hw h))
        (hasIdentificationData hw h) = true := by
      intro hc
      rcases hiff.mp hc with ⟨_, _, hb⟩ | ⟨hne, hm, _, _⟩ | ⟨_, hb, _, _⟩
      · rw [hd] at hb
        cases hb
      · rcases hg with hg | hg
        · rw [hg] at hm
          cases hm
        · exact hne hg
      · rw [hd] at hb
        cases hb
    have hgen : (selectMultiDisplayMode s (hasIdentificationData hw h)).mHasMultiDisplaySupport
        = true := by
      rw [hmode, hd]
      rcases hg with hg | hg
      · simp [hg]
      · simp [hg]
    rw [if_neg hig, finishHotplugConnect_result, finishHotplugConnect_mode]
    refine ⟨hgen, ?_, ?_⟩
    · intro parsed hp
      simp [newDisplayInfo, hgen, hp]
    · intro hp
      simp [newDisplayInfo, hgen, hp, hint]
  · intro hd hg hne
    have hig : shouldIgnoreHotplugConnect
        (selectMultiDisplayMode s (hasIdentificationData hw h))
        (hasIdentificationData hw h) = true :=
      hiff.mpr (Or.inl ⟨hne, hg, hd⟩)
    rw [if_pos hig, selectMultiDisplayMode_of_mapped s _ hne]
    exact ⟨rfl, rfl⟩
  · intro hd hempty
    have hleg : (selectMultiDisplayMode s (hasIdentificationData hw h)).mHasMultiDisplaySupport
        = false := by
      rw [hmode, hd]
      simp [hempty]
    by_cases hig : shouldIgnoreHotplugConnect
        (selectMultiDisplayMode s (hasIdentificationData hw h))
        (hasIdentificationData hw h) = true
    · rw [if_pos hig]
      exact hleg
    · rw [if_neg hig, finishHotplugConnect_mode]
      exact hleg

/-- Witness for C15: the first connect from the initial state with identification data
on port 7 is resolved in generalized mode with the info the parser produced. -/
theorem C15_generalized_identifier_witness :
    toPhysicalDisplayId (HWComposer.initial 4 false) 1 = none
    ∧ hasIdentificationData identifyingBackend 1 = true
    ∧ sampleEnv.parseDisplayIdentificationData 7 [1, 2, 3]
      = some { id := ⟨7⟩, name := "panel", deviceProductInfo := none }
    ∧ (onHotplug sampleEnv identifyingBackend (HWComposer.initial 4 false) 1
        Connection.CONNECTED).result
      = some { id := ⟨7⟩, name := "panel", deviceProductInfo := none } :=
  ⟨by decide, by decide, by decide,
   ((C15_generalized_identifier sampleEnv identifyingBackend (HWComposer.initial 4 false) 1
      (by decide)).1 (by decide) (Or.inr rfl)).2.1 _ (by decide)⟩

/-- C15 (counterexample): with a parser that rejects every descriptor, a first display
connects with identification data on port 1 and puts the process in generalized mode;
the connect of a second handle, with identification data on port 2, arrives in
generalized mode, is resolved all the same and returns the port-derived identifier 2,
which no parse produced. -/
theorem C15_counterexample :
    (onHotplug unparsableEnv portPerHandleBackend (HWComposer.initial 4 false) 1
        Connection.CONNECTED).state.mHasMultiDisplaySupport = true
    ∧ toPhysicalDisplayId
        (onHotplug unparsableEnv portPerHandleBackend (HWComposer.initial 4 false) 1
          Connection.CONNECTED).state 2 = none
    ∧ hasIdentificationData portPerHandleBackend 2 = true
    ∧ unparsableEnv.parseDisplayIdentificationData
        (portPerHandleBackend.getDisplayIdentificationData 2).port
        (portPerHandleBackend.getDisplayIdentificationData 2).data = none
    ∧ (onHotplug unparsableEnv portPerHandleBackend
        (onHotplug unparsableEnv portPerHandleBackend (HWComposer.initial 4 false) 1
          Connection.CONNECTED).state 2 Connection.CONNECTED).result
      = some { id := ⟨2⟩, name := "External display", deviceProductInfo := none }
    ∧ (onHotplug unparsableEnv portPerHandleBackend
        (onHotplug unparsableEnv portPerHandleBackend (HWComposer.initial 4 false) 1
          Connection.CONNECTED).state 2
          Connection.CONNECTED).state.mHasMultiDisplaySupport = true := by
  decide

theorem finishHotplugConnect_connected (hw : Backend) (s : HWComposer) (h : HWDisplayId)
    (info : DisplayIdentificationInfo) (calls : List Call) :
    isConnected (finishHotplugConnect hw s h info calls).state info.id = true := by
  unfold finishHotplugConnect
  by_cases hc : isConnected s info.id = true
  · simp [hc]
  · simp only [hc, Bool.not_eq_true] 
    simp only [Bool.not_false, if_true, isConnected, allocatePhysicalDisplay,
      Map.find_insert_self, loadModes_hwcDisplay]
    cases Map.find s.mDisplayData (HalDisplayId.physical info.id) <;> rfl

theorem finishHotplugConnect_toPhysical (hw : Backend) (s : HWComposer) (h : HWDisplayId)
    (info : DisplayIdentificationInfo) (calls : List Call)
    (hmap : toPhysicalDisplayId s h = some info.id) :
    toPhysicalDisplayId (finishHotplugConnect hw s h info calls).state h = some info.id := by
  unfold toPhysicalDisplayId
  rcases finishHotplugConnect_map hw s h info calls with hm | hm
  · rw [hm]
    exact hmap
  · rw [hm, Map.find_insert_self]

/-- The outcome of a CONNECTED notification for a handle that already has an identity. -/
theorem onHotplug_connect_known (env : Env) (hw : Backend) (s : HWComposer) (h : HWDisplayId)
    (p : PhysicalDisplayId) (hmap : toPhysicalDisplayId s h = some p) :
    ∃ info calls, info.id = p
      ∧ onHotplug env hw s h Connection.CONNECTED = finishHotplugConnect hw s h info calls := by
  simp only [onHotplug, onHotplugConnect, hmap]
  split
  · cases env.parseDisplayIdentificationData (hw.getDisplayIdentificationData h).port
        (hw.getDisplayIdentificationData h).data with
    | none => exact ⟨_, _, rfl, rfl⟩
    | some newInfo => exact ⟨_, _, rfl, rfl⟩
  · exact ⟨_, _, rfl, rfl⟩

/-- C16: for a backend handle that already maps to a display identifier,
`onHotplug(handle, CONNECTED)` returns that identifier, the handle still maps to it
afterwards, and the display is registered and connected under it afterwards. -/
theorem C16_known_handle_keeps_identity (env : Env) (hw : Backend) (s : HWComposer)
    (h : HWDisplayId) (p : PhysicalDisplayId) (hmap : toPhysicalDisplayId s h = some p) :
    (∃ info, (onHotplug env hw s h Connection.CONNECTED).result = some info ∧ info.id = p)
    ∧ toPhysicalDisplayId (onHotplug env hw s h Connection.CONNECTED).state h = some p
    ∧ isConnected (onHotplug env hw s h Connection.CONNECTED).state p = true
    ∧ (∃ d, Map.find (onHotplug env hw s h Connection.CONNECTED).state.mDisplayData
          (HalDisplayId.physical p) = some d
        ∧ d.hwcDisplay.isConnected = true) := by
  obtain ⟨info, calls, hid, hout⟩ := onHotplug_connect_known env hw s h p hmap
  rw [hout]
  subst hid
  have hconn := finishHotplugConnect_connected hw s h info calls
  refine ⟨⟨info, finishHotplugConnect_result _ _ _ _ _, rfl⟩,
    finishHotplugConnect_toPhysical hw s h info calls hmap, hconn, ?_⟩
  unfold isConnected at hconn
  cases hf : Map.find (finishHotplugConnect hw s h info calls).state.mDisplayData
      (HalDisplayId.physical info.id) with
  | none => simp [hf] at hconn
  | some d =>
    rw [hf] at hconn
    exact ⟨d, rfl, hconn⟩

/-- Witness for C16: handle 1 of the sample state connects again. -/
theorem C16_known_handle_keeps_identity_witness :
    toPhysicalDisplayId sampleState 1 = some ⟨0⟩
    ∧ isConnected (onHotplug sampleEnv quietBackend sampleState 1
        Connection.CONNECTED).state ⟨0⟩ = true :=
  ⟨by decide,
   (C16_known_handle_keeps_identity sampleEnv quietBackend sampleState 1 ⟨0⟩
      (by decide)).2.2.1⟩

/-! ## Disconnect notifications (C17) -/

theorem finishHotplugConnect_keeps_records (hw : Backend) (s : HWComposer) (h : HWDisplayId)
    (info : DisplayIdentificationInfo) (calls : List Call) (id : HalDisplayId)
    (d : DisplayData) (hreg : Map.find s.mDisplayData id = some d) :
    ∃ d', Map.find (finishHotplugConnect hw s h info calls).state.mDisplayData id = some d' := by
  unfold finishHotplugConnect
  split
  · simp only [allocatePhysicalDisplay]
    by_cases hid : HalDisplayId.physical info.id = id
    · subst hid
      rw [Map.find_insert_self]
      exact ⟨_, rfl⟩
    · rw [Map.find_insert_ne _ _ _ _ hid]
      exact ⟨d, hreg⟩
  · exact ⟨d, hreg⟩

theorem onHotplugConnect_keeps_records (env : Env) (hw : Backend) (s : HWComposer)
    (h : HWDisplayId) (id : HalDisplayId) (d : DisplayData)
    (hreg : Map.find s.mDisplayData id = some d) :
    ∃ d', Map.find (onHotplugConnect env hw s h).state.mDisplayData id = some d' := by
  unfold onHotplugConnect
  cases hm : toPhysicalDisplayId s h with
  | some displayId =>
    simp only
    split <;> exact finishHotplugConnect_keeps_records _ _ _ _ _ id d hreg
  | none =>
    simp only
    have hdata := (selectMultiDisplayMode_fields s (hasIdentificationData hw h)).1
    split
    · simp only [hdata]
      exact ⟨d, hreg⟩
    · apply finishHotplugConnect_keeps_records _ _ _ _ _ id d
      rw [hdata]
      exact hreg

theorem onHotplugDisconnect_keeps_records (s : HWComposer) (h : HWDisplayId)
    (id : HalDisplayId) (d : DisplayData) (hreg : Map.find s.mDisplayData id = some d) :
    ∃ d', Map.find (onHotplugDisconnect s h).state.mDisplayData id = some d' := by
  unfold onHotplugDisconnect
  cases hm : toPhysicalDisplayId s h with
  | none => exact ⟨d, hreg⟩
  | some displayId =>
    simp only
    cases hf : Map.find s.mDisplayData (HalDisplayId.physical displayId) with
    | none => exact ⟨d, hreg⟩
    | some d0 =>
      simp only
      split
      · simp only
        by_cases hid : HalDisplayId.physical displayId = id
        · subst hid
          rw [Map.find_insert_self]
          exact ⟨_, rfl⟩
        · rw [Map.find_insert_ne _ _ _ _ hid]
          exact ⟨d, hreg⟩
      · exact ⟨d, hreg⟩

/-- C17: for a backend handle with a known identity, `onHotplug(handle, DISCONNECTED)`
returns that identity and marks the display not connected without erasing anything: the
handle map is unchanged, the record of the display is the old record with only the
connected flag cleared (so `getModes` still returns the last-known modes), and every
registered record is still registered.  No hotplug notification of any kind removes a
record; `disconnectDisplay` does. -/
theorem C17_disconnect_marks_not_erases (env : Env) (hw : Backend) (s : HWComposer)
    (h : HWDisplayId) (p : PhysicalDisplayId) (hmap : toPhysicalDisplayId s h = some p) :
    (∃ info, (onHotplug env hw s h Connection.DISCONNECTED).result = some info ∧ info.id = p)
    ∧ isConnected (onHotplug env hw s h Connection.DISCONNECTED).state p = false
    ∧ (onHotplug env hw s h Connection.DISCONNECTED).state.mPhysicalDisplayIdMap
      = s.mPhysicalDisplayIdMap
    ∧ getModes (onHotplug env hw s h Connection.DISCONNECTED).state p = getModes s p
    ∧ (∀ d, Map.find s.mDisplayData (HalDisplayId.physical p) = some d →
        Map.find (onHotplug env hw s h Connection.DISCONNECTED).state.mDisplayData
            (HalDisplayId.physical p)
          = some { d with hwcDisplay := { d.hwcDisplay with isConnected := false } })
    ∧ (∀ (hw' : Backend) (h' : HWDisplayId) (c : Connection) (id : HalDisplayId)
        (d : DisplayData), Map.find s.mDisplayData id = some d →
        ∃ d', Map.find (onHotplug env hw' s h' c).state.mDisplayData id = some d')
    ∧ (∀ id, Map.find (disconnectDisplay s id).mDisplayData id = none) := by
  refine ⟨?_, ?_, ?_, ?_, ?_, ?_, ?_⟩
  · simp only [onHotplug, onHotplugDisconnect, hmap]
    cases hf : Map.find s.mDisplayData (HalDisplayId.physical p) with
    | none => exact ⟨_, rfl, rfl⟩
    | some d =>
      simp only
      split <;> exact ⟨_, rfl, rfl⟩
  · simp only [onHotplug, onHotplugDisconnect, hmap]
    cases hf : Map.find s.mDisplayData (HalDisplayId.physical p) with
    | none => simp [isConnected, hf]
    | some d =>
      by_cases hc : d.hwcDisplay.isConnected = true
      · simp [isConnected, hc, Map.find_insert_self]
      · simp [isConnected, hc, hf]
  · simp only [onHotplug, onHotplugDisconnect, hmap]
    cases hf : Map.find s.mDisplayData (HalDisplayId.physical p) with
    | none => rfl
    | some d =>
      simp only
      split <;> rfl
  · simp only [onHotplug, onHotplugDisconnect, hmap]
    cases hf : Map.find s.mDisplayData (HalDisplayId.physical p) with
    | none => rfl
    | some d =>
      by_cases hc : d.hwcDisplay.isConnected = true
      · simp [getModes, hc, hf, Map.find_insert_self]
      · simp [getModes, hc, hf]
  · intro d hf
    simp only [onHotplug, onHotplugDisconnect, hmap, hf]
    cases hc : d.hwcDisplay.isConnected with
    | true => simp [Map.find_insert_self]
    | false =>
      simp only [Bool.false_eq_true, if_false, hf, Option.some.injEq]
      cases d with
      | mk isVirtual hwcDisplay lastPresentFence releaseFences modes validateWasSkipped
          presentError vsyncTraceToggle vsyncEnabled lastHwVsync =>
        cases hwcDisplay with
        | mk id type connected =>
          simp only at hc
          subst hc
          rfl
  · intro hw' h' c id d hreg
    cases c with
    | INVALID => exact ⟨d, hreg⟩
    | CONNECTED => exact onHotplugConnect_keeps_records env hw' s h' id d hreg
    | DISCONNECTED => exact onHotplugDisconnect_keeps_records s h' id d hreg
  · intro id
    unfold disconnectDisplay
    cases hf : Map.find s.mDisplayData id with
    | none => exact hf
    | some d => exact Map.find_erase_self _ _

/-- Witness for C17: handle 1 of the state with one loaded mode is reported disconnected;
the display is no longer connected and its mode list is still returned. -/
theorem C17_disconnect_marks_not_erases_witness :
    isConnected loadedState ⟨0⟩ = true
    ∧ isConnected (onHotplug sampleEnv quietBackend loadedState 1
        Connection.DISCONNECTED).state ⟨0⟩ = false
    ∧ getModes (onHotplug sampleEnv quietBackend loadedState 1
        Connection.DISCONNECTED).state ⟨0⟩ = getModes loadedState ⟨0⟩ :=
  ⟨by decide,
   (C17_disconnect_marks_not_erases sampleEnv quietBackend loadedState 1 ⟨0⟩
      (by decide)).2.1,
   (C17_disconnect_marks_not_erases sampleEnv quietBackend loadedState 1 ⟨0⟩
      (by decide)).2.2.2.1⟩

/-! ## Vsync acceptance and toggling (C18, C19) -/

/-- C18: `onVsync(handle, t)` returns true if and only if the handle resolves to a
registered display and `t` differs from that display's stored last vsync timestamp; when
it returns true the stored last timestamp of that display is `t` afterwards, and when it
returns false (unknown handle, unregistered display or duplicate timestamp) the state
is unchanged. -/
theorem C18_onVsync_accepts_iff (s : HWComposer) (h : HWDisplayId) (t : Int) :
    ((onVsync s h t).2 = true ↔
      ∃ p d, toPhysicalDisplayId s h = some p
        ∧ Map.find s.mDisplayData (HalDisplayId.physical p) = some d
        ∧ t ≠ d.lastHwVsync)
    ∧ ((onVsync s h t).2 = true →
      ∃ p d', toPhysicalDisplayId s h = some p
        ∧ Map.find (onVsync s h t).1.mDisplayData (HalDisplayId.physical p) = some d'
        ∧ d'.lastHwVsync = t)
    ∧ ((onVsync s h t).2 = false → (onVsync s h t).1 = s) := by
  cases hm : toPhysicalDisplayId s h with
  | none => simp [onVsync, hm]
  | some p =>
    cases hf : Map.find s.mDisplayData (HalDisplayId.physical p) with
    | none => simp [onVsync, hm, hf]
    | some d =>
      by_cases ht : t = d.lastHwVsync
      · simp [onVsync, hm, hf, ht]
      · simp [onVsync, hm, hf, ht, Map.find_insert_self]

/-- C19: on a registered physical display, `setVsyncEnabled(d, e)` issues no backend call
and leaves the state unchanged when `e` equals the current `vsyncEnabled`; otherwise it
issues exactly one backend call, after which the record is the old one with
`vsyncEnabled = e` if the call succeeded, and the state is unchanged if the call
failed. -/
theorem C19_setVsyncEnabled_cases (hw : Backend) (s : HWComposer) (p : PhysicalDisplayId)
    (d : DisplayData) (e : Vsync)
    (hreg : Map.find s.mDisplayData (HalDisplayId.physical p) = some d) :
    (e = d.vsyncEnabled →
        (setVsyncEnabled hw s p e).2 = [] ∧ (setVsyncEnabled hw s p e).1 = s)
    ∧ (e ≠ d.vsyncEnabled →
        (setVsyncEnabled hw s p e).2 = [Call.setVsyncEnabled d.hwcDisplay.id e]
        ∧ (hw.setVsyncEnabled d.hwcDisplay.id e = Error.NONE →
            Map.find (setVsyncEnabled hw s p e).1.mDisplayData (HalDisplayId.physical p)
              = some { d with vsyncEnabled := e })
        ∧ (hw.setVsyncEnabled d.hwcDisplay.id e ≠ Error.NONE →
            (setVsyncEnabled hw s p e).1 = s)) := by
  constructor
  · intro heq
    simp [setVsyncEnabled, hreg, heq]
  · intro hne
    by_cases hb : hw.setVsyncEnabled d.hwcDisplay.id e = Error.NONE
    · simp [setVsyncEnabled, hreg, hne, hb, Map.find_insert_self]
    · simp [setVsyncEnabled, hreg, hne, hb]

/-- Witness for C19: enabling vsync on the sample display, where it is disabled. -/
theorem C19_setVsyncEnabled_cases_witness :
    (setVsyncEnabled quietBackend sampleState ⟨0⟩ Vsync.ENABLE).2
      = [Call.setVsyncEnabled 1 Vsync.ENABLE]
    ∧ Map.find (setVsyncEnabled quietBackend sampleState ⟨0⟩ Vsync.ENABLE).1.mDisplayData
        (HalDisplayId.physical ⟨0⟩)
      = some { sampleDisplayData with vsyncEnabled := Vsync.ENABLE } :=
  ⟨((C19_setVsyncEnabled_cases quietBackend sampleState ⟨0⟩ sampleDisplayData Vsync.ENABLE
      rfl).2 (by decide)).1,
   ((C19_setVsyncEnabled_cases quietBackend sampleState ⟨0⟩ sampleDisplayData Vsync.ENABLE
      rfl).2 (by decide)).2.1 rfl⟩

/-! ## Active mode (C20) -/

/-- C20 (amended): on a registered physical display `getActiveMode` asks the backend for
the active configuration once.  When the backend answers without error it returns the
first entry of the display's mode list whose `hwcId` equals the reported id.  When no
entry matches, and when the backend reports `BAD_CONFIG`, the caller receives the same
value, a null pointer; the two conditions differ only in the diagnostic written to the
log (unknown mode, no active mode). -/
theorem C20_getActiveMode_result (hw : Backend) (s : HWComposer) (p : PhysicalDisplayId)
    (d : DisplayData)
    (hreg : Map.find s.mDisplayData (HalDisplayId.physical p) = some d)
    (hphys : d.isVirtual = false) :
    (getActiveMode hw s p).calls = [Call.getActiveConfig d.hwcDisplay.id]
    ∧ (getActiveMode hw s p).mode
      = (if (hw.getActiveConfig d.hwcDisplay.id).1 = Error.NONE
          then d.modes.find?
            (fun m => decide (m.hwcId = (hw.getActiveConfig d.hwcDisplay.id).2))
          else none)
    ∧ (∀ m, (getActiveMode hw s p).mode = some m →
        m ∈ d.modes ∧ m.hwcId = (hw.getActiveConfig d.hwcDisplay.id).2)
    ∧ ((hw.getActiveConfig d.hwcDisplay.id).1 = Error.NONE →
        (∀ m ∈ d.modes, m.hwcId ≠ (hw.getActiveConfig d.hwcDisplay.id).2) →
        (getActiveMode hw s p).mode = none
        ∧ (getActiveMode hw s p).log = some Diagnostic.unknownMode)
    ∧ ((hw.getActiveConfig d.hwcDisplay.id).1 = Error.BAD_CONFIG →
        (getActiveMode hw s p).mode = none
        ∧ (getActiveMode hw s p).log = some Diagnostic.noActiveMode) := by
  have hfrom : fromPhysicalDisplayId s p = some d.hwcDisplay.id := by
    simp [fromPhysicalDisplayId, hreg, hphys]
  have hmode : (getActiveMode hw s p).mode
      = (if (hw.getActiveConfig d.hwcDisplay.id).1 = Error.NONE
          then d.modes.find?
            (fun m => decide (m.hwcId = (hw.getActiveConfig d.hwcDisplay.id).2))
          else none) := by
    simp only [getActiveMode, hreg, hfrom]
    by_cases hbad : (hw.getActiveConfig d.hwcDisplay.id).1 = Error.BAD_CONFIG
    · simp [hbad]
    · by_cases hnone : (hw.getActiveConfig d.hwcDisplay.id).1 = Error.NONE
      · rw [if_neg hbad, if_neg (by simpa using hnone), if_pos hnone]
        cases d.modes.find?
          (fun m => decide (m.hwcId = (hw.getActiveConfig d.hwcDisplay.id).2)) <;> rfl
      · rw [if_neg hbad, if_pos hnone, if_neg hnone]
  refine ⟨?_, hmode, ?_, ?_, ?_⟩
  · simp only [getActiveMode, hreg, hfrom]
    split
    · rfl
    · split
      · rfl
      · split <;> rfl
  · intro m hm
    rw [hmode] at hm
    split at hm
    · have h1 := List.mem_of_find?_eq_some hm
      have h2 := List.find?_some hm
      exact ⟨h1, by simpa using h2⟩
    · cases hm
  · intro hnone hall
    have hfind : d.modes.find?
        (fun m => decide (m.hwcId = (hw.getActiveConfig d.hwcDisplay.id).2)) = none := by
      apply List.find?_eq_none.mpr
      intro m hm
      simpa using hall m hm
    constructor
    · rw [hmode, if_pos hnone, hfind]
    · simp [getActiveMode, hreg, hfrom, hnone, hfind]
  · intro hbad
    simp [getActiveMode, hreg, hfrom, hbad]

/-- Witness for C20: the display with the loaded mode 7 and a backend reporting 7 as the
active configuration. -/
theorem C20_getActiveMode_result_witness :
    (getActiveMode activeModeBackend loadedState ⟨0⟩).mode
      = loadedDisplayData.modes.find? (fun m => decide (m.hwcId = 7)) :=
  (C20_getActiveMode_result activeModeBackend loadedState ⟨0⟩ loadedDisplayData rfl rfl).2.1

/-- C20 (counterexample): on the display with the loaded mode 7, a backend reporting the
unknown active configuration 99 and a backend reporting `BAD_CONFIG` make
`getActiveMode` return the same value, a null pointer. -/
theorem C20_counterexample :
    (unknownModeBackend.getActiveConfig 1).1 = Error.NONE
    ∧ (noActiveModeBackend.getActiveConfig 1).1 = Error.BAD_CONFIG
    ∧ (getActiveMode unknownModeBackend loadedState ⟨0⟩).mode = none
    ∧ (getActiveMode noActiveModeBackend loadedState ⟨0⟩).mode = none
    ∧ (getActiveMode unknownModeBackend loadedState ⟨0⟩).mode
      = (getActiveMode noActiveModeBackend loadedState ⟨0⟩).mode := by
  decide

/-! ## Status codes of the feature setters (C21) -/

/-- C21: for `setAutoLowLatencyMode`, `setContentType` and
`setDisplayContentSamplingEnabled` the returned status depends on registration and on the
backend error only: `BAD_INDEX` without any backend call for an unregistered display,
and after exactly one backend call `NO_ERROR` for `NONE`, `INVALID_OPERATION` for
`UNSUPPORTED`, `BAD_VALUE` for `BAD_PARAMETER` and `UNKNOWN_ERROR` for every other error.
`INVALID_OPERATION` is returned for `UNSUPPORTED` only and `BAD_VALUE` for
`BAD_PARAMETER` only. -/
theorem C21_setter_status (hw : Backend) (s : HWComposer) :
    (∀ (p : PhysicalDisplayId) (b : Bool),
      (Map.find s.mDisplayData (HalDisplayId.physical p) = none →
        setAutoLowLatencyMode hw s p b = (Status.BAD_INDEX, []))
      ∧ (∀ d, Map.find s.mDisplayData (HalDisplayId.physical p) = some d →
        setAutoLowLatencyMode hw s p b
          = (setterStatus (hw.setAutoLowLatencyMode d.hwcDisplay.id b),
              [Call.setAutoLowLatencyMode d.hwcDisplay.id b])))
    ∧ (∀ (p : PhysicalDisplayId) (t : Nat),
      (Map.find s.mDisplayData (HalDisplayId.physical p) = none →
        setContentType hw s p t = (Status.BAD_INDEX, []))
      ∧ (∀ d, Map.find s.mDisplayData (HalDisplayId.physical p) = some d →
        setContentType hw s p t
          = (setterStatus (hw.setContentType d.hwcDisplay.id t),
              [Call.setContentType d.hwcDisplay.id t])))
    ∧ (∀ (id : HalDisplayId) (b : Bool) (mask frames : Nat),
      (Map.find s.mDisplayData id = none →
        setDisplayContentSamplingEnabled hw s id b mask frames = (Status.BAD_INDEX, []))
      ∧ (∀ d, Map.find s.mDisplayData id = some d →
        setDisplayContentSamplingEnabled hw s id b mask frames
          = (setterStatus (hw.setDisplayContentSamplingEnabled d.hwcDisplay.id b mask frames),
              [Call.setDisplayContentSamplingEnabled d.hwcDisplay.id b mask frames])))
    ∧ (∀ e : Error,
      (setterStatus e = Status.NO_ERROR ↔ e = Error.NONE)
      ∧ (setterStatus e = Status.INVALID_OPERATION ↔ e = Error.UNSUPPORTED)
      ∧ (setterStatus e = Status.BAD_VALUE ↔ e = Error.BAD_PARAMETER)
      ∧ (setterStatus e = Status.UNKNOWN_ERROR ↔
          (e ≠ Error.NONE ∧ e ≠ Error.UNSUPPORTED ∧ e ≠ Error.BAD_PARAMETER))
      ∧ setterStatus e ≠ Status.BAD_INDEX) := by
  refine ⟨?_, ?_, ?_, ?_⟩
  · intro p b
    constructor
    · intro hf
      simp [setAutoLowLatencyMode, hf]
    · intro d hf
      simp only [setAutoLowLatencyMode, hf]
      cases hw.setAutoLowLatencyMode d.hwcDisplay.id b <;> simp [setterStatus]
  · intro p t
    constructor
    · intro hf
      simp [setContentType, hf]
    · intro d hf
      simp only [setContentType, hf]
      cases hw.setContentType d.hwcDisplay.id t <;> simp [setterStatus]
  · intro id b mask frames
    constructor
    · intro hf
      simp [setDisplayContentSamplingEnabled, hf]
    · intro d hf
      simp only [setDisplayContentSamplingEnabled, hf]
      cases hw.setDisplayContentSamplingEnabled d.hwcDisplay.id b mask frames <;>
        simp [setterStatus]
  · intro e
    cases e <;> simp [setterStatus]

/-! ## The validate and present protocol (C22 to C26) -/

/-- C22: on a connected display, for a frame without client composition whose combined
call reports state 1 without a hard error, `getDeviceCompositionChanges` returns
`NO_ERROR`, leaves `outChanges` as the caller passed it, issues `presentOrValidate` and
`getReleaseFences` and nothing else, and stores a record with `validateWasSkipped`
set that holds the release fences and the present fence returned by the backend. -/
theorem C22_fast_path_stores_fences (hw : Backend) (s : HWComposer) (displayId : HalDisplayId)
    (d : DisplayData) (oc : Option DeviceRequestedChanges)
    (hreg : Map.find s.mDisplayData displayId = some d)
    (hconn : d.hwcDisplay.isConnected = true)
    (hsoft : hasChangesError (hw.presentOrValidate d.hwcDisplay.id).error = true ∨
      (hw.presentOrValidate d.hwcDisplay.id).error = Error.NONE)
    (hstate : (hw.presentOrValidate d.hwcDisplay.id).state = 1) :
    (getDeviceCompositionChanges hw s displayId false oc).status = Status.NO_ERROR
    ∧ (getDeviceCompositionChanges hw s displayId false oc).outChanges = oc
    ∧ (getDeviceCompositionChanges hw s displayId false oc).calls
      = [Call.presentOrValidate d.hwcDisplay.id, Call.getReleaseFences d.hwcDisplay.id]
    ∧ (∃ d', Map.find (getDeviceCompositionChanges hw s displayId false oc).state.mDisplayData
          displayId = some d'
        ∧ d'.validateWasSkipped = true
        ∧ d'.releaseFences = (hw.getReleaseFences d.hwcDisplay.id).2
        ∧ d'.lastPresentFence = (hw.presentOrValidate d.hwcDisplay.id).outPresentFence)
    ∧ (∀ h, Call.getChangedCompositionTypes h
          ∉ (getDeviceCompositionChanges hw s displayId false oc).calls
        ∧ Call.getRequests h ∉ (getDeviceCompositionChanges hw s displayId false oc).calls
        ∧ Call.validate h ∉ (getDeviceCompositionChanges hw s displayId false oc).calls
        ∧ Call.acceptChanges h
          ∉ (getDeviceCompositionChanges hw s displayId false oc).calls) := by
  rw [getDeviceCompositionChanges_presented hw s displayId d oc hreg hconn hsoft hstate]
  refine ⟨rfl, rfl, rfl, ?_, ?_⟩
  · simp [putDisplayData, Map.find_insert_self]
  · intro h
    simp

/-- Witness for C22: the sample display and a backend that presents during the combined
call. -/
theorem C22_fast_path_stores_fences_witness :
    (quietBackend.presentOrValidate 1).state = 1
    ∧ (getDeviceCompositionChanges quietBackend sampleState (HalDisplayId.physical ⟨0⟩)
        false none).status = Status.NO_ERROR
    ∧ (getDeviceCompositionChanges quietBackend sampleState (HalDisplayId.physical ⟨0⟩)
        false none).calls = [Call.presentOrValidate 1, Call.getReleaseFences 1] :=
  ⟨rfl,
   (C22_fast_path_stores_fences quietBackend sampleState (HalDisplayId.physical ⟨0⟩)
      sampleDisplayData none rfl rfl (Or.inr rfl) rfl).1,
   (C22_fast_path_stores_fences quietBackend sampleState (HalDisplayId.physical ⟨0⟩)
      sampleDisplayData none rfl rfl (Or.inr rfl) rfl).2.2.1⟩

/-- The slow path keeps the state and appends only retrieval and accept calls, none of
them a validation call, to the calls it was given. -/
theorem retrieveAndAcceptChanges_facts (hw : Backend) (s : HWComposer) (hwcId : HWDisplayId)
    (error : Error) (oc : Option DeviceRequestedChanges) (calls : List Call) :
    (retrieveAndAcceptChanges hw s hwcId error oc calls).state = s
    ∧ ∃ extra, (retrieveAndAcceptChanges hw s hwcId error oc calls).calls = calls ++ extra
        ∧ extra.filter Call.isValidation = [] := by
  cases hc : hasChangesError error <;>
    by_cases he : error = Error.NONE <;>
    by_cases h1 : (hw.getChangedCompositionTypes hwcId).1 = Error.NONE <;>
    by_cases h2 : (hw.getRequests hwcId).1 = Error.NONE <;>
    by_cases h3 : hw.acceptChanges hwcId = Error.NONE <;>
    simp [retrieveAndAcceptChanges, hc, he, h1, h2, h3, Call.isValidation]

theorem getDeviceCompositionChanges_client (hw : Backend) (s : HWComposer)
    (displayId : HalDisplayId) (d : DisplayData) (oc : Option DeviceRequestedChanges)
    (hreg : Map.find s.mDisplayData displayId = some d)
    (hconn : d.hwcDisplay.isConnected = true) :
    getDeviceCompositionChanges hw s displayId true oc
      = retrieveAndAcceptChanges hw
          (putDisplayData s displayId { d with validateWasSkipped := false })
          d.hwcDisplay.id (hw.validate d.hwcDisplay.id).1 oc
          [Call.validate d.hwcDisplay.id] := by
  simp [getDeviceCompositionChanges, hreg, hconn]

/-- The three ways a frame without client composition can go. -/
theorem getDeviceCompositionChanges_device (hw : Backend) (s : HWComposer)
    (displayId : HalDisplayId) (d : DisplayData) (oc : Option DeviceRequestedChanges)
    (hreg : Map.find s.mDisplayData displayId = some d)
    (hconn : d.hwcDisplay.isConnected = true) :
    ((hasChangesError (hw.presentOrValidate d.hwcDisplay.id).error = false
        ∧ (hw.presentOrValidate d.hwcDisplay.id).error ≠ Error.NONE)
      ∧ getDeviceCompositionChanges hw s displayId false oc
        = { state := putDisplayData s displayId { d with validateWasSkipped := false }
            status := Status.UNKNOWN_ERROR
            outChanges := oc
            calls := [Call.presentOrValidate d.hwcDisplay.id] })
    ∨ ((hw.presentOrValidate d.hwcDisplay.id).state = 1
      ∧ (getDeviceCompositionChanges hw s displayId false oc).calls
        = [Call.presentOrValidate d.hwcDisplay.id, Call.getReleaseFences d.hwcDisplay.id])
    ∨ ((hw.presentOrValidate d.hwcDisplay.id).state ≠ 1
      ∧ (hasChangesError (hw.presentOrValidate d.hwcDisplay.id).error = true
          ∨ (hw.presentOrValidate d.hwcDisplay.id).error = Error.NONE)
      ∧ getDeviceCompositionChanges hw s displayId false oc
        = retrieveAndAcceptChanges hw
            (putDisplayData s displayId { d with validateWasSkipped := false })
            d.hwcDisplay.id (hw.presentOrValidate d.hwcDisplay.id).error oc
            [Call.presentOrValidate d.hwcDisplay.id]) := by
  cases hc : hasChangesError (hw.presentOrValidate d.hwcDisplay.id).error <;>
    by_cases he : (hw.presentOrValidate d.hwcDisplay.id).error = Error.NONE <;>
    by_cases hs : (hw.presentOrValidate d.hwcDisplay.id).state = 1 <;>
    simp [getDeviceCompositionChanges, hreg, hconn, hc, he, hs]

theorem not_mem_of_filter_isValidation_nil (extra : List Call) (c : Call)
    (hnil : extra.filter Call.isValidation = []) (hc : c.isValidation = true) :
    c ∉ extra := by
  intro hmem
  have : c ∈ extra.filter Call.isValidation := List.mem_filter.mpr ⟨hmem, hc⟩
  rw [hnil] at this
  cases this

/-- C23: on a connected display `getDeviceCompositionChanges` issues exactly one
validation call, and issues it first: `presentOrValidate` when the frame has no client
composition and plain `validate` when it has.  It never issues `presentOrValidate` for a
frame with client composition, never issues `validate` after `presentOrValidate`, and
leaves `validateWasSkipped` false whenever the frame has client composition. -/
theorem C23_one_validation_call (hw : Backend) (s : HWComposer) (displayId : HalDisplayId)
    (d : DisplayData) (client : Bool) (oc : Option DeviceRequestedChanges)
    (hreg : Map.find s.mDisplayData displayId = some d)
    (hconn : d.hwcDisplay.isConnected = true) :
    (getDeviceCompositionChanges hw s displayId client oc).calls.filter Call.isValidation
      = [if client then Call.validate d.hwcDisplay.id
          else Call.presentOrValidate d.hwcDisplay.id]
    ∧ (getDeviceCompositionChanges hw s displayId client oc).calls.head?
      = some (if client then Call.validate d.hwcDisplay.id
          else Call.presentOrValidate d.hwcDisplay.id)
    ∧ (client = true → ∀ h, Call.presentOrValidate h
        ∉ (getDeviceCompositionChanges hw s displayId client oc).calls)
    ∧ (client = false → ∀ h, Call.validate h
        ∉ (getDeviceCompositionChanges hw s displayId client oc).calls)
    ∧ (client = true →
        ∃ d', Map.find (getDeviceCompositionChanges hw s displayId client oc).state.mDisplayData
            displayId = some d'
          ∧ d'.validateWasSkipped = false) := by
  cases client with
  | true =>
    rw [getDeviceCompositionChanges_client hw s displayId d oc hreg hconn]
    obtain ⟨hstate, extra, hcalls, hnil⟩ := retrieveAndAcceptChanges_facts hw
      (putDisplayData s displayId { d with validateWasSkipped := false })
      d.hwcDisplay.id (hw.validate d.hwcDisplay.id).1 oc [Call.validate d.hwcDisplay.id]
    rw [hcalls, hstate]
    refine ⟨?_, ?_, ?_, ?_, ?_⟩
    · simp [List.filter_cons, Call.isValidation, hnil]
    · simp
    · intro _ h hmem
      simp only [List.singleton_append, List.mem_cons] at hmem
      rcases hmem with hmem | hmem
      · cases hmem
      · exact not_mem_of_filter_isValidation_nil extra (Call.presentOrValidate h) hnil rfl hmem
    · intro hfalse
      cases hfalse
    · intro _
      simp [putDisplayData, Map.find_insert_self]
  | false =>
    rcases getDeviceCompositionChanges_device hw s displayId d oc hreg hconn with
      ⟨_, hout⟩ | ⟨_, hcalls⟩ | ⟨_, _, hout⟩
    · rw [hout]
      simp [Call.isValidation]
    · rw [hcalls]
      simp [Call.isValidation]
    · rw [hout]
      obtain ⟨_, extra, hcalls, hnil⟩ := retrieveAndAcceptChanges_facts hw
        (putDisplayData s displayId { d with validateWasSkipped := false })
        d.hwcDisplay.id (hw.presentOrValidate d.hwcDisplay.id).error oc
        [Call.presentOrValidate d.hwcDisplay.id]
      rw [hcalls]
      refine ⟨?_, ?_, ?_, ?_, ?_⟩
      · simp [List.filter_cons, Call.isValidation, hnil]
      · simp
      · intro hfalse
        cases hfalse
      · intro _ h hmem
        simp only [List.singleton_append, List.mem_cons] at hmem
        rcases hmem with hmem | hmem
        · cases hmem
        · exact not_mem_of_filter_isValidation_nil extra (Call.validate h) hnil rfl hmem
      · intro hfalse
        cases hfalse

/-- Witness for C23: the sample display with a frame that has client composition. -/
theorem C23_one_validation_call_witness :
    (getDeviceCompositionChanges quietBackend sampleState (HalDisplayId.physical ⟨0⟩) true
        none).calls.filter Call.isValidation = [Call.validate 1] :=
  (C23_one_validation_call quietBackend sampleState (HalDisplayId.physical ⟨0⟩)
    sampleDisplayData true none rfl rfl).1

/-- The slow path after a validation error that is not a hard error, when both
retrievals succeed: the four remaining calls are issued in order, the changes are packaged
from the backend's answers and the status reflects `acceptChanges`. -/
theorem retrieveAndAcceptChanges_soft (hw : Backend) (s : HWComposer) (hwcId : HWDisplayId)
    (error : Error) (oc : Option DeviceRequestedChanges) (calls : List Call)
    (hsoft : hasChangesError error = true ∨ error = Error.NONE)
    (h1 : (hw.getChangedCompositionTypes hwcId).1 = Error.NONE)
    (h2 : (hw.getRequests hwcId).1 = Error.NONE) :
    (retrieveAndAcceptChanges hw s hwcId error oc calls).calls
      = calls ++ [Call.getChangedCompositionTypes hwcId, Call.getRequests hwcId,
          Call.getClientTargetProperty hwcId, Call.acceptChanges hwcId]
    ∧ (retrieveAndAcceptChanges hw s hwcId error oc calls).outChanges
      = some { changedTypes := (hw.getChangedCompositionTypes hwcId).2
               displayRequests := (hw.getRequests hwcId).2.1
               layerRequests := (hw.getRequests hwcId).2.2
               clientTargetProperty := (hw.getClientTargetProperty hwcId).2 }
    ∧ ((retrieveAndAcceptChanges hw s hwcId error oc calls).status = Status.NO_ERROR
      ↔ hw.acceptChanges hwcId = Error.NONE) := by
  cases hc : hasChangesError error <;>
    by_cases he : error = Error.NONE <;>
    by_cases h3 : hw.acceptChanges hwcId = Error.NONE <;>
    simp [retrieveAndAcceptChanges, hc, he, h1, h2, h3] at hsoft ⊢

/-- The slow path after a hard validation error returns at once. -/
theorem retrieveAndAcceptChanges_hard (hw : Backend) (s : HWComposer) (hwcId : HWDisplayId)
    (error : Error) (oc : Option DeviceRequestedChanges) (calls : List Call)
    (hc : hasChangesError error = false) (he : error ≠ Error.NONE) :
    retrieveAndAcceptChanges hw s hwcId error oc calls
      = { state := s, status := Status.BAD_INDEX, outChanges := oc, calls := calls } := by
  simp [retrieveAndAcceptChanges, hc, he]

/-- C24: on a connected display, when the validation call did not present (plain
`validate` for a frame with client composition, or `presentOrValidate` reporting a state
other than 1) and the backend answers `getChangedCompositionTypes` and `getRequests` with
success, `getDeviceCompositionChanges` issues the retrievals exactly when the validation
call reported no hard error (`NONE` or the has-changes sentinel).  In that case
`outChanges` holds exactly the changed composition types, display requests, layer
requests and client-target property reported by the backend; the calls issued are the
validation call, the three retrievals and one `acceptChanges`, in this order;
`validateWasSkipped` is false; and the status is `NO_ERROR` if and only if
`acceptChanges` succeeds. -/
theorem C24_changes_packaged_and_accepted (hw : Backend) (s : HWComposer)
    (displayId : HalDisplayId) (d : DisplayData) (client : Bool)
    (oc : Option DeviceRequestedChanges)
    (hreg : Map.find s.mDisplayData displayId = some d)
    (hconn : d.hwcDisplay.isConnected = true)
    (hnotpresented : client = true ∨ (hw.presentOrValidate d.hwcDisplay.id).state ≠ 1)
    (htypes : (hw.getChangedCompositionTypes d.hwcDisplay.id).1 = Error.NONE)
    (hrequests : (hw.getRequests d.hwcDisplay.id).1 = Error.NONE) :
    (Call.getChangedCompositionTypes d.hwcDisplay.id
        ∈ (getDeviceCompositionChanges hw s displayId client oc).calls
      ↔ (hasChangesError (validationError hw d.hwcDisplay.id client) = true
          ∨ validationError hw d.hwcDisplay.id client = Error.NONE))
    ∧ ((hasChangesError (validationError hw d.hwcDisplay.id client) = true
          ∨ validationError hw d.hwcDisplay.id client = Error.NONE) →
        (getDeviceCompositionChanges hw s displayId client oc).outChanges
          = some { changedTypes := (hw.getChangedCompositionTypes d.hwcDisplay.id).2
                   displayRequests := (hw.getRequests d.hwcDisplay.id).2.1
                   layerRequests := (hw.getRequests d.hwcDisplay.id).2.2
                   clientTargetProperty := (hw.getClientTargetProperty d.hwcDisplay.id).2 }
        ∧ (getDeviceCompositionChanges hw s displayId client oc).calls
          = [if client then Call.validate d.hwcDisplay.id
              else Call.presentOrValidate d.hwcDisplay.id,
             Call.getChangedCompositionTypes d.hwcDisplay.id,
             Call.getRequests d.hwcDisplay.id,
             Call.getClientTargetProperty d.hwcDisplay.id,
             Call.acceptChanges d.hwcDisplay.id]
        ∧ ((getDeviceCompositionChanges hw s displayId client oc).status = Status.NO_ERROR
          ↔ hw.acceptChanges d.hwcDisplay.id = Error.NONE)
        ∧ (∃ d',
            Map.find (getDeviceCompositionChanges hw s displayId client oc).state.mDisplayData
              displayId = some d'
            ∧ d'.validateWasSkipped = false)) := by
  cases client with
  | true =>
    have hv : validationError hw d.hwcDisplay.id true = (hw.validate d.hwcDisplay.id).1 := rfl
    rw [hv, getDeviceCompositionChanges_client hw s displayId d oc hreg hconn]
    have hstate := (retrieveAndAcceptChanges_facts hw
      (putDisplayData s displayId { d with validateWasSkipped := false })
      d.hwcDisplay.id (hw.validate d.hwcDisplay.id).1 oc [Call.validate d.hwcDisplay.id]).1
    have hmain : (hasChangesError (hw.validate d.hwcDisplay.id).1 = true
        ∨ (hw.validate d.hwcDisplay.id).1 = Error.NONE) → _ := fun hsoft =>
      retrieveAndAcceptChanges_soft hw
        (putDisplayData s displayId { d with validateWasSkipped := false })
        d.hwcDisplay.id (hw.validate d.hwcDisplay.id).1 oc [Call.validate d.hwcDisplay.id]
        hsoft htypes hrequests
    constructor
    · constructor
      · intro hmem
        by_contra hhard
        have hc : hasChangesError (hw.validate d.hwcDisplay.id).1 = false := by
          cases hb : hasChangesError (hw.validate d.hwcDisplay.id).1
          · rfl
          · exact absurd (Or.inl hb) hhard
        have he : (hw.validate d.hwcDisplay.id).1 ≠ Error.NONE := fun h => hhard (Or.inr h)
        rw [retrieveAndAcceptChanges_hard hw _ _ _ oc _ hc he] at hmem
        simp at hmem
      · intro hsoft
        rw [(hmain hsoft).1]
        simp
    · intro hsoft
      obtain ⟨hcalls, hout, hstatus⟩ := hmain hsoft
      refine ⟨hout, ?_, hstatus, ?_⟩
      · rw [hcalls]
        rfl
      · rw [hstate]
        simp [putDisplayData, Map.find_insert_self]
  | false =>
    have hv : validationError hw d.hwcDisplay.id false
        = (hw.presentOrValidate d.hwcDisplay.id).error := rfl
    have hs : (hw.presentOrValidate d.hwcDisplay.id).state ≠ 1 := by
      rcases hnotpresented with h | h
      · cases h
      · exact h
    rw [hv]
    rcases getDeviceCompositionChanges_device hw s displayId d oc hreg hconn with
      ⟨⟨hc, he⟩, hout⟩ | ⟨hone, _⟩ | ⟨_, hsoft, hout⟩
    · rw [hout]
      constructor
      · constructor
        · intro hmem
          simp at hmem
        · intro hsoft
          rcases hsoft with h | h
          · rw [hc] at h
            cases h
          · exact absurd h he
      · intro hsoft
        rcases hsoft with h | h
        · rw [hc] at h
          cases h
        · exact absurd h he
    · exact absurd hone hs
    · rw [hout]
      obtain ⟨hcalls, hchanges, hstatus⟩ := retrieveAndAcceptChanges_soft hw
        (putDisplayData s displayId { d with validateWasSkipped := false })
        d.hwcDisplay.id (hw.presentOrValidate d.hwcDisplay.id).error oc
        [Call.presentOrValidate d.hwcDisplay.id] hsoft htypes hrequests
      have hstate := (retrieveAndAcceptChanges_facts hw
        (putDisplayData s displayId { d with validateWasSkipped := false })
        d.hwcDisplay.id (hw.presentOrValidate d.hwcDisplay.id).error oc
        [Call.presentOrValidate d.hwcDisplay.id]).1
      constructor
      · constructor
        · intro _
          exact hsoft
        · intro _
          rw [hcalls]
          simp
      · intro _
        refine ⟨hchanges, ?_, hstatus, ?_⟩
        · rw [hcalls]
          rfl
        · rw [hstate]
          simp [putDisplayData, Map.find_insert_self]

/-- Witness for C24: the sample display, a frame without client composition and a
backend whose combined call validates only (state 0, has-changes) and then answers every
call with success. -/
theorem C24_changes_packaged_and_accepted_witness :
    (validatedOnlyBackend.presentOrValidate 1).state ≠ 1
    ∧ validationError validatedOnlyBackend 1 false = Error.HAS_CHANGES
    ∧ (getDeviceCompositionChanges validatedOnlyBackend sampleState
        (HalDisplayId.physical ⟨0⟩) false none).outChanges
      = some { changedTypes := [(3, 1)], displayRequests := 1, layerRequests := [(3, 2)]
               clientTargetProperty := (1, 2) }
    ∧ (getDeviceCompositionChanges validatedOnlyBackend sampleState
        (HalDisplayId.physical ⟨0⟩) false none).calls
      = [Call.presentOrValidate 1, Call.getChangedCompositionTypes 1, Call.getRequests 1,
         Call.getClientTargetProperty 1, Call.acceptChanges 1] :=
  ⟨by decide, rfl,
   ((C24_changes_packaged_and_accepted validatedOnlyBackend sampleState
      (HalDisplayId.physical ⟨0⟩) sampleDisplayData false none rfl rfl
      (Or.inr (by decide)) rfl rfl).2 (Or.inl rfl)).1,
   ((C24_changes_packaged_and_accepted validatedOnlyBackend sampleState
      (HalDisplayId.physical ⟨0⟩) sampleDisplayData false none rfl rfl
      (Or.inr (by decide)) rfl rfl).2 (Or.inl rfl)).2.1⟩

/-- C25 (amended): on a registered display with `validateWasSkipped` false,
`presentAndGetReleaseFences` calls the backend's present exactly once and calls
`getReleaseFences` after it only when present succeeded.  When both succeed it returns
`NO_ERROR`, `lastPresentFence` is the fence returned by present and the release-fence
cache is exactly the map returned by the backend for this cycle; when present or
`getReleaseFences` fails it returns `UNKNOWN_ERROR` and the release-fence cache is left
as it was. -/
theorem C25_present_then_fences (hw : Backend) (s : HWComposer) (displayId : HalDisplayId)
    (d : DisplayData)
    (hreg : Map.find s.mDisplayData displayId = some d)
    (hskip : d.validateWasSkipped = false) :
    (presentAndGetReleaseFences hw s displayId).calls
      = (if (hw.present d.hwcDisplay.id d.lastPresentFence).1 = Error.NONE
          then [Call.present d.hwcDisplay.id, Call.getReleaseFences d.hwcDisplay.id]
          else [Call.present d.hwcDisplay.id])
    ∧ (presentAndGetReleaseFences hw s displayId).calls.count (Call.present d.hwcDisplay.id)
      = 1
    ∧ ((presentAndGetReleaseFences hw s displayId).result
      = (if (hw.present d.hwcDisplay.id d.lastPresentFence).1 = Error.NONE
            ∧ (hw.getReleaseFences d.hwcDisplay.id).1 = Error.NONE
          then Status.NO_ERROR else Status.UNKNOWN_ERROR))
    ∧ (∃ d', Map.find (presentAndGetReleaseFences hw s displayId).state.mDisplayData displayId
          = some d'
        ∧ d'.lastPresentFence = (hw.present d.hwcDisplay.id d.lastPresentFence).2
        ∧ d'.releaseFences
          = (if (hw.present d.hwcDisplay.id d.lastPresentFence).1 = Error.NONE
                ∧ (hw.getReleaseFences d.hwcDisplay.id).1 = Error.NONE
              then (hw.getReleaseFences d.hwcDisplay.id).2 else d.releaseFences)) := by
  by_cases hp : (hw.present d.hwcDisplay.id d.lastPresentFence).1 = Error.NONE <;>
    by_cases hf : (hw.getReleaseFences d.hwcDisplay.id).1 = Error.NONE <;>
    simp [presentAndGetReleaseFences, hreg, hskip, hp, hf, putDisplayData,
      Map.find_insert_self]

/-- Witness for C25: the sample display, whose record has `validateWasSkipped` false,
and a backend that answers both calls with success. -/
theorem C25_present_then_fences_witness :
    (presentAndGetReleaseFences quietBackend sampleState (HalDisplayId.physical ⟨0⟩)).calls
      = [Call.present 1, Call.getReleaseFences 1]
    ∧ (presentAndGetReleaseFences quietBackend sampleState (HalDisplayId.physical ⟨0⟩)).result
      = Status.NO_ERROR :=
  ⟨(C25_present_then_fences quietBackend sampleState (HalDisplayId.physical ⟨0⟩)
      sampleDisplayData rfl rfl).1,
   (C25_present_then_fences quietBackend sampleState (HalDisplayId.physical ⟨0⟩)
      sampleDisplayData rfl rfl).2.2.1⟩

/-- C25 (counterexample): on the sample display with a backend whose present call fails,
`presentAndGetReleaseFences` issues the present call only; `getReleaseFences` is not
called. -/
theorem C25_counterexample :
    (presentAndGetReleaseFences presentErrorBackend sampleState
        (HalDisplayId.physical ⟨0⟩)).calls = [Call.present 1]
    ∧ Call.getReleaseFences 1
      ∉ (presentAndGetReleaseFences presentErrorBackend sampleState
          (HalDisplayId.physical ⟨0⟩)).calls := by
  decide

/-- C26: when the combined call presents (state 1, no hard error) and the release-fence
retrieval that follows reports an error, `getDeviceCompositionChanges` still returns
`NO_ERROR` with `validateWasSkipped` set and records that retrieval error as the stored
present error; the following `presentAndGetReleaseFences` issues no present call and
returns `UNKNOWN_ERROR`, whatever the backend answers then. -/
theorem C26_fence_error_surfaces_as_present_error (hw1 hw2 : Backend) (s : HWComposer)
    (displayId : HalDisplayId) (d : DisplayData) (oc : Option DeviceRequestedChanges)
    (hreg : Map.find s.mDisplayData displayId = some d)
    (hconn : d.hwcDisplay.isConnected = true)
    (hsoft : hasChangesError (hw1.presentOrValidate d.hwcDisplay.id).error = true ∨
      (hw1.presentOrValidate d.hwcDisplay.id).error = Error.NONE)
    (hstate : (hw1.presentOrValidate d.hwcDisplay.id).state = 1)
    (hfence : (hw1.getReleaseFences d.hwcDisplay.id).1 ≠ Error.NONE) :
    (getDeviceCompositionChanges hw1 s displayId false oc).status = Status.NO_ERROR
    ∧ (∃ d', Map.find (getDeviceCompositionChanges hw1 s displayId false oc).state.mDisplayData
          displayId = some d'
        ∧ d'.validateWasSkipped = true
        ∧ d'.presentError = (hw1.getReleaseFences d.hwcDisplay.id).1)
    ∧ (presentAndGetReleaseFences hw2
        (getDeviceCompositionChanges hw1 s displayId false oc).state displayId).result
      = Status.UNKNOWN_ERROR
    ∧ (presentAndGetReleaseFences hw2
        (getDeviceCompositionChanges hw1 s displayId false oc).state displayId).calls
      = [Call.executeCommands] := by
  rw [getDeviceCompositionChanges_presented hw1 s displayId d oc hreg hconn hsoft hstate]
  by_cases he : hw2.executeCommands = Error.NONE <;>
    simp [presentAndGetReleaseFences, putDisplayData, Map.find_insert_self, he, hfence]

/-- Witness for C26: the sample display and a backend that presents during the combined
call but whose release-fence retrieval fails with `BAD_DISPLAY`. -/
theorem C26_fence_error_surfaces_as_present_error_witness :
    ((fenceErrorBackend Error.BAD_DISPLAY).getReleaseFences 1).1 = Error.BAD_DISPLAY
    ∧ (getDeviceCompositionChanges (fenceErrorBackend Error.BAD_DISPLAY) sampleState
        (HalDisplayId.physical ⟨0⟩) false none).status = Status.NO_ERROR
    ∧ (presentAndGetReleaseFences quietBackend
        (getDeviceCompositionChanges (fenceErrorBackend Error.BAD_DISPLAY) sampleState
          (HalDisplayId.physical ⟨0⟩) false none).state (HalDisplayId.physical ⟨0⟩)).result
      = Status.UNKNOWN_ERROR :=
  ⟨rfl,
   (C26_fence_error_surfaces_as_present_error (fenceErrorBackend Error.BAD_DISPLAY)
      quietBackend sampleState (HalDisplayId.physical ⟨0⟩) sampleDisplayData none rfl rfl
      (Or.inr rfl) rfl (by decide)).1,
   (C26_fence_error_surfaces_as_present_error (fenceErrorBackend Error.BAD_DISPLAY)
      quietBackend sampleState (HalDisplayId.physical ⟨0⟩) sampleDisplayData none rfl rfl
      (Or.inr rfl) rfl (by decide)).2.2.1⟩

/-! ## Vsync period and refresh timestamp (C27) -/

/-- C27: on the sample display (registered, physical, backend handle 1), when the
backend display supports vsync period switching and the vsync period query fails with
`BAD_DISPLAY`, `getDisplayVsyncPeriod` returns 0 and `getRefreshTimestamp` takes the
remainder by zero; the same happens when the backend reports no active mode
(`BAD_CONFIG`) for a display without vsync period switching. -/
theorem C27_refresh_timestamp_zero_period :
    getDisplayVsyncPeriod periodErrorBackend sampleState ⟨0⟩ = 0
    ∧ getRefreshTimestamp periodErrorBackend sampleState ⟨0⟩ 1000 = none
    ∧ getDisplayVsyncPeriod noActiveModeBackend loadedState ⟨0⟩ = 0
    ∧ getRefreshTimestamp noActiveModeBackend loadedState ⟨0⟩ 1000 = none
    ∧ getRefreshTimestamp activeModeBackend loadedState ⟨0⟩ 1000
      = some (1000 - (1000 : Int).tmod 16666666) := by
  decide

/-! ## Mode indices (C28) -/

theorem loadModes_modes_getElem? (hw : Backend) (d : DisplayData) (h : HWDisplayId)
    (hload : (hw.getDisplayConfigs h).1 = Error.NONE) (i : Nat) :
    (loadModes hw d h).1.modes[i]?
      = (hw.getDisplayConfigs h).2[i]?.map (fun c => buildMode hw h c i) := by
  simp only [loadModes, hload, ne_eq, not_true_eq_false, if_false, loadModesLoop_eq,
    List.nil_append, List.length_nil]
  rw [List.getElem?_map, List.getElem?_enumFrom]
  cases (hw.getDisplayConfigs h).2[i]? <;> simp

/-- C28: after a successful mode-list load the mode at position `i` has logical index `i`
and the backend config id of the `i`-th id returned by the backend, and the list has one
mode per id.  Consequently `setActiveModeWithConstraints(modeId)` on a display holding
that list passes to the backend the config id of the mode whose logical index is
`modeId` when `modeId` is less than the number of modes, returning `NO_ERROR` or
`UNKNOWN_ERROR` after that one call, and returns `BAD_INDEX` without any backend call
when `modeId` is out of range. -/
theorem C28_mode_index_is_position (hw0 hw : Backend) (s : HWComposer)
    (p : PhysicalDisplayId) (d : DisplayData) (h : HWDisplayId) (modeId : Nat)
    (hload : (hw0.getDisplayConfigs h).1 = Error.NONE)
    (hreg : Map.find s.mDisplayData (HalDisplayId.physical p) = some (loadModes hw0 d h).1) :
    (loadModes hw0 d h).1.modes.length = (hw0.getDisplayConfigs h).2.length
    ∧ (∀ i c, (hw0.getDisplayConfigs h).2[i]? = some c →
        ∃ m : DisplayMode,
          (loadModes hw0 d h).1.modes[i]? = some m ∧ m.id = i ∧ m.hwcId = c)
    ∧ (∀ c, (hw0.getDisplayConfigs h).2[modeId]? = some c →
        setActiveModeWithConstraints hw s p modeId
          = (if hw.setActiveConfigWithConstraints d.hwcDisplay.id c = Error.NONE
              then Status.NO_ERROR else Status.UNKNOWN_ERROR,
             [Call.setActiveConfigWithConstraints d.hwcDisplay.id c]))
    ∧ ((hw0.getDisplayConfigs h).2.length ≤ modeId →
        setActiveModeWithConstraints hw s p modeId = (Status.BAD_INDEX, [])) := by
  have hget := loadModes_modes_getElem? hw0 d h hload
  have hlen : (loadModes hw0 d h).1.modes.length = (hw0.getDisplayConfigs h).2.length := by
    simp [loadModes, hload, loadModesLoop_eq]
  refine ⟨hlen, ?_, ?_, ?_⟩
  · intro i c hc
    refine ⟨buildMode hw0 h c i, ?_, rfl, rfl⟩
    rw [hget, hc]
    rfl
  · intro c hc
    have hm : (loadModes hw0 d h).1.modes[modeId]? = some (buildMode hw0 h c modeId) := by
      rw [hget, hc]
      rfl
    simp only [setActiveModeWithConstraints, hreg, hm, loadModes_hwcDisplay]
    by_cases he : hw.setActiveConfigWithConstraints d.hwcDisplay.id c = Error.NONE <;>
      simp [he, buildMode]
  · intro hle
    have hm : (loadModes hw0 d h).1.modes[modeId]? = none := by
      apply List.getElem?_eq_none
      rw [hlen]
      exact hle
    simp [setActiveModeWithConstraints, hreg, hm]

/-- Witness for C28: a display holding the modes loaded from a backend with the three
configurations 10, 11 and 12; mode index 2 selects configuration 12. -/
theorem C28_mode_index_is_position_witness :
    (attributeErrorBackend.getDisplayConfigs 1).1 = Error.NONE
    ∧ (loadModes attributeErrorBackend sampleDisplayData 1).1.modes.length = 3
    ∧ setActiveModeWithConstraints quietBackend
        { sampleState with
          mDisplayData := [(HalDisplayId.physical ⟨0⟩,
            (loadModes attributeErrorBackend sampleDisplayData 1).1)] } ⟨0⟩ 2
      = (Status.NO_ERROR, [Call.setActiveConfigWithConstraints 1 12]) :=
  ⟨rfl,
   (C28_mode_index_is_position attributeErrorBackend quietBackend
      { sampleState with
        mDisplayData := [(HalDisplayId.physical ⟨0⟩,
          (loadModes attributeErrorBackend sampleDisplayData 1).1)] }
      ⟨0⟩ sampleDisplayData 1 2 rfl rfl).1,
   (C28_mode_index_is_position attributeErrorBackend quietBackend
      { sampleState with
        mDisplayData := [(HalDisplayId.physical ⟨0⟩,
          (loadModes attributeErrorBackend sampleDisplayData 1).1)] }
      ⟨0⟩ sampleDisplayData 1 2 rfl rfl).2.2.1 12 rfl⟩

end HWC

namespace CursorMapper

/-! ## First-time configuration of a navigation device (C29) -/

/-- C29: after the first-time configuration (`changes == 0`, pointer capture off) of a
device whose `cursor.mode` property is `navigation`, `getSources()` returns
`AINPUT_SOURCE_TOUCHSCREEN` when `forceMouseAsTouch` is set and `AINPUT_SOURCE_MOUSE` when
it is not, never `AINPUT_SOURCE_TRACKBALL`: the source assigned in the mode switch is
overwritten by the force-mouse-as-touch block, although the mode stays
`MODE_NAVIGATION`. -/
theorem C29_navigation_source_overwritten (flags : ChangeFlags) (m : CursorInputMapper)
    (force : Bool) :
    getSources (configure flags navigationDevice
        { forceMouseAsTouch := force, pointerCapture := false } 0 m)
      = (if force then AINPUT_SOURCE_TOUCHSCREEN else AINPUT_SOURCE_MOUSE)
    ∧ getSources (configure flags navigationDevice
        { forceMouseAsTouch := force, pointerCapture := false } 0 m) ≠ AINPUT_SOURCE_TRACKBALL
    ∧ (configure flags navigationDevice
        { forceMouseAsTouch := force, pointerCapture := false } 0 m).mParameters.mode
      = Mode.MODE_NAVIGATION
    ∧ getSources (configureFirstTime navigationDevice
        { forceMouseAsTouch := force, pointerCapture := false }) = AINPUT_SOURCE_TRACKBALL := by
  cases force <;>
    simp [configure, configureFirstTime, configureParameters, navigationDevice,
      configureForceMouseAsTouch, getSources, AINPUT_SOURCE_TOUCHSCREEN, AINPUT_SOURCE_MOUSE,
      AINPUT_SOURCE_TRACKBALL]


/-! ## Button state bookkeeping in `sync` (C30) -/

theorem testBit_not32 (x i : Nat) :
    (not32 x).testBit i = (decide (i < 32) ^^ x.testBit i) := by
  have h : (0xFFFFFFFF : Nat) = 2 ^ 32 - 1 := by norm_num
  rw [not32, Nat.testBit_xor, h, Nat.testBit_two_pow_sub_one]

theorem testBit_of_lt_32 (x i : Nat) (hx : x < 2 ^ 32) (hi : 32 ≤ i) :
    x.testBit i = false := by
  apply Nat.testBit_lt_two_pow
  exact Nat.lt_of_lt_of_le hx (Nat.pow_le_pow_right (by decide) hi)

theorem firstMarkedFrom_spec (value : Nat) (count n : Nat)
    (hex : ∃ m, n ≤ m ∧ m < n + count ∧ value.testBit (31 - m) = true) :
    n ≤ firstMarkedFrom value count n
    ∧ firstMarkedFrom value count n < n + count
    ∧ value.testBit (31 - firstMarkedFrom value count n) = true
    ∧ ∀ m, n ≤ m → m < firstMarkedFrom value count n → value.testBit (31 - m) = false := by
  induction count generalizing n with
  | zero =>
    obtain ⟨m, h1, h2, _⟩ := hex
    omega
  | succ count ih =>
    unfold firstMarkedFrom
    by_cases hb : value.testBit (31 - n) = true
    · rw [if_pos hb]
      refine ⟨Nat.le_refl n, by omega, hb, ?_⟩
      intro m h1 h2
      omega
    · rw [if_neg hb]
      have hex' : ∃ m, n + 1 ≤ m ∧ m < n + 1 + count ∧ value.testBit (31 - m) = true := by
        obtain ⟨m, h1, h2, h3⟩ := hex
        refine ⟨m, ?_, by omega, h3⟩
        rcases Nat.eq_or_lt_of_le h1 with heq | hlt
        · subst heq
          exact absurd h3 hb
        · exact hlt
      obtain ⟨i1, i2, i3, i4⟩ := ih (n + 1) hex'
      refine ⟨by omega, by omega, i3, ?_⟩
      intro m h1 h2
      rcases Nat.eq_or_lt_of_le h1 with heq | hlt
      · subst heq
        simpa using hb
      · exact i4 m hlt h2

/-- The first marked bit of a non-empty 32-bit set is its most significant set bit. -/
theorem firstMarkedBit_spec (x : Nat) (hne : x ≠ 0) (hx : x < 2 ^ 32) :
    ∃ k, k ≤ 31 ∧ valueForBit (firstMarkedBit x) = 2 ^ k ∧ x.testBit k = true
      ∧ ∀ j, k < j → x.testBit j = false := by
  obtain ⟨i, hi⟩ := Nat.ne_zero_implies_bit_true hne
  have hi32 : i < 32 := by
    by_contra hge
    rw [testBit_of_lt_32 x i hx (by omega)] at hi
    cases hi
  have hex : ∃ m, 0 ≤ m ∧ m < 0 + 32 ∧ x.testBit (31 - m) = true :=
    ⟨31 - i, Nat.zero_le _, by omega, by
      have : 31 - (31 - i) = i := by omega
      rw [this]
      exact hi⟩
  obtain ⟨_, h2, h3, h4⟩ := firstMarkedFrom_spec x 32 0 hex
  refine ⟨31 - firstMarkedBit x, by omega, ?_, h3, ?_⟩
  · have hr : firstMarkedBit x ≤ 31 := by
      unfold firstMarkedBit
      omega
    have h31 : (0x80000000 : Nat) = 2 ^ 31 := by norm_num
    rw [valueForBit, Nat.shiftRight_eq_div_pow, h31, Nat.pow_div hr (by decide)]
  · intro j hj
    by_cases hj32 : 32 ≤ j
    · exact testBit_of_lt_32 x j hx hj32
    · have hm := h4 (31 - j) (Nat.zero_le _) (by
        unfold firstMarkedBit at hj
        omega)
      have : 31 - (31 - j) = j := by omega
      rw [this] at hm
      exact hm

theorem testBit_clear_top (x k i : Nat) :
    (x &&& not32 (2 ^ k)).testBit i = (x.testBit i && (decide (i < 32) ^^ decide (k = i))) := by
  rw [Nat.testBit_and, testBit_not32, Nat.testBit_two_pow]

theorem clear_top_lt (x k : Nat) (hk : k ≤ 31) (htop : ∀ j, k < j → x.testBit j = false) :
    x &&& not32 (2 ^ k) < 2 ^ k := by
  apply Nat.lt_pow_two_of_testBit
  intro i hi
  rw [testBit_clear_top]
  rcases Nat.eq_or_lt_of_le hi with heq | hlt
  · subst heq
    have : k < 32 := by omega
    simp [this]
  · simp [htop i hlt]

theorem releaseLoop_eq (fuel : Nat) :
    ∀ (r st : Nat), r < 2 ^ fuel → r < 2 ^ 32 → st < 2 ^ 32 →
      releaseLoop fuel r st = some (st &&& not32 r) := by
  induction fuel with
  | zero =>
    intro r st hr _ hst
    have hr0 : r = 0 := by
      simp at hr
      exact hr
    subst hr0
    simp only [releaseLoop, if_true, Option.some.injEq]
    apply Nat.eq_of_testBit_eq
    intro i
    rw [Nat.testBit_and, testBit_not32, Nat.zero_testBit]
    by_cases hi : i < 32
    · simp [hi]
    · simp [testBit_of_lt_32 st i hst (by omega)]
  | succ fuel ih =>
    intro r st hr hr32 hst
    by_cases hr0 : r = 0
    · subst hr0
      simp only [releaseLoop, if_true, Option.some.injEq]
      apply Nat.eq_of_testBit_eq
      intro i
      rw [Nat.testBit_and, testBit_not32, Nat.zero_testBit]
      by_cases hi : i < 32
      · simp [hi]
      · simp [testBit_of_lt_32 st i hst (by omega)]
    · obtain ⟨k, hk, hval, hbit, htop⟩ := firstMarkedBit_spec r hr0 hr32
      simp only [releaseLoop, if_neg hr0, hval]
      have hkf : k < fuel + 1 := by
        by_contra hge
        have hlt : r < 2 ^ k :=
          Nat.lt_of_lt_of_le hr (Nat.pow_le_pow_right (by decide) (by omega))
        rw [Nat.testBit_lt_two_pow hlt] at hbit
        cases hbit
      have hr' : r &&& not32 (2 ^ k) < 2 ^ k := clear_top_lt r k hk htop
      have hr'f : r &&& not32 (2 ^ k) < 2 ^ fuel :=
        Nat.lt_of_lt_of_le hr' (Nat.pow_le_pow_right (by decide) (by omega))
      have hr'32 : r &&& not32 (2 ^ k) < 2 ^ 32 :=
        Nat.lt_of_lt_of_le hr' (Nat.pow_le_pow_right (by decide) (by omega))
      have hst' : st &&& not32 (2 ^ k) < 2 ^ 32 :=
        Nat.lt_of_le_of_lt Nat.and_le_left hst
      rw [ih _ _ hr'f hr'32 hst']
      congr 1
      apply Nat.eq_of_testBit_eq
      intro i
      rw [Nat.testBit_and, testBit_clear_top, testBit_not32, testBit_clear_top,
        Nat.testBit_and, testBit_not32]
      by_cases hi : i < 32
      · by_cases hki : k = i
        · subst hki
          simp [hi, hbit]
        · simp [hi, hki]
      · simp [testBit_of_lt_32 st i hst (by omega)]

theorem pressLoop_eq (fuel : Nat) :
    ∀ (p st : Nat), p < 2 ^ fuel → p < 2 ^ 32 →
      pressLoop fuel p st = some (st ||| p) := by
  induction fuel with
  | zero =>
    intro p st hp _
    have hp0 : p = 0 := by
      simp at hp
      exact hp
    subst hp0
    simp [pressLoop]
  | succ fuel ih =>
    intro p st hp hp32
    by_cases hp0 : p = 0
    · subst hp0
      simp [pressLoop]
    · obtain ⟨k, hk, hval, hbit, htop⟩ := firstMarkedBit_spec p hp0 hp32
      simp only [pressLoop, if_neg hp0, hval]
      have hkf : k < fuel + 1 := by
        by_contra hge
        have hlt : p < 2 ^ k :=
          Nat.lt_of_lt_of_le hp (Nat.pow_le_pow_right (by decide) (by omega))
        rw [Nat.testBit_lt_two_pow hlt] at hbit
        cases hbit
      have hp' : p &&& not32 (2 ^ k) < 2 ^ k := clear_top_lt p k hk htop
      have hp'f : p &&& not32 (2 ^ k) < 2 ^ fuel :=
        Nat.lt_of_lt_of_le hp' (Nat.pow_le_pow_right (by decide) (by omega))
      have hp'32 : p &&& not32 (2 ^ k) < 2 ^ 32 :=
        Nat.lt_of_lt_of_le hp' (Nat.pow_le_pow_right (by decide) (by omega))
      rw [ih _ _ hp'f hp'32]
      congr 1
      apply Nat.eq_of_testBit_eq
      intro i
      rw [Nat.testBit_or, Nat.testBit_or, testBit_clear_top, Nat.testBit_two_pow,
        Nat.testBit_or]
      by_cases hi : i < 32
      · by_cases hki : k = i
        · subst hki
          simp [hi, hbit]
        · simp [hi, hki]
      · have hki : k ≠ i := by omega
        simp [hki, testBit_of_lt_32 p i hp32 (by omega)]

theorem buttonsReleased_lt (last cur : Nat) (hlast : last < 2 ^ 32) :
    buttonsReleased last cur < 2 ^ 32 :=
  Nat.lt_of_le_of_lt Nat.and_le_left hlast

theorem buttonsPressed_lt (last cur : Nat) (hcur : cur < 2 ^ 32) :
    buttonsPressed last cur < 2 ^ 32 :=
  Nat.lt_of_le_of_lt Nat.and_le_left hcur

/-- C30: for every pair of 32-bit previous and current button states, the running
`buttonState` of `sync`, which starts at `lastButtonState`, has each bit of
`buttonsReleased` cleared one at a time and then each bit of `buttonsPressed` set one at
a time, is defined (both loops finish within 32 rounds) and equals `currentButtonState`
when the assertion after the press loop is reached; `buttonsPressed` and
`buttonsReleased` share no bit. -/
theorem C30_button_state_reaches_current (lastButtonState currentButtonState : Nat)
    (hlast : lastButtonState < 2 ^ 32) (hcur : currentButtonState < 2 ^ 32) :
    buttonStateAtAssert lastButtonState currentButtonState = some currentButtonState
    ∧ buttonsPressed lastButtonState currentButtonState
        &&& buttonsReleased lastButtonState currentButtonState = 0 := by
  have hrel : releaseLoop 32 (buttonsReleased lastButtonState currentButtonState)
      lastButtonState
        = some (lastButtonState &&& not32 (buttonsReleased lastButtonState currentButtonState)) :=
    releaseLoop_eq 32 _ _ (buttonsReleased_lt _ _ hlast) (buttonsReleased_lt _ _ hlast) hlast
  have hrel0 : buttonsReleased lastButtonState currentButtonState = 0 →
      lastButtonState
        = lastButtonState &&& not32 (buttonsReleased lastButtonState currentButtonState) := by
    intro h0
    have := hrel
    rw [h0] at this ⊢
    simp only [releaseLoop, if_true, Option.some.injEq] at this
    exact this
  have hpress : ∀ st, pressLoop 32 (buttonsPressed lastButtonState currentButtonState) st
      = some (st ||| buttonsPressed lastButtonState currentButtonState) :=
    fun st => pressLoop_eq 32 _ st (buttonsPressed_lt _ _ hcur) (buttonsPressed_lt _ _ hcur)
  have hfinal : (lastButtonState &&& not32 (buttonsReleased lastButtonState currentButtonState))
      ||| buttonsPressed lastButtonState currentButtonState = currentButtonState := by
    apply Nat.eq_of_testBit_eq
    intro i
    simp only [buttonsPressed, buttonsReleased, Nat.testBit_or, Nat.testBit_and, testBit_not32]
    by_cases hi : i < 32
    · cases lastButtonState.testBit i <;> cases currentButtonState.testBit i <;> simp [hi]
    · simp [testBit_of_lt_32 lastButtonState i hlast (by omega),
        testBit_of_lt_32 currentButtonState i hcur (by omega)]
  constructor
  · unfold buttonStateAtAssert
    by_cases hr0 : buttonsReleased lastButtonState currentButtonState = 0
    · have hkeep := (hrel0 hr0).symm
      rw [hkeep] at hfinal
      by_cases hp0 : buttonsPressed lastButtonState currentButtonState = 0
      · rw [hp0, Nat.or_zero] at hfinal
        simp only [hr0, hp0, ne_eq, not_true_eq_false, if_false, Option.some.injEq]
        exact hfinal
      · simp only [hr0, hp0, ne_eq, not_true_eq_false, not_false_eq_true, if_false, if_true]
        rw [hpress, hfinal]
    · by_cases hp0 : buttonsPressed lastButtonState currentButtonState = 0
      · rw [hp0, Nat.or_zero] at hfinal
        simp only [hr0, hp0, ne_eq, not_true_eq_false, not_false_eq_true, if_false, if_true,
          hrel, Option.some.injEq]
        exact hfinal
      · simp only [hr0, hp0, ne_eq, not_false_eq_true, if_true, hrel]
        rw [hpress, hfinal]
  · apply Nat.eq_of_testBit_eq
    intro i
    simp only [buttonsPressed, buttonsReleased, Nat.testBit_and, testBit_not32, Nat.zero_testBit]
    by_cases hi : i < 32
    · cases lastButtonState.testBit i <;> cases currentButtonState.testBit i <;> simp [hi]
    · simp [testBit_of_lt_32 lastButtonState i hlast (by omega),
        testBit_of_lt_32 currentButtonState i hcur (by omega)]

/-- Witness for C30: left button held (1), then left released and right pressed (2). -/
theorem C30_button_state_reaches_current_witness :
    (1 : Nat) < 2 ^ 32 ∧ (2 : Nat) < 2 ^ 32
    ∧ buttonStateAtAssert 1 2 = some 2
    ∧ buttonsPressed 1 2 &&& buttonsReleased 1 2 = 0 :=
  ⟨by decide, by decide, C30_button_state_reaches_current 1 2 (by decide) (by decide)⟩

end CursorMapper
